import Mathlib

/-!
Verification of the patch engine in `src/apply-patches.py`: the format
classifier, the anchor resolvers, the JS/CSS transform pipeline
(`patch_js` / `patch_css`), and the reverser (`clean`), shallowly embedded
over texts modelled as lists of characters.  Python regular expressions are
embedded as the deterministic scanners they denote on their concrete
patterns (every pattern used by the source resolves greediness and
backtracking deterministically, as each repeated class is bounded by a
literal it cannot consume; the one pattern with a genuine retry loop, the
minified block remover of `clean`, is embedded with its retry loop).
-/

set_option maxRecDepth 100000

namespace CCPatch

/-- Artifact text, modelled as its list of characters. -/
abbrev Text := List Char

/-- The characters of a string literal. -/
def lit (s : String) : Text := s.data

/-- Does the text begin with the pattern (Python str.startswith). -/
def leadsWith : Text → Text → Bool
  | [], _ => true
  | _ :: _, [] => false
  | a :: n, b :: h => a == b && leadsWith n h

/-- Python substring containment (`needle in hay`). -/
def occursB (n : Text) : Text → Bool
  | [] => leadsWith n []
  | c :: t => leadsWith n (c :: t) || occursB n t

/-- Index of the first occurrence of the pattern (Python str.find). -/
def findSub (n : Text) : Text → Option Nat
  | [] => if leadsWith n [] then some 0 else none
  | c :: t =>
    if leadsWith n (c :: t) then some 0
    else (findSub n t).map (· + 1)

/-- Split the text around the first occurrence of the pattern. -/
def splitFirst (n : Text) : Text → Option (Text × Text)
  | [] => if leadsWith n [] then some ([], []) else none
  | c :: t =>
    if leadsWith n (c :: t) then some ([], (c :: t).drop n.length)
    else (splitFirst n t).map (fun p => (c :: p.1, p.2))

/-- Python str.replace(old, new, 1): replace the first occurrence only. -/
def replaceFirst (n r h : Text) : Text :=
  match splitFirst n h with
  | some (p, s) => p ++ r ++ s
  | none => h

/-- Fuelled worker for replaceAll. -/
def replaceAllF (n r : Text) : Nat → Text → Text
  | 0, h => h
  | _ + 1, [] => []
  | fuel + 1, c :: t =>
    if leadsWith n (c :: t) then r ++ replaceAllF n r fuel ((c :: t).drop n.length)
    else c :: replaceAllF n r fuel t

/-- Python str.replace(old, new): replace every occurrence, left to right,
non-overlapping.  The sources only ever call it with a non-empty old. -/
def replaceAll (n r h : Text) : Text := replaceAllF n r h.length h

/-- Python str.split over a single newline. -/
def splitNl : Text → List Text
  | [] => [[]]
  | c :: t =>
    if c == '\n' then [] :: splitNl t
    else
      match splitNl t with
      | [] => [[c]]
      | l :: ls => (c :: l) :: ls

/-- Python newline join. -/
def joinNl : List Text → Text
  | [] => []
  | [l] => l
  | l :: ls => l ++ '\n' :: joinNl ls

/-- Python slice content[a:b] (with both bounds clamped). -/
def pySlice (a b : Nat) (t : Text) : Text := (t.take b).drop a

/-- Longest prefix of characters satisfying p, with the remainder. -/
def munch (p : Char → Bool) : Text → Text × Text
  | [] => ([], [])
  | c :: t =>
    if p c then
      let r := munch p t
      (c :: r.1, r.2)
    else ([], c :: t)

/-- Python default whitespace (the regex class \s, ASCII part). -/
def isPySpace (c : Char) : Bool :=
  c == ' ' || c == '\t' || c == '\n' || c == '\r' || c == '\x0b' || c == '\x0c'

/-- Python str.rstrip(). -/
def pyRstrip (t : Text) : Text := ((munch isPySpace t.reverse).2).reverse

/-- Python str.strip(). -/
def pyStrip (t : Text) : Text := (munch isPySpace (pyRstrip t)).2

/-- JavaScript identifier start, the class [$_a-zA-Z] of _JS_ID. -/
def jsIdStart (c : Char) : Bool :=
  c == '$' || c == '_' || ('a' ≤ c && c ≤ 'z') || ('A' ≤ c && c ≤ 'Z')

/-- JavaScript identifier character, the class [$_a-zA-Z0-9]. -/
def jsIdChar (c : Char) : Bool := jsIdStart c || ('0' ≤ c && c ≤ '9')

/-- The class [a-zA-Z] of the usageData minified pattern. -/
def alphaChar (c : Char) : Bool := ('a' ≤ c && c ≤ 'z') || ('A' ≤ c && c ≤ 'Z')

/-- The class [a-zA-Z0-9] of the usageData minified pattern. -/
def alnumChar (c : Char) : Bool := alphaChar c || ('0' ≤ c && c ≤ '9')

/-- Consume a literal at the head of the text, or fail. -/
def stripLit (l h : Text) : Option Text :=
  if leadsWith l h then some (h.drop l.length) else none

/-- Consume a maximal _JS_ID identifier (at least one character) at the head. -/
def stripId : Text → Option (Text × Text)
  | [] => none
  | c :: t =>
    if jsIdStart c then
      let r := munch jsIdChar t
      some (c :: r.1, r.2)
    else none

/-- Leftmost position at which the single-position matcher succeeds,
returned with the text before that position (re.search / re.sub count=1). -/
def scanSplit (m : Text → Option α) : Text → Option (Text × α)
  | [] => (m []).map (fun a => (([] : Text), a))
  | c :: t =>
    match m (c :: t) with
    | some a => some ([], a)
    | none => (scanSplit m t).map (fun p => (c :: p.1, p.2))

/-- Fuelled worker for scanIterPos. -/
def scanIterPosF (m : Text → Option (Nat × α)) : Nat → Nat → Text → List (Nat × Nat × α)
  | 0, _, _ => []
  | fuel + 1, pos, h =>
    match m h with
    | some (k, a) =>
      (pos, pos + k, a) :: scanIterPosF m fuel (pos + max k 1) (h.drop (max k 1))
    | none =>
      match h with
      | [] => []
      | _ :: t => scanIterPosF m fuel (pos + 1) t

/-- re.finditer: all non-overlapping matches left to right, each with its
start and end position; scanning resumes after each match. -/
def scanIterPos (m : Text → Option (Nat × α)) (h : Text) : List (Nat × Nat × α) :=
  scanIterPosF m (h.length + 1) 0 h

/-- A lazy gap followed by a literal (the pattern .*?LIT with DOTALL, when
nothing after the literal can fail): consume up to and including the first
occurrence of the literal. -/
def lazyThrough (l h : Text) : Option Text :=
  (findSub l h).map (fun i => h.drop (i + l.length))

/-- Fuelled worker for subAllWith. -/
def subAllWithF (m : Text → Option Nat) (rep : Text) : Nat → Text → Text
  | 0, h => h
  | fuel + 1, h =>
    match m h with
    | some k => rep ++ subAllWithF m rep fuel (h.drop (max k 1))
    | none =>
      match h with
      | [] => []
      | c :: t => c :: subAllWithF m rep fuel t

/-- re.sub without count: replace every non-overlapping match, scanning
left to right and resuming after each match. -/
def subAllWith (m : Text → Option Nat) (rep h : Text) : Text :=
  subAllWithF m rep (h.length + 1) h

/-- re.sub with count=1: replace the leftmost match only. -/
def subFirstWith (m : Text → Option Nat) (rep h : Text) : Text :=
  match scanSplit (fun s => (m s).map (fun k => s.drop k)) h with
  | some (pre, rest) => pre ++ rep ++ rest
  | none => h

/-- usageData signal initial shape, prettified original. -/
def USAGE_DATA_ORIGINAL : Text := lit "  usageData = g1(\x7b\n    totalTokens: 0,\n    totalCost: 0,\n    contextWindow: 0,\n    maxOutputTokens: 0,\n  \x7d);"

/-- usageData signal initial shape, prettified patched. -/
def USAGE_DATA_PATCHED : Text := lit "  usageData = g1(\x7b\n    totalTokens: 0,\n    totalCost: 0,\n    contextWindow: 0,\n    maxOutputTokens: 0,\n    inputTokens: 0,\n    outputTokens: 0,\n    cacheCreation: 0,\n    cacheRead: 0,\n  \x7d);"

/-- updateUsage assignment, prettified original. -/
def UPDATE_USAGE_ORIGINAL : Text := lit "    this.usageData.value = \x7b\n      totalTokens: J,\n      totalCost: Z.totalCost,\n      contextWindow: Z.contextWindow,\n      maxOutputTokens: Z.maxOutputTokens,\n    \x7d;\n  \x7d"

/-- updateUsage assignment, prettified patched. -/
def UPDATE_USAGE_PATCHED : Text := lit "    this.usageData.value = \x7b\n      totalTokens: J,\n      totalCost: Z.totalCost,\n      contextWindow: Z.contextWindow,\n      maxOutputTokens: Z.maxOutputTokens,\n      inputTokens: $.input_tokens || 0,\n      outputTokens: (Z.outputTokens || 0) + ($.output_tokens || 0),\n      cacheCreation: $.cache_creation_input_tokens || 0,\n      cacheRead: $.cache_read_input_tokens || 0,\n    \x7d;\n  \x7d"

/-- updateUsage assignment, minified original. -/
def UPDATE_USAGE_MIN_ORIGINAL : Text := lit "usageData.value=\x7btotalTokens:J,totalCost:Z.totalCost,contextWindow:Z.contextWindow,maxOutputTokens:Z.maxOutputTokens\x7d"

/-- updateUsage assignment, minified patched. -/
def UPDATE_USAGE_MIN_PATCHED : Text := lit "usageData.value=\x7btotalTokens:J,totalCost:Z.totalCost,contextWindow:Z.contextWindow,maxOutputTokens:Z.maxOutputTokens,inputTokens:$.input_tokens||0,outputTokens:(Z.outputTokens||0)+($.output_tokens||0),cacheCreation:$.cache_creation_input_tokens||0,cacheRead:$.cache_read_input_tokens||0\x7d"

/-- result handler assignment, prettified original. -/
def RESULT_HANDLER_ORIGINAL : Text := lit "        this.usageData.value = \x7b\n          totalTokens: J.totalTokens,\n          totalCost: $.total_cost_usd,\n          contextWindow: X,\n          maxOutputTokens: Q,\n        \x7d;"

/-- result handler assignment, prettified patched. -/
def RESULT_HANDLER_PATCHED : Text := lit "        this.usageData.value = \x7b\n          totalTokens: J.totalTokens,\n          totalCost: $.total_cost_usd,\n          contextWindow: X,\n          maxOutputTokens: Q,\n          inputTokens: J.inputTokens || 0,\n          outputTokens: J.outputTokens || 0,\n          cacheCreation: J.cacheCreation || 0,\n          cacheRead: J.cacheRead || 0,\n        \x7d;"

/-- result handler assignment, minified original. -/
def RESULT_HANDLER_MIN_ORIGINAL : Text := lit "usageData.value=\x7btotalTokens:J.totalTokens,totalCost:$.total_cost_usd,contextWindow:X,maxOutputTokens:Q\x7d"

/-- result handler assignment, minified patched. -/
def RESULT_HANDLER_MIN_PATCHED : Text := lit "usageData.value=\x7btotalTokens:J.totalTokens,totalCost:$.total_cost_usd,contextWindow:X,maxOutputTokens:Q,inputTokens:J.inputTokens||0,outputTokens:J.outputTokens||0,cacheCreation:J.cacheCreation||0,cacheRead:J.cacheRead||0\x7d"

/-- compact boundary reset expression, prettified original. -/
def COMPACT_ORIGINAL : Text := lit "\x7b ...this.usageData.value, totalTokens: 0 \x7d"

/-- compact boundary reset expression, prettified patched. -/
def COMPACT_PATCHED : Text := lit "\x7b ...this.usageData.value, totalTokens: 0, inputTokens: 0, outputTokens: 0, cacheCreation: 0, cacheRead: 0 \x7d"

/-- compact boundary reset expression, minified original. -/
def COMPACT_MIN_ORIGINAL : Text := lit "\x7b...this.usageData.value,totalTokens:0\x7d"

/-- compact boundary reset expression, minified patched. -/
def COMPACT_MIN_PATCHED : Text := lit "\x7b...this.usageData.value,totalTokens:0,inputTokens:0,outputTokens:0,cacheCreation:0,cacheRead:0\x7d"

/-- Piece 1 of 6 of the metrics component template. -/
def METRICS_TEMPLATE_1 : Text := lit "\nvar _ccSessionStart = Date.now();\nvar _ccAccent = \"#e04040\";\nvar _ccDim = \"rgba(255,255,255,0.55)\";\nfunction _ccV(t) \x7b return n4.default.createElement(\"span\", \x7b className: \"cc-accent\", style: \x7b color: _ccAccent \x7d \x7d, t); \x7d\nvar _ccP = \x7b\n  brain: [[\"path\",\x7bd:\"M12 18V5\"\x7d],[\"path\",\x7bd:\"M15 13a4.17 4.17 0 0 1-3-4 4.17 4.17 0 0 1-3 4\"\x7d],[\"path\",\x7bd:\"M17.598 6.5A3 3 0 1 0 12 5a3 3 0 1 0-5.598 1.5\"\x7d],[\"path\",\x7bd:\"M17.997 5.125a4 4 0 0 1 2.526 5.77\"\x7d],[\"path\",\x7bd:\"M18 18a4 4 0 0 0 2-7.464\"\x7d],[\"path\",\x7bd:\"M19.967 17.483A4 4 0 1 1 12 18a4 4 0 1 1-7.967-.517\"\x7d],[\"path\",\x7bd:\"M6 18a4 4 0 0 1-2-7.464\"\x7d],[\"path\",\x7bd:\"M6.003 5.125a4 4 0 0 0-2.526 5.77\"\x7d]],\n  dollar: [[\"line\",\x7bx1:\"12\",x2:\"12\",y1:\"2\",y2:\"22\"\x7d],[\"path\",\x7bd:\"M17 5H9.5a3.5 3.5 0 0 0 0 7h5a3.5 3.5 0 0 1 0 7H6\"\x7d]],\n  layers: [[\"path\",\x7bd:\"M12.83 2.18a2 2 0 0 0-1.66 0L2.6 6.08a1 1 0 0 0 0 1.83l8.58 3.91a2 2 0 0 0 1.66 0l8.58-3.9a1 1 0 0 0 0-1.83z\"\x7d],[\"path\",\x7bd:\"M2 12a1 1 0 0 0 .58.91l8.6 3.91a2 2 0 0 0 1.65 0l8.58-3.9A1 1 0 0 0 22 12\"\x7d],[\"path\",\x7bd:\"M2 17a1 1 0 0 0 .58.91l8.6 3.91a2 2 0 0 0 1.65 0l8.58-3.9A1 1 0 0 0 22 17\"\x7d]],\n  arrowDown: [[\"path\",\x7bd:\"M12 17V3\"\x7d],[\"path\",\x7bd:\"m6 11 6 6 6-6\"\x7d],[\"path\",\x7bd:\"M19 21H5\"\x7d]],\n  arrowUp: [[\"path\",\x7bd:\"m18 9-6-6-6 6\"\x7d],[\"path\",\x7bd:\"M12 3v14\"\x7d],[\"path\",\x7bd:\"M5 21h14\"\x7d]],\n  zap: [[\"path\",\x7bd:\"M4 14a1 1 0 0 1-.78-1.63l9.9-10.2a.5.5 0 0 1 .86.46l-1.92 6.02A1 1 0 0 0 13 10h7a1 1 0 0 1 .78 1.63l-9.9 10.2a.5.5 0 0 1-.86-.46l1.92-6.02A1 1 0 0 0 11 14z\"\x7d]],\n  calDays: [[\"path\",\x7bd:\"M8 2v4\"\x7d],[\"path\",\x7bd:\"M16 2v4\"\x7d],[\"rect\",\x7bwidth:\"18\",height:\"18\",x:\"3\",y:\"4\",rx:\"2\"\x7d],[\"path\",\x7bd:\"M3 10h18\"\x7d],[\"path\",\x7bd:\"M8 14h.01\"\x7d],[\"path\",\x7bd:\"M12 14h.01\"\x7d],[\"path\",\x7bd:\"M16 14h.01\"\x7d],[\"path\",\x7bd:\"M8 18h.01\"\x7d],[\"path\",\x7bd:\"M12 18h.01\"\x7d],[\"path\",\x7bd:\"M16 18h.01\"\x7d]],\n  timer: [[\"line\",\x7bx1:\"10\",x2:\"14\",y1:\"2\",y2:\"2\"\x7d],[\"line\",\x7bx1:\"12\",x2:\"15\",y1:\"14\",y2:\"11\"\x7d],[\"circle\",\x7bcx:\"12\",cy:\"14\",r:\"8\"\x7d]],\n  refresh: [[\"path\",\x7bd:\"M3 12a9 9 0 0 1 9-9 9.75 9.75 0 0 1 6.74 2.74L21 8\"\x7d],[\"path\",\x7bd:\"M21 3v5h-5\"\x7d],[\"path\",\x7bd:\"M21 12a9 9 0 0 1-9 9 9.75 9.75 0 0 1-6.74-2.74L3 16\"\x7d],[\"path\",\x7bd:\"M8 16H3v5\"\x7d]],\n  clock: [[\"path\",\x7bd:\"M12 6v6l4 2\"\x7d],[\"circle\",\x7bcx:\"12\",cy:\"12\",r:\"10\"\x7d]],\n  calClock: [[\"path\",\x7bd:\"M16 14v2.2l1.6 1\"\x7d],[\"path\",\x7bd:\"M16 2v4\"\x7d],[\"path\",\x7bd:\"M21 7.5V6a2 2 0 0 0-2-2H5a2 2 0 0 0-2 2v14a2 2 0 0 0 2 2h3.5\"\x7d],[\"path\",\x7bd:\"M3 10h5\"\x7d],[\"path\",\x7bd:\"M8 2v4\"\x7d],[\"circle\",\x7bcx:\"16\",cy:\"16\",r:\"6\"\x7d]],\n  dot: [[\"circle\",\x7bcx:\"12\",cy:\"12\",r:\"1"

/-- Piece 2 of 6 of the metrics component template. -/
def METRICS_TEMPLATE_2 : Text := lit "0\"\x7d],[\"circle\",\x7bcx:\"12\",cy:\"12\",r:\"1\"\x7d]],\n  msgSquare: [[\"path\",\x7bd:\"M21 15a2 2 0 0 1-2 2H7l-4 4V5a2 2 0 0 1 2-2h14a2 2 0 0 1 2 2z\"\x7d]],\n  gauge: [[\"path\",\x7bd:\"m12 14 4-4\"\x7d],[\"path\",\x7bd:\"M3.34 19a10 10 0 1 1 17.32 0\"\x7d]],\n  folder: [[\"path\",\x7bd:\"M20 20a2 2 0 0 0 2-2V8a2 2 0 0 0-2-2h-7.9a2 2 0 0 1-1.69-.9L9.6 3.9A2 2 0 0 0 7.93 3H4a2 2 0 0 0-2 2v13a2 2 0 0 0 2 2z\"\x7d]],\n  gitBr: [[\"line\",\x7bx1:\"6\",x2:\"6\",y1:\"3\",y2:\"15\"\x7d],[\"circle\",\x7bcx:\"18\",cy:\"6\",r:\"3\"\x7d],[\"circle\",\x7bcx:\"6\",cy:\"18\",r:\"3\"\x7d],[\"path\",\x7bd:\"M18 9a9 9 0 0 1-9 9\"\x7d]],\n\x7d;\nfunction _ccIcon(name, sz, clr) \x7b\n  var paths = _ccP[name];\n  if (!paths) return null;\n  var children = paths.map(function(p) \x7b\n    var tag = p[0], a = p[1], props = \x7b fill: \"none\", stroke: clr || _ccAccent, strokeWidth: \"2\", strokeLinecap: \"round\", strokeLinejoin: \"round\" \x7d;\n    for (var k in a) props[k] = a[k];\n    if (tag === \"circle\" && name === \"dot\" && a.r === \"1\") \x7b props.fill = clr || _ccAccent; \x7d\n    return n4.default.createElement(tag, props);\n  \x7d);\n  return n4.default.createElement(\"svg\", \x7b xmlns: \"http://www.w3.org/2000/svg\", width: sz || 12, height: sz || 12, viewBox: \"0 0 24 24\", fill: \"none\", style: \x7b display: \"inline-block\", verticalAlign: \"middle\", marginRight: \"3px\", flexShrink: 0 \x7d \x7d, children);\n\x7d\nfunction _ccBar(pct, color, w) \x7b\n  var p = Math.min(100, Math.max(0, pct));\n  return n4.default.createElement(\"span\", \x7b style: \x7b display: \"inline-flex\", alignItems: \"center\", verticalAlign: \"middle\", width: (w || 50) + \"px\", height: \"6px\", background: \"rgba(255,255,255,0.08)\", borderRadius: \"3px\", overflow: \"hidden\", margin: \"0 3px\" \x7d \x7d,\n    n4.default.createElement(\"span\", \x7b style: \x7b width: p + \"%\", height: \"100%\", background: color, borderRadius: \"3px\", transition: \"width 0.3s ease\" \x7d \x7d)\n  );\n\x7d\nvar _ccDustinImg = \"data:image/png;base64,__DUSTIN_B64__\";\nfunction _ccAvatar() \x7b\n  return n4.default.createElement(\"div\", \x7b style: \x7b display: \"flex\", flexDirection: \"column\", alignItems: \"center\", gap: \"2px\", flexShrink: 0 \x7d \x7d,\n    n4.default.createElement(\"img\", \x7b src: _ccDustinImg, style: \x7b width: \"48px\", height: \"48px\", borderRadius: \"6px\", border: \"1px solid rgba(255,255,255,0.12)\", background: \"rgba(255,255,255,0.04)\", objectFit: \"contain\" \x7d \x7d),\n    n4.default.createElement(\"span\", \x7b style: \x7b fontSize: \"8px\", fontWeight: \"bold\", letterSpacing: \"1.5px\", background: \"linear-gradient(90deg, #e04040, #ff6644, #e04040)\", WebkitBackgroundClip"

/-- Piece 3 of 6 of the metrics component template. -/
def METRICS_TEMPLATE_3 : Text := lit ": \"text\", WebkitTextFillColor: \"transparent\", textShadow: \"none\" \x7d \x7d, \"DUSTIN\")\n  );\n\x7d\nfunction CC_MetricsBar(\x7b session: S \x7d) \x7b\n  _Z();\n  n4.useEffect(function() \x7b\n    S.requestUsageUpdate();\n    var _t = setInterval(function() \x7b S.requestUsageUpdate(); \x7d, 60000);\n    return function() \x7b clearInterval(_t); \x7d;\n  \x7d, []);\n  var _compactRef = n4.useRef(\x7b count: 0, prevTokens: 0, wasLow: false \x7d);\n  var ud = S.usageData.value;\n  var model = S.currentMainLoopModel.value || \"\\u2014\";\n  var cost = ud.totalCost != null ? ud.totalCost.toFixed(4) : \"0.0000\";\n  var busy = S.busy.value;\n  var rawIn = ud.inputTokens || 0;\n  var outTok = ud.outputTokens || 0;\n  var cacheCr = ud.cacheCreation || 0;\n  var cacheRd = ud.cacheRead || 0;\n  var totalIn = rawIn + cacheCr + cacheRd;\n  var cachePct = totalIn > 0 ? Math.round(cacheRd / totalIn * 100) : 0;\n  var totalTok = ud.totalTokens || 0;\n  var ctxWin = ud.contextWindow || 0;\n  var maxOut = ud.maxOutputTokens || 0;\n  var effectiveCtx = ctxWin - maxOut - 13000;\n  var ctxPct = effectiveCtx > 0 && totalTok > 0 ? Math.round(totalTok / effectiveCtx * 100) : 0;\n  var util = S.utilization.value;\n  var u5h = util && util.fiveHour ? util.fiveHour.utilization : null;\n  var u7d = util && util.sevenDay ? util.sevenDay.utilization : null;\n  var now = Date.now();\n  var lastMod = S.lastModifiedTime.value || now;\n  var ageSec = Math.floor((now - lastMod) / 1000);\n  var ageStr = ageSec < 60 ? ageSec + \"s\" : Math.floor(ageSec / 60) + \"m\";\n  var sesMin = Math.floor((now - _ccSessionStart) / 60000);\n  var sesStr = sesMin < 60 ? sesMin + \"m\" : Math.floor(sesMin / 60) + \"h\" + (sesMin % 60) + \"m\";\n  var _days = [\"Sun\",\"Mon\",\"Tue\",\"Wed\",\"Thu\",\"Fri\",\"Sat\"];\n  var r5h = util && util.fiveHour && util.fiveHour.resetsAt ? new Date(util.fiveHour.resetsAt) : null;\n  var r7d = util && util.sevenDay && util.sevenDay.resetsAt ? new Date(util.sevenDay.resetsAt) : null;\n  var r5hTime = r5h ? (r5h.getHours() < 10 ? \"0\" : \"\") + r5h.getHours() + \":\" + (r5h.getMinutes() < 10 ? \"0\" : \"\") + r5h.getMinutes() : null;\n  var r5hMs = r5h ? Math.max(0, r5h.getTime() - now) : 0;\n  var r5hMin = Math.floor(r5hMs / 60000);\n  var r5hCd = r5hMs <= 0 ? \"soon\" : r5hMin < 60 ? r5hMin + \"m\" : Math.floor(r5hMin / 60) + \"h\" + (r5hMin % 60 < 10 ? \"0\" : \"\") + (r5hMin % 60) + \"m\";\n  var r5hPct = r5hMs > 0 ? Math.min(100, Math.round((1 - r5hMs / 18000000) * 100)) : 100;\n  var r7dTime = r7d ? "

/-- Piece 4 of 6 of the metrics component template. -/
def METRICS_TEMPLATE_4 : Text := lit "_days[r7d.getDay()] + \" \" + (r7d.getHours() < 10 ? \"0\" : \"\") + r7d.getHours() + \":\" + (r7d.getMinutes() < 10 ? \"0\" : \"\") + r7d.getMinutes() : null;\n  var r7dMs = r7d ? Math.max(0, r7d.getTime() - now) : 0;\n  var r7dDays = Math.floor(r7dMs / 86400000);\n  var r7dHrs = Math.floor((r7dMs % 86400000) / 3600000);\n  var r7dCd = r7dMs <= 0 ? \"soon\" : r7dDays > 0 ? r7dDays + \"d\" + r7dHrs + \"h\" : r7dHrs + \"h\";\n  var r7dPct = r7dMs > 0 ? Math.min(100, Math.round((1 - r7dMs / 604800000) * 100)) : 100;\n  var sep = \x7b display: \"inline\", opacity: \"0.3\", margin: \"0 3px\" \x7d;\n  var row = \x7b display: \"flex\", gap: \"6px\", alignItems: \"center\", flexWrap: \"wrap\", width: \"100%\" \x7d;\n  var itm = \x7b display: \"inline-flex\", alignItems: \"center\", gap: \"3px\" \x7d;\n  var u5hStr = u5h != null ? Math.floor(u5h) + \"%\" : \"--\";\n  var u7dStr = u7d != null ? Math.floor(u7d) + \"%\" : \"--\";\n  var thinkLvl = S.thinkingLevel ? (S.thinkingLevel.value || \"off\") : \"off\";\n  var thinkColors = \x7b off: _ccDim, low: \"#44bb44\", medium: \"#ddaa00\", high: \"#ff4444\" \x7d;\n  var thinkClr = thinkColors[thinkLvl] || _ccDim;\n  var msgCount = S.messages && S.messages.value ? S.messages.value.length : 0;\n  var outPct = maxOut > 0 && outTok > 0 ? Math.round(outTok / maxOut * 100) : 0;\n  var outMaxStr = maxOut > 0 ? (maxOut / 1000).toFixed(0) + \"k\" : \"?\";\n  var costVal = parseFloat(cost);\n  var costRate = sesMin > 0 ? (costVal / sesMin * 60) : 0;\n  var costRateStr = costRate > 0 ? \"$\" + costRate.toFixed(2) + \"/hr\" : \"--\";\n  var throughput = sesMin > 0 ? Math.round((rawIn + outTok) / sesMin) : 0;\n  var throughStr = throughput > 0 ? throughput.toLocaleString() + \" tok/min\" : \"--\";\n  var cwdRaw = S.cwd && S.cwd.value ? S.cwd.value : \"\";\n  var cwdStr = cwdRaw.replace(/^\\/home\\/[^/]+/, \"~\");\n  var cwdParts = cwdStr.split(\"/\");\n  if (cwdParts.length > 3) cwdStr = \"~/\" + cwdParts.slice(-2).join(\"/\");\n  var gitBr = S.gitBranch && S.gitBranch.value ? S.gitBranch.value : \"\";\n  if (_compactRef.current.prevTokens > 500 && totalTok < 100 && !_compactRef.current.wasLow) \x7b\n    _compactRef.current.count += 1;\n    _compactRef.current.wasLow = true;\n  \x7d\n  if (totalTok > 500) \x7b\n    _compactRef.current.wasLow = false;\n  \x7d\n  _compactRef.current.prevTokens = totalTok;\n  var compactCount = _compactRef.current.count;\n  return n4.default.createElement(\"div\", \x7b\n    className: \"sessionMetrics_cc\",\n    style: \x7b\n      display: \"flex\",\n      flexDirection: \"row\""

/-- Piece 5 of 6 of the metrics component template. -/
def METRICS_TEMPLATE_5 : Text := lit ",\n      fontSize: \"11px\",\n      padding: \"3px 6px\",\n      borderBottom: \".5px solid rgba(224,64,64,0.15)\",\n      gap: \"8px\",\n      alignItems: \"center\",\n      color: _ccDim,\n      overflow: \"hidden\",\n    \x7d,\n  \x7d,\n    n4.default.createElement(\"div\", \x7b style: \x7b display: \"flex\", flexDirection: \"column\", gap: \"2px\", minWidth: 0 \x7d \x7d,\n      n4.default.createElement(\"div\", \x7b style: row \x7d,\n        n4.default.createElement(\"span\", \x7b style: \x7b display: \"inline-flex\", alignItems: \"center\", gap: \"3px\", fontWeight: \"600\" \x7d \x7d, _ccIcon(\"brain\", 12, _ccAccent), _ccV(model)),\n        n4.default.createElement(\"span\", \x7b style: sep \x7d, \"|\"),\n        n4.default.createElement(\"span\", \x7b style: itm \x7d, _ccIcon(\"dollar\", 12, _ccAccent), _ccV(\"$\" + cost)),\n        n4.default.createElement(\"span\", \x7b style: sep \x7d, \"|\"),\n        n4.default.createElement(\"span\", \x7b style: itm \x7d, _ccIcon(\"layers\", 12, _ccAccent), _ccBar(ctxPct, _ccAccent, 60), _ccV(ctxPct + \"%\"), \"(\" + totalTok.toLocaleString() + \"/\" + (ctxWin > 0 ? (ctxWin / 1000).toFixed(0) + \"k\" : \"?\") + \")\"),\n        busy && n4.default.createElement(\"span\", \x7b style: sep \x7d, \"|\"),\n        busy && n4.default.createElement(\"span\", \x7b style: \x7b display: \"inline-flex\", alignItems: \"center\", gap: \"3px\", color: _ccAccent, fontWeight: \"bold\" \x7d \x7d, _ccIcon(\"dot\", 12, \"#ff4444\"), \"BUSY\"),\n      ),\n      n4.default.createElement(\"div\", \x7b style: row \x7d,\n        n4.default.createElement(\"span\", \x7b style: itm \x7d, _ccIcon(\"arrowDown\", 12, _ccAccent), \"In:\", _ccV(totalIn.toLocaleString()), cachePct > 0 ? \"(\" + cachePct + \"% cached)\" : null),\n        n4.default.createElement(\"span\", \x7b style: sep \x7d, \"|\"),\n        n4.default.createElement(\"span\", \x7b style: itm \x7d, _ccIcon(\"arrowUp\", 12, _ccAccent), \"Out:\", _ccV(outTok.toLocaleString())),\n        cwdStr && n4.default.createElement(\"span\", \x7b style: sep \x7d, \"|\"),\n        cwdStr && n4.default.createElement(\"span\", \x7b style: itm \x7d, _ccIcon(\"folder\", 12, _ccAccent), _ccV(cwdStr)),\n        gitBr && n4.default.createElement(\"span\", \x7b style: sep \x7d, \"|\"),\n        gitBr && n4.default.createElement(\"span\", \x7b style: itm \x7d, _ccIcon(\"gitBr\", 12, _ccAccent), _ccV(gitBr)),\n      ),\n      n4.default.createElement(\"div\", \x7b style: row \x7d,\n        n4.default.createElement(\"span\", \x7b style: itm \x7d, _ccIcon(\"zap\", 12, _ccAccent), \"5hr:\", _ccBar(u5h || 0, _ccAccent, 40), _ccV(u5hStr)),\n        n4.default.createElement(\"span\", \x7b style: sep \x7d, \"|\""

/-- Piece 6 of 6 of the metrics component template. -/
def METRICS_TEMPLATE_6 : Text := lit "),\n        n4.default.createElement(\"span\", \x7b style: itm \x7d, _ccIcon(\"calDays\", 12, _ccAccent), \"7d:\", _ccBar(u7d || 0, _ccAccent, 40), _ccV(u7dStr)),\n        n4.default.createElement(\"span\", \x7b style: sep \x7d, \"\\u2502\"),\n        n4.default.createElement(\"span\", \x7b style: itm \x7d, _ccIcon(\"timer\", 12, _ccAccent), _ccV(sesStr)),\n        n4.default.createElement(\"span\", \x7b style: sep \x7d, \"|\"),\n        n4.default.createElement(\"span\", \x7b style: itm \x7d, _ccIcon(\"refresh\", 12, _ccAccent), _ccV(ageStr), \"ago\"),\n      ),\n      n4.default.createElement(\"div\", \x7b style: row \x7d,\n        n4.default.createElement(\"span\", \x7b style: itm \x7d, _ccIcon(\"clock\", 12, _ccAccent), \"5h reset\", r5hTime ? _ccV(r5hTime) : _ccV(\"--\"), r5hCd ? \"(\" + r5hCd + \")\" : null, _ccBar(r5hPct, _ccAccent, 40)),\n        n4.default.createElement(\"span\", \x7b style: sep \x7d, \"|\"),\n        n4.default.createElement(\"span\", \x7b style: itm \x7d, _ccIcon(\"calClock\", 12, _ccAccent), \"7d reset\", r7dTime ? _ccV(r7dTime) : _ccV(\"--\"), r7dCd ? \"(\" + r7dCd + \")\" : null, _ccBar(r7dPct, _ccAccent, 40)),\n      ),\n      n4.default.createElement(\"div\", \x7b style: row \x7d,\n        n4.default.createElement(\"span\", \x7b style: itm \x7d, _ccIcon(\"brain\", 12, thinkClr), \"Think:\", n4.default.createElement(\"span\", \x7b style: \x7b color: thinkClr, fontWeight: \"bold\" \x7d \x7d, thinkLvl.toUpperCase())),\n        n4.default.createElement(\"span\", \x7b style: sep \x7d, \"|\"),\n        n4.default.createElement(\"span\", \x7b style: itm \x7d, _ccIcon(\"msgSquare\", 12, _ccAccent), _ccV(msgCount + \"\"), \"msgs\"),\n        n4.default.createElement(\"span\", \x7b style: sep \x7d, \"|\"),\n        n4.default.createElement(\"span\", \x7b style: itm \x7d, _ccIcon(\"arrowUp\", 12, _ccAccent), \"Out:\", _ccBar(outPct, _ccAccent, 40), _ccV(outPct + \"%\"), \"(\" + outTok.toLocaleString() + \"/\" + outMaxStr + \")\"),\n      ),\n      n4.default.createElement(\"div\", \x7b style: row \x7d,\n        n4.default.createElement(\"span\", \x7b style: itm \x7d, _ccIcon(\"dollar\", 12, _ccAccent), _ccV(costRateStr)),\n        n4.default.createElement(\"span\", \x7b style: sep \x7d, \"|\"),\n        n4.default.createElement(\"span\", \x7b style: itm \x7d, _ccIcon(\"gauge\", 12, _ccAccent), _ccV(throughStr)),\n        compactCount > 0 && n4.default.createElement(\"span\", \x7b style: sep \x7d, \"|\"),\n        compactCount > 0 && n4.default.createElement(\"span\", \x7b style: itm \x7d, _ccIcon(\"layers\", 12, _ccAccent), \"Compact:\", _ccV(compactCount + \"x\")),\n      ),\n    ),\n    _ccAvatar(),\n  );\n\x7d\n"

/-- The session-metrics component template (the r-string _METRICS_TEMPLATE),
the concatenation of its six pieces. -/
def METRICS_TEMPLATE : Text :=
  METRICS_TEMPLATE_1 ++ (METRICS_TEMPLATE_2 ++ (METRICS_TEMPLATE_3 ++
    (METRICS_TEMPLATE_4 ++ (METRICS_TEMPLATE_5 ++ METRICS_TEMPLATE_6))))

/-- The custom stylesheet block appended by patch_css. -/
def custom_css : Text := lit "\n/* Custom Session Metrics Bar - cc-improve v12-debug */\n.inputFooter_gGYT1w\x7bflex-wrap:wrap !important\x7d\n.sessionMetrics_cc\x7bflex:0 0 100% !important;order:-1 !important\x7d"

/-- The Stranger Things palette stylesheet block appended by patch_css. -/
def st_css : Text := lit "\n/* ST palette */\n:root\x7b--app-claude-orange:#e04040 !important;--app-claude-clay-button-orange:#b82030 !important\x7d\n.inputContainer_cKsPxg\x7bborder-color:rgba(224,64,64,0.25) !important\x7d\n.inputContainer_cKsPxg:focus-within\x7bborder-color:#e04040 !important;box-shadow:0 0 6px rgba(224,64,64,0.3) !important\x7d\n.inputFooter_gGYT1w\x7bborder-top-color:rgba(224,64,64,0.15) !important\x7d"


/-- One line of the apply / clean run log, one constructor per print site
of the source (OK / SKIP / WARNING / ERROR lines, with the data the
corresponding print interpolates). -/
inductive Msg where
  | format (pretty : Bool)
  | detected (cv rv fc sh : Text)
  | okUsagePretty | okUsageMin | warnUsage | skipUsage
  | okUpdatePretty | okUpdateMin | warnUpdate | skipUpdate
  | okResultPretty | okResultMin | warnResult | skipResult
  | okCompactPretty | okCompactMin | skipCompact | warnCompact
  | okDefPretty (line : Nat) | okDefMin (fn : Text) | skipDef
  | errDefPretty | errDefDetect | errDefAnchor
  | okCallSplit (line : Nat) | okCallLine (line : Nat) | okCallMin
  | errCallPretty | errCallMin | skipCall
  | okEr0 (idx : Nat) | skipEr0 | warnEr0
  | doneJs
  | okCssCustom | skipCssCustom | okCssSt | skipCssSt | doneCss
  deriving DecidableEq, Repr

/-- is_prettified: more than 5000 newline-delimited lines. -/
def is_prettified (content : Text) : Bool := 5000 < (splitNl content).length

/-- is_already_patched (defined by the source, not consulted by patch_js). -/
def is_already_patched (content : Text) : Bool :=
  occursB (lit "sessionMetrics_cc") content

/-- The regex (_JS_ID)\.inputFooter at one position. -/
def idDotInputFooterAt (h : Text) : Option Text := do
  let (v, h1) ← stripId h
  let _ ← stripLit (lit ".inputFooter") h1
  pure v

/-- detect_css_module_var: first _JS_ID before ".inputFooter", else "WJ". -/
def detect_css_module_var (content : Text) : Text :=
  match scanSplit idDotInputFooterAt content with
  | some (_, v) => v
  | none => lit "WJ"

/-- The strict react-variable regex at one position:
return (_JS_ID)\.default\.createElement\("div",\{className:CSS\.inputFooter\}. -/
def reactVarAt (cv : Text) (h : Text) : Option Text := do
  let h1 ← stripLit (lit "return ") h
  let (v, h2) ← stripId h1
  let _ ← stripLit (lit ".default.createElement(\"div\",\x7bclassName:" ++ cv ++ lit ".inputFooter\x7d") h2
  pure v

/-- The loose react-variable regex at one position:
(_JS_ID)\.default\.createElement\("div",\{className:_JS_ID\.inputFooter\}. -/
def reactVarLooseAt (h : Text) : Option Text := do
  let (v, h1) ← stripId h
  let h2 ← stripLit (lit ".default.createElement(\"div\",\x7bclassName:") h1
  let (_, h3) ← stripId h2
  let _ ← stripLit (lit ".inputFooter\x7d") h3
  pure v

/-- detect_react_var: strict pattern, then loose pattern, else "n4". -/
def detect_react_var (content cv : Text) : Text :=
  match scanSplit (reactVarAt cv) content with
  | some (_, v) => v
  | none =>
    match scanSplit reactVarLooseAt content with
    | some (_, v) => v
    | none => lit "n4"

/-- The footer-component regex at one position:
className:CSS\.inputFooter\},(_JS_ID)\.default\.createElement\((_JS_ID);
yields both groups. -/
def footerCompAt (cv : Text) (h : Text) : Option (Text × Text) := do
  let h1 ← stripLit (lit "className:" ++ cv ++ lit ".inputFooter\x7d,") h
  let (g1, h2) ← stripId h1
  let h3 ← stripLit (lit ".default.createElement(") h2
  let (g2, _) ← stripId h3
  pure (g1, g2)

/-- The skip-forward regex at one position:
createElement\(CC_MetricsBar[^)]*\),(_JS_ID)\.default\.createElement\((_JS_ID). -/
def footerCompSkipAt (h : Text) : Option Text := do
  let h1 ← stripLit (lit "createElement(CC_MetricsBar") h
  let r := munch (fun c => !(c == ')')) h1
  let h2 ← stripLit (lit "),") r.2
  let (_, h3) ← stripId h2
  let h4 ← stripLit (lit ".default.createElement(") h3
  let (g2, _) ← stripId h4
  pure g2

/-- detect_footer_component: first structural child after the inputFooter
container; when it reads CC_MetricsBar, search the skip-forward pattern;
fallback "dP1". -/
def detect_footer_component (content cv : Text) : Text :=
  match scanSplit (footerCompAt cv) content with
  | some (_, g) =>
    if g.2 = lit "CC_MetricsBar" then
      match scanSplit footerCompSkipAt content with
      | some (_, c2) => c2
      | none => g.2
    else g.2
  | none => lit "dP1"

/-- Position of the inputFooter marker: unspaced spelling first, then the
spaced one (shared by detect_signal_hook and detect_footer_function). -/
def inputFooterPos (content cv : Text) : Option Nat :=
  match findSub (lit "className:" ++ cv ++ lit ".inputFooter") content with
  | some p => some p
  | none => findSub (lit "className: " ++ cv ++ lit ".inputFooter") content

/-- The regex function _JS_ID\(\{[^}]+\}\)\{ at one position (match length). -/
def hookPat1At (h : Text) : Option (Nat × Unit) := do
  let h1 ← stripLit (lit "function ") h
  let (_, h2) ← stripId h1
  let h3 ← stripLit (lit "(\x7b") h2
  let r := munch (fun c => !(c == '\x7d')) h3
  if r.1.isEmpty then none
  else do
    let h4 ← stripLit (lit "\x7d)\x7b") r.2
    pure (h.length - h4.length, ())

/-- The regex function _JS_ID\([^)]+\)\{ at one position (match length). -/
def hookPat2At (h : Text) : Option (Nat × Unit) := do
  let h1 ← stripLit (lit "function ") h
  let (_, h2) ← stripId h1
  let h3 ← stripLit (lit "(") h2
  let r := munch (fun c => !(c == ')')) h3
  if r.1.isEmpty then none
  else do
    let h4 ← stripLit (lit ")\x7b") r.2
    pure (h.length - h4.length, ())

/-- re.match (_JS_ID)\(\) at the start of the body slice. -/
def hookCallAt (h : Text) : Option Text := do
  let (nm, h1) ← stripId h
  let _ ← stripLit (lit "()") h1
  pure nm

/-- detect_signal_hook: last function-definition match in the 5000
characters before the inputFooter marker, then the reactive call at the
start of its body; fallback "_Z". -/
def detect_signal_hook (content cv : Text) : Text :=
  match inputFooterPos content cv with
  | none => lit "_Z"
  | some fp =>
    let chunk := pySlice (fp - 5000) fp content
    let ms1 := scanIterPos hookPat1At chunk
    let ms := if ms1.isEmpty then scanIterPos hookPat2At chunk else ms1
    match ms.getLast? with
    | none => lit "_Z"
    | some (_, e, _) =>
      let body := (chunk.drop e).take 30
      match hookCallAt body with
      | some nm => nm
      | none => lit "_Z"

/-- The regex function (_JS_ID)\( at one position (length and name). -/
def funcDefAt (h : Text) : Option (Nat × Text) := do
  let h1 ← stripLit (lit "function ") h
  let (nm, h2) ← stripId h1
  let h3 ← stripLit (lit "(") h2
  pure (h.length - h3.length, nm)

/-- detect_footer_function: name of the last function definition in the
5000 characters before the inputFooter marker, or None. -/
def detect_footer_function (content cv : Text) : Option Text :=
  match inputFooterPos content cv with
  | none => none
  | some fp =>
    let chunk := pySlice (fp - 5000) fp content
    match (scanIterPos funcDefAt chunk).getLast? with
    | some (_, _, nm) => some nm
    | none => none

/-- The usageData minified regex at one position:
usageData=([a-zA-Z][a-zA-Z0-9]*)\(\{totalTokens:0,totalCost:0,contextWindow:0,maxOutputTokens:0\}\);
yields the constructor identifier and the rest after the match. -/
def usageMinAt (h : Text) : Option (Text × Text) :=
  match stripLit (lit "usageData=") h with
  | none => none
  | some [] => none
  | some (c :: t) =>
    if alphaChar c then
      match stripLit
          (lit "(\x7btotalTokens:0,totalCost:0,contextWindow:0,maxOutputTokens:0\x7d)")
          (munch alnumChar t).2 with
      | none => none
      | some h2 => some (c :: (munch alnumChar t).1, h2)
    else none

/-- USAGE_DATA_MIN_REPLACE instantiated at the captured identifier \1. -/
def usageMinPatched (v : Text) : Text :=
  lit "usageData=" ++ v ++
    lit "(\x7btotalTokens:0,totalCost:0,contextWindow:0,maxOutputTokens:0,inputTokens:0,outputTokens:0,cacheCreation:0,cacheRead:0\x7d)"

/-- PATCH 0a: the usageData-signal transform of patch_js. -/
def usageStep (content : Text) : Text × List Msg :=
  if !(occursB (lit "inputTokens:0") content) && !(occursB (lit "inputTokens: 0,") content) then
    if occursB USAGE_DATA_ORIGINAL content then
      (replaceFirst USAGE_DATA_ORIGINAL USAGE_DATA_PATCHED content, [Msg.okUsagePretty])
    else
      match scanSplit usageMinAt content with
      | some (pre, g) => (pre ++ usageMinPatched g.1 ++ g.2, [Msg.okUsageMin])
      | none => (content, [Msg.warnUsage])
  else (content, [Msg.skipUsage])

/-- PATCH 0b: the updateUsage transform of patch_js. -/
def updateStep (content : Text) : Text × List Msg :=
  if !(occursB (lit "inputTokens:$.input_tokens") content) &&
     !(occursB (lit "inputTokens: $.input_tokens") content) then
    if occursB UPDATE_USAGE_ORIGINAL content then
      (replaceFirst UPDATE_USAGE_ORIGINAL UPDATE_USAGE_PATCHED content, [Msg.okUpdatePretty])
    else if occursB UPDATE_USAGE_MIN_ORIGINAL content then
      (replaceFirst UPDATE_USAGE_MIN_ORIGINAL UPDATE_USAGE_MIN_PATCHED content, [Msg.okUpdateMin])
    else (content, [Msg.warnUpdate])
  else (content, [Msg.skipUpdate])

/-- PATCH 0c: the result-handler transform of patch_js. -/
def resultStep (content : Text) : Text × List Msg :=
  if !(occursB (lit "inputTokens:J.inputTokens") content) &&
     !(occursB (lit "inputTokens: J.inputTokens") content) then
    if occursB RESULT_HANDLER_ORIGINAL content then
      (replaceFirst RESULT_HANDLER_ORIGINAL RESULT_HANDLER_PATCHED content, [Msg.okResultPretty])
    else if occursB RESULT_HANDLER_MIN_ORIGINAL content then
      (replaceFirst RESULT_HANDLER_MIN_ORIGINAL RESULT_HANDLER_MIN_PATCHED content, [Msg.okResultMin])
    else (content, [Msg.warnResult])
  else (content, [Msg.skipResult])

/-- PATCH 0d: the compact-boundary transform of patch_js. -/
def compactStep (content : Text) : Text × List Msg :=
  if occursB COMPACT_ORIGINAL content then
    (replaceFirst COMPACT_ORIGINAL COMPACT_PATCHED content, [Msg.okCompactPretty])
  else if occursB COMPACT_MIN_ORIGINAL content then
    (replaceFirst COMPACT_MIN_ORIGINAL COMPACT_MIN_PATCHED content, [Msg.okCompactMin])
  else if occursB COMPACT_PATCHED content || occursB COMPACT_MIN_PATCHED content then
    (content, [Msg.skipCompact])
  else (content, [Msg.warnCompact])

/-- The token-field substitution stages 0a-0d composed (the content patch_js
holds when it reaches the injection transforms). -/
def stage0 (t : Text) : Text :=
  (compactStep (resultStep (updateStep (usageStep t).1).1).1).1

/-- The avatar image: the base64 asset file is external to the repository
(and absent from it), so the source's own fallback open(...) if exists else ""
yields the empty string. -/
def DUSTIN_IMG_B64 : Text := []

/-- METRICS_COMPONENT_DEF: the template with the avatar placeholder
substituted. -/
def METRICS_COMPONENT_DEF : Text :=
  replaceAll (lit "__DUSTIN_B64__") DUSTIN_IMG_B64 METRICS_TEMPLATE

/-- The component definition instantiated at the detected react variable
and signal hook (the two .replace calls of PATCH 1a). -/
def metricsDef (rv sh : Text) : Text :=
  replaceAll (lit "_Z();") (sh ++ lit "();")
    (replaceAll (lit "n4.") (rv ++ lit ".") METRICS_COMPONENT_DEF)

/-- The injected call (metrics_bar_call). -/
def metricsBarCall (rv : Text) : Text :=
  rv ++ lit ".default.createElement(CC_MetricsBar, \x7b session: $ \x7d),"

/-- Outcome of one transform of patch_js that can abort the run. -/
inductive StepRes where
  | ok (text : Text) (msgs : List Msg)
  | fail (msgs : List Msg)
  | crash (msgs : List Msg)
  deriving DecidableEq, Repr

/-- Index of the first line satisfying the predicate. -/
def findLineIdx (p : Text → Bool) : List Text → Option Nat
  | [] => none
  | l :: ls => if p l then some 0 else (findLineIdx p ls).map (· + 1)

/-- Python list.insert(i, x) (appends when i is past the end). -/
def insertAt (i : Nat) (x : Text) (lines : List Text) : List Text :=
  match i, lines with
  | 0, ls => x :: ls
  | _ + 1, [] => [x]
  | n + 1, l :: ls => l :: insertAt n x ls

/-- PATCH 1a: define the CC_MetricsBar component. -/
def defStep (pretty : Bool) (cv rv sh : Text) (content : Text) : StepRes :=
  if occursB (lit "function CC_MetricsBar") content then .ok content [Msg.skipDef]
  else
    let md := metricsDef rv sh
    if pretty then
      let lines := splitNl content
      let il0 :=
        match detect_footer_function content cv with
        | some fn => findLineIdx (fun l => occursB (lit "function " ++ fn ++ lit "(") l) lines
        | none => none
      let il :=
        match il0 with
        | some i => some i
        | none =>
          findLineIdx
            (fun l => occursB (lit "function Zi0(\x7b") l || occursB (lit "function Zi0(") l) lines
      match il with
      | none => .fail [Msg.errDefPretty]
      | some i => .ok (joinNl (insertAt i md lines)) [Msg.okDefPretty i]
    else
      match detect_footer_function content cv with
      | none => .fail [Msg.errDefDetect]
      | some fn =>
        let anchor := lit "function " ++ fn ++ lit "("
        if !(occursB anchor content) then .fail [Msg.errDefAnchor]
        else .ok (replaceFirst anchor (md ++ lit "\n" ++ anchor) content) [Msg.okDefMin fn]

/-- Replace line i by the three lines of the same-line split (part1,
the injected call line, part2 = indent + tail from the component marker). -/
def spliceLine (i ci : Nat) (call : Text) : List Text → List Text
  | [] => []
  | l :: ls =>
    match i with
    | 0 => pyRstrip (l.take ci) :: (lit "    " ++ call) :: (lit "    " ++ l.drop ci) :: ls
    | n + 1 => l :: spliceLine n ci call ls

/-- The inner loop of PATCH 1b: j in range(i+1, min(i+5, len(lines))),
first line containing the footer component. -/
def innerScan (fc : Text) (lines : List Text) : Nat → Nat → Nat → Option Nat
  | 0, _, _ => none
  | fuel + 1, j, stop =>
    if j < stop then
      match lines[j]? with
      | some lj => if occursB fc lj then some j else innerScan fc lines fuel (j + 1) stop
      | none => none
    else none

/-- Result of the prettified call-injection loop. -/
inductive CallLoopRes where
  | notFound
  | crashed
  | done (lines : List Text) (msg : Msg)
  deriving DecidableEq, Repr

/-- The prettified loop of PATCH 1b over line indices. -/
def callLoopGo (cv rv fc call : Text) (lines : List Text) : Nat → Nat → CallLoopRes
  | 0, _ => .notFound
  | fuel + 1, i =>
    match lines[i]? with
    | none => .notFound
    | some li =>
      let line := pyStrip li
      if occursB (lit "\x7b className: " ++ cv ++ lit ".inputFooter \x7d,") line ||
         occursB (lit "\x7bclassName:" ++ cv ++ lit ".inputFooter\x7d,") line then
        if occursB fc li then
          match findSub (rv ++ lit ".default.createElement(" ++ fc) li with
          | some ci => .done (spliceLine i ci call lines) (Msg.okCallSplit (i + 1))
          | none =>
            match findSub (lit ".default.createElement(" ++ fc) li with
            | some ci => .done (spliceLine i ci call lines) (Msg.okCallSplit (i + 1))
            | none => .crashed
        else
          match innerScan fc lines 5 (i + 1) (min (i + 5) lines.length) with
          | some j => .done (insertAt j (lit "    " ++ call) lines) (Msg.okCallLine j)
          | none => callLoopGo cv rv fc call lines fuel (i + 1)
      else callLoopGo cv rv fc call lines fuel (i + 1)

/-- PATCH 1b: inject the CC_MetricsBar call. -/
def callStep (pretty : Bool) (cv rv fc : Text) (content : Text) : StepRes :=
  let call := metricsBarCall rv
  if occursB (lit "CC_MetricsBar") content &&
     !(occursB (lit "createElement(CC_MetricsBar") content) then
    if pretty then
      let lines := splitNl content
      match callLoopGo cv rv fc call lines lines.length 0 with
      | .notFound => .fail [Msg.errCallPretty]
      | .crashed => .crash []
      | .done ls m => .ok (joinNl ls) [m]
    else
      let oldRet :=
        lit "return " ++ rv ++ lit ".default.createElement(\"div\",\x7bclassName:" ++
          cv ++ lit ".inputFooter\x7d,"
      if !(occursB oldRet content) then .fail [Msg.errCallMin]
      else .ok (replaceFirst oldRet (oldRet ++ call) content) [Msg.okCallMin]
  else if occursB (lit "createElement(CC_MetricsBar") content then
    .ok content [Msg.skipCall]
  else .ok content []

/-- The three spellings of the er0 visibility gate with their markers. -/
def ER0_P1 : Text := lit "if (U >= 50) return null;"

/-- The inert marker replacing the first and third spelling. -/
def ER0_M1 : Text := lit "/* patched: always show */"

/-- The braced minified spelling of the gate. -/
def ER0_P2 : Text := lit "if(U>=50)return null\x7d"

/-- The inert marker replacing the braced spelling. -/
def ER0_M2 : Text := lit "/*er0*/\x7d"

/-- The semicolon minified spelling of the gate. -/
def ER0_P3 : Text := lit "if(U>=50)return null;"

/-- PATCH 2: remove the er0 visibility gate (first spelling present wins,
short-circuiting). -/
def er0Step (content : Text) : Text × List Msg :=
  if occursB ER0_P1 content then (replaceFirst ER0_P1 ER0_M1 content, [Msg.okEr0 0])
  else if occursB ER0_P2 content then (replaceFirst ER0_P2 ER0_M2 content, [Msg.okEr0 1])
  else if occursB ER0_P3 content then (replaceFirst ER0_P3 ER0_M1 content, [Msg.okEr0 2])
  else if occursB ER0_M1 content then (content, [Msg.skipEr0])
  else (content, [Msg.warnEr0])

/-- Outcome of patch_js: the text written (none when the run aborted
before its single final write), the returned boolean, whether an uncaught
ValueError escaped, and the log. -/
structure JsResult where
  written : Option Text
  ok : Bool
  crashed : Bool
  msgs : List Msg
  deriving DecidableEq, Repr

/-- patch_js: classification, anchor detection on the original text, the
four substitution transforms, the two injection transforms, the gate
removal, then one write. -/
def patch_js (t : Text) : JsResult :=
  let pretty := is_prettified t
  let cv := detect_css_module_var t
  let rv := detect_react_var t cv
  let fc := detect_footer_component t cv
  let sh := detect_signal_hook t cv
  let s0 := usageStep t
  let s1 := updateStep s0.1
  let s2 := resultStep s1.1
  let s3 := compactStep s2.1
  let base := [Msg.format pretty, Msg.detected cv rv fc sh] ++ s0.2 ++ s1.2 ++ s2.2 ++ s3.2
  match defStep pretty cv rv sh s3.1 with
  | .fail ms => ⟨none, false, false, base ++ ms⟩
  | .crash ms => ⟨none, false, true, base ++ ms⟩
  | .ok c4 ms =>
    match callStep pretty cv rv fc c4 with
    | .fail ms2 => ⟨none, false, false, base ++ ms ++ ms2⟩
    | .crash ms2 => ⟨none, false, true, base ++ ms ++ ms2⟩
    | .ok c5 ms2 =>
      let e := er0Step c5
      ⟨some e.1, true, false, base ++ ms ++ ms2 ++ e.2 ++ [Msg.doneJs]⟩

/-- Outcome of patch_css (it always returns True). -/
structure CssResult where
  text : Text
  msgs : List Msg
  deriving DecidableEq, Repr

/-- patch_css: two guarded appends. -/
def patch_css (t : Text) : CssResult :=
  let r1 :=
    if occursB (lit ".sessionMetrics_cc") t then (t, [Msg.skipCssCustom])
    else (t ++ custom_css, [Msg.okCssCustom])
  let r2 :=
    if occursB (lit "/* ST palette */") r1.1 then (r1.1, [Msg.skipCssSt])
    else (r1.1 ++ st_css, [Msg.okCssSt])
  ⟨r2.1, r1.2 ++ r2.2 ++ [Msg.doneCss]⟩


/-- The verification checklist of verify(), as (label, predicate) pairs. -/
def verifyChecks (js css : Text) : List (String × Bool) :=
  [ ("JS: _ccSessionStart defined", occursB (lit "_ccSessionStart = Date.now()") js),
    ("JS: _ccAccent defined", occursB (lit "_ccAccent = \"#e04040\"") js),
    ("JS: _ccDim defined", occursB (lit "_ccDim = \"rgba(255,255,255,0.55)\"") js),
    ("JS: _ccV value helper", occursB (lit "function _ccV(") js),
    ("JS: _ccP icon paths defined",
      occursB (lit "var _ccP = \x7b") js && occursB (lit "\"brain\"") js),
    ("JS: _ccIcon function present", occursB (lit "function _ccIcon(") js),
    ("JS: _ccBar helper present", occursB (lit "function _ccBar(") js),
    ("JS: _ccDustinImg defined",
      occursB (lit "_ccDustinImg") js && occursB (lit "data:image/png;base64,") js),
    ("JS: _ccAvatar function present", occursB (lit "function _ccAvatar()") js),
    ("JS: metrics component present", occursB (lit "function CC_MetricsBar") js),
    ("JS: metrics bar in DOM", occursB (lit "sessionMetrics_cc") js),
    ("JS: CC_MetricsBar call injected", occursB (lit "createElement(CC_MetricsBar") js),
    ("JS: row layout (flexDirection row)", occursB (lit "flexDirection: \"row\"") js),
    ("JS: avatar called", occursB (lit "_ccAvatar()") js),
    ("JS: icons used in Row1",
      occursB (lit "_ccIcon(\"brain\"") js && occursB (lit "_ccIcon(\"dollar\"") js &&
        occursB (lit "_ccIcon(\"layers\"") js),
    ("JS: icons used in Row2",
      occursB (lit "_ccIcon(\"arrowDown\"") js && occursB (lit "_ccIcon(\"arrowUp\"") js),
    ("JS: icons used in Row3",
      occursB (lit "_ccIcon(\"zap\"") js && occursB (lit "_ccIcon(\"calDays\"") js &&
        occursB (lit "_ccIcon(\"timer\"") js),
    ("JS: icons used in Row4",
      occursB (lit "_ccIcon(\"clock\"") js && occursB (lit "_ccIcon(\"calClock\"") js),
    ("JS: usageData has inputTokens",
      occursB (lit "inputTokens:0") js || occursB (lit "inputTokens: 0,") js),
    ("JS: updateUsage stores individual tokens",
      occursB (lit "inputTokens:$.input_tokens") js ||
        occursB (lit "inputTokens: $.input_tokens") js),
    ("JS: result handler preserves tokens",
      occursB (lit "inputTokens:J.inputTokens") js ||
        occursB (lit "inputTokens: J.inputTokens") js),
    ("JS: compact_boundary resets tokens",
      occursB (lit "inputTokens:0,outputTokens:0") js ||
        occursB (lit "inputTokens: 0, outputTokens: 0") js),
    ("JS: Row2 shows totalIn with cache%", occursB (lit "cachePct") js),
    ("JS: Row3 utilization signals", occursB (lit "S.utilization.value") js),
    ("JS: Row3 session time",
      occursB (lit "_ccSessionStart") js && occursB (lit "sesMin") js),
    ("JS: Row3 last activity", occursB (lit "S.lastModifiedTime.value") js),
    ("JS: Row4 reset countdowns",
      occursB (lit "r5hTime") js && occursB (lit "r7dCd") js && occursB (lit "r7dPct") js),
    ("JS: er0 patched",
      !(occursB (lit "if (U >= 50) return null;") js) &&
        !(occursB (lit "if(U>=50)return null\x7d") js) &&
        !(occursB (lit "if(U>=50)return null;") js)),
    ("CSS: custom styles", occursB (lit ".sessionMetrics_cc") css),
    ("CSS: flex-wrap on inputFooter", occursB (lit "flex-wrap:wrap") css),
    ("CSS: ST palette accent", occursB (lit "--app-claude-orange:#e04040") css),
    ("CSS: ST palette button", occursB (lit "--app-claude-clay-button-orange:#b82030") css),
    ("CSS: ST input border",
      occursB (lit "inputContainer_cKsPxg") css && occursB (lit "rgba(224,64,64") css),
    ("JS: dim/accent color scheme",
      occursB (lit "_ccV(") js && occursB (lit "color: _ccDim") js),
    ("JS: Row5 thinking level",
      occursB (lit "thinkLvl") js && occursB (lit "thinkClr") js),
    ("JS: Row5 message count", occursB (lit "msgCount") js),
    ("JS: Row5 output utilization",
      occursB (lit "outPct") js && occursB (lit "outMaxStr") js),
    ("JS: Row6 cost rate", occursB (lit "costRateStr") js),
    ("JS: Row6 throughput", occursB (lit "throughStr") js),
    ("JS: Row6 compaction counter",
      occursB (lit "_compactRef") js && occursB (lit "compactCount") js),
    ("JS: icons used in Row5", occursB (lit "_ccIcon(\"msgSquare\"") js),
    ("JS: icons used in Row6", occursB (lit "_ccIcon(\"gauge\"") js),
    ("JS: Row2 workdir display",
      occursB (lit "cwdStr") js && occursB (lit "cwdRaw") js && occursB (lit "S.cwd") js),
    ("JS: Row2 git branch display",
      occursB (lit "gitBr") js && occursB (lit "S.gitBranch") js),
    ("JS: icons used in Row2 (folder+gitBr)",
      occursB (lit "_ccIcon(\"folder\"") js && occursB (lit "_ccIcon(\"gitBr\"") js) ]

/-- verify(): the aggregate boolean over the checklist. -/
def verify (js css : Text) : Bool := (verifyChecks js css).all (fun c => c.2)

/-- The apply mode's process exit code: patch_js, patch_css (always true),
verify over the written files; non-zero when any failed, and an uncaught
exception also exits non-zero before patch_css runs. -/
def applyExit (js css : Text) : Nat :=
  let r := patch_js js
  if r.crashed then 1
  else
    let c := patch_css css
    if r.ok && verify (r.written.getD js) c.text then 0 else 1

/-- The minified injected-block remover of clean, at one start position:
\n+var _ccSessionStart = Date\.now\(\);.*?function CC_MetricsBar\(\{[^}]*\}\)[^\n]*\n.*?\n\}\n*
(DOTALL); the first lazy gap retries later candidates when the
deterministic continuation after a candidate fails. -/
def ccBigTail : Nat → Text → Option Text
  | 0, _ => none
  | fuel + 1, h1 =>
    match findSub (lit "function CC_MetricsBar(\x7b") h1 with
    | none => none
    | some d =>
      let h2 := h1.drop (d + (lit "function CC_MetricsBar(\x7b").length)
      let cont : Option Text := do
        let r2 := munch (fun c => !(c == '\x7d')) h2
        let h3 ← stripLit (lit "\x7d)") r2.2
        let r3 := munch (fun c => !(c == '\n')) h3
        let h4 ← stripLit (lit "\n") r3.2
        let h5 ← lazyThrough (lit "\n\x7d") h4
        pure ((munch (fun c => c == '\n') h5).2)
      match cont with
      | some rest => some rest
      | none => ccBigTail fuel (h1.drop (d + 1))

/-- The whole minified injected-block regex at one position (match length). -/
def ccBigAt (h : Text) : Option Nat := do
  let r := munch (fun c => c == '\n') h
  if r.1.isEmpty then none
  else do
    let h1 ← stripLit (lit "var _ccSessionStart = Date.now();") r.2
    let rest ← ccBigTail (h1.length + 1) h1
    pure (h.length - rest.length)

/-- \nvar NAME = "[^"]*";\n at one position (match length). -/
def varLineAt (name : Text) (h : Text) : Option Nat := do
  let h1 ← stripLit (lit "\nvar " ++ name ++ lit " = \"") h
  let r := munch (fun c => !(c == '"')) h1
  let h2 ← stripLit (lit "\";\n") r.2
  pure (h.length - h2.length)

/-- \nfunction _ccV\([^)]*\)[^\n]*\n at one position (match length). -/
def ccVLineAt (h : Text) : Option Nat := do
  let h1 ← stripLit (lit "\nfunction _ccV(") h
  let r := munch (fun c => !(c == ')')) h1
  let h2 ← stripLit (lit ")") r.2
  let r2 := munch (fun c => !(c == '\n')) h2
  let h3 ← stripLit (lit "\n") r2.2
  pure (h.length - h3.length)

/-- \nvar _ccP = \{.*?\n\};\n at one position (match length, DOTALL). -/
def ccPBlockAt (h : Text) : Option Nat := do
  let h1 ← stripLit (lit "\nvar _ccP = \x7b") h
  let h2 ← lazyThrough (lit "\n\x7d;\n") h1
  pure (h.length - h2.length)

/-- \nfunction NAME\([^)]*\).*?\n\}\n at one position (match length). -/
def ccFnBlockAt (name : Text) (h : Text) : Option Nat := do
  let h1 ← stripLit (lit "\nfunction " ++ name ++ lit "(") h
  let r := munch (fun c => !(c == ')')) h1
  let h2 ← stripLit (lit ")") r.2
  let h3 ← lazyThrough (lit "\n\x7d\n") h2
  pure (h.length - h3.length)

/-- \nfunction _ccAvatar\(\).*?\n\}\n at one position (match length). -/
def ccAvatarBlockAt (h : Text) : Option Nat := do
  let h1 ← stripLit (lit "\nfunction _ccAvatar()") h
  let h2 ← lazyThrough (lit "\n\x7d\n") h1
  pure (h.length - h2.length)

/-- \nfunction CC_MetricsBar\(\{[^}]*\}.*?\n\}\n at one position. -/
def ccDefBlockAt (h : Text) : Option Nat := do
  let h1 ← stripLit (lit "\nfunction CC_MetricsBar(\x7b") h
  let r := munch (fun c => !(c == '\x7d')) h1
  let h2 ← stripLit (lit "\x7d") r.2
  let h3 ← lazyThrough (lit "\n\x7d\n") h2
  pure (h.length - h3.length)

/-- _JS_ID\.default\.createElement\(CC_MetricsBar,\s*\{[^}]*\}\),? at one
position (match length). -/
def ccCallAt (h : Text) : Option Nat := do
  let (_, h1) ← stripId h
  let h2 ← stripLit (lit ".default.createElement(CC_MetricsBar,") h1
  let r := munch isPySpace h2
  let h3 ← stripLit (lit "\x7b") r.2
  let r2 := munch (fun c => !(c == '\x7d')) h3
  let h4 ← stripLit (lit "\x7d)") r2.2
  let h5 := match stripLit (lit ",") h4 with | some x => x | none => h4
  pure (h.length - h5.length)

/-- The JS half of clean(): collapse the minified injected block, delete
each introduced declaration and helper, delete the injected call, reverse
every substitution, restore the gate. -/
def clean_js (js0 : Text) : Text :=
  let js :=
    if !(is_prettified js0) && occursB (lit "var _ccSessionStart") js0 then
      subFirstWith ccBigAt [] js0
    else js0
  let js := replaceFirst (lit "\nvar _ccSessionStart = Date.now();\n") (lit "\n") js
  let js := subFirstWith (varLineAt (lit "_ccAccent")) (lit "\n") js
  let js := subFirstWith (varLineAt (lit "_ccDim")) (lit "\n") js
  let js := subAllWith ccVLineAt (lit "\n") js
  let js := subFirstWith ccPBlockAt (lit "\n") js
  let js := subFirstWith (ccFnBlockAt (lit "_ccIcon")) (lit "\n") js
  let js := subFirstWith (ccFnBlockAt (lit "_ccBar")) (lit "\n") js
  let js := subFirstWith (varLineAt (lit "_ccDustinImg")) (lit "\n") js
  let js := subFirstWith ccAvatarBlockAt (lit "\n") js
  let js := subFirstWith ccDefBlockAt (lit "\n") js
  let js := subFirstWith ccCallAt [] js
  let js := replaceAll USAGE_DATA_PATCHED USAGE_DATA_ORIGINAL js
  let js := replaceAll (lit ",inputTokens:0,outputTokens:0,cacheCreation:0,cacheRead:0\x7d") (lit "\x7d") js
  let js := replaceAll UPDATE_USAGE_PATCHED UPDATE_USAGE_ORIGINAL js
  let js := replaceAll UPDATE_USAGE_MIN_PATCHED UPDATE_USAGE_MIN_ORIGINAL js
  let js := replaceAll RESULT_HANDLER_PATCHED RESULT_HANDLER_ORIGINAL js
  let js := replaceAll RESULT_HANDLER_MIN_PATCHED RESULT_HANDLER_MIN_ORIGINAL js
  let js := replaceAll COMPACT_PATCHED COMPACT_ORIGINAL js
  let js := replaceAll COMPACT_MIN_PATCHED COMPACT_MIN_ORIGINAL js
  let js := replaceAll (lit "/*er0*/\x7d") (lit "if(U>=50)return null\x7d") js
  let js := replaceAll (lit "/* patched: always show */") (lit "if (U >= 50) return null;") js
  js

/-- Truncate at the first occurrence of the marker (the CSS tail removers
of clean: \nMARKER.*$ with DOTALL replaced by nothing). -/
def truncAtMarker (marker t : Text) : Text :=
  match findSub marker t with
  | some i => t.take i
  | none => t

/-- The CSS half of clean(). -/
def clean_css (css : Text) : Text :=
  truncAtMarker (lit "\n/* ST palette */")
    (truncAtMarker (lit "\n/* Custom Session Metrics Bar") css)

end CCPatch
namespace CCPatch

theorem leadsWith_iff {n h : Text} : leadsWith n h = true ↔ ∃ t, h = n ++ t := by
  induction n generalizing h with
  | nil => simp [leadsWith]
  | cons a n ih =>
    cases h with
    | nil =>
      simp only [leadsWith, List.cons_append, Bool.false_eq_true, false_iff, not_exists]
      intro t h
      exact List.noConfusion h
    | cons b t =>
      simp only [leadsWith, Bool.and_eq_true, beq_iff_eq, ih, List.cons_append]
      constructor
      · rintro ⟨rfl, u, rfl⟩
        exact ⟨u, rfl⟩
      · rintro ⟨u, hu⟩
        injection hu with h1 h2
        exact ⟨h1.symm, u, h2⟩

theorem leadsWith_append (n t : Text) : leadsWith n (n ++ t) = true :=
  leadsWith_iff.mpr ⟨t, rfl⟩

theorem occursB_iff {n h : Text} : occursB n h = true ↔ ∃ p s, h = p ++ n ++ s := by
  induction h with
  | nil =>
    simp only [occursB, leadsWith_iff]
    constructor
    · rintro ⟨t, ht⟩
      exact ⟨[], t, by simpa using ht⟩
    · rintro ⟨p, s, hps⟩
      cases p with
      | nil => exact ⟨s, by simpa using hps⟩
      | cons a q => exact absurd hps (by simp)
  | cons c t ih =>
    simp only [occursB, Bool.or_eq_true, leadsWith_iff, ih]
    constructor
    · rintro (⟨u, hu⟩ | ⟨p, s, hps⟩)
      · exact ⟨[], u, by simpa using hu⟩
      · exact ⟨c :: p, s, by simp [hps]⟩
    · rintro ⟨p, s, hps⟩
      cases p with
      | nil => exact Or.inl ⟨s, by simpa using hps⟩
      | cons a q =>
        right
        simp only [List.cons_append] at hps
        injection hps with h1 h2
        exact ⟨q, s, h2⟩

theorem occursB_parts (n p s : Text) : occursB n (p ++ n ++ s) = true :=
  occursB_iff.mpr ⟨p, s, rfl⟩

theorem occursB_self (n : Text) : occursB n n = true := by
  have := occursB_parts n [] []
  simpa using this

theorem occursB_mono_right {n t : Text} (x : Text) (h : occursB n t = true) :
    occursB n (x ++ t) = true := by
  obtain ⟨p, s, rfl⟩ := occursB_iff.mp h
  exact occursB_iff.mpr ⟨x ++ p, s, by simp⟩

theorem occursB_mono_left {n t : Text} (x : Text) (h : occursB n t = true) :
    occursB n (t ++ x) = true := by
  obtain ⟨p, s, rfl⟩ := occursB_iff.mp h
  exact occursB_iff.mpr ⟨p, s ++ x, by simp⟩

theorem occursB_middle {n m : Text} (x y : Text) (h : occursB n m = true) :
    occursB n (x ++ m ++ y) = true := by
  have := occursB_mono_right x (occursB_mono_left y h)
  simpa [List.append_assoc] using this

theorem splitFirst_spec {n h p s : Text} (hs : splitFirst n h = some (p, s)) :
    h = p ++ n ++ s := by
  induction h generalizing p s with
  | nil =>
    by_cases hl : leadsWith n [] = true
    · obtain ⟨t, ht⟩ := leadsWith_iff.mp hl
      rw [splitFirst, if_pos hl] at hs
      injection hs with hs
      injection hs with hp hsx
      subst hp; subst hsx
      cases n with
      | nil => simp
      | cons a q => exact absurd ht (by simp)
    · rw [splitFirst, if_neg hl] at hs
      exact absurd hs (by simp)
  | cons c t ih =>
    by_cases hl : leadsWith n (c :: t) = true
    · obtain ⟨u, hu⟩ := leadsWith_iff.mp hl
      rw [splitFirst, if_pos hl] at hs
      injection hs with hs
      injection hs with hp hsx
      subst hp
      rw [hu] at hsx ⊢
      rw [List.drop_left] at hsx
      subst hsx
      simp
    · rw [splitFirst, if_neg hl] at hs
      cases hsp : splitFirst n t with
      | none => rw [hsp] at hs; exact absurd hs (by simp)
      | some q =>
        rw [hsp] at hs
        injection hs with hs
        obtain ⟨q1, q2⟩ := q
        simp only at hs
        injection hs with hp hsx
        subst hp; subst hsx
        have := ih hsp
        simp [this]

theorem splitFirst_isSome {n h : Text} (ho : occursB n h = true) :
    ∃ p s, splitFirst n h = some (p, s) := by
  induction h with
  | nil =>
    have : leadsWith n [] = true := by simpa [occursB] using ho
    exact ⟨[], [], by rw [splitFirst, if_pos this]⟩
  | cons c t ih =>
    by_cases hl : leadsWith n (c :: t) = true
    · exact ⟨[], (c :: t).drop n.length, by rw [splitFirst, if_pos hl]⟩
    · have hot : occursB n t = true := by
        have := ho
        rw [occursB] at this
        simpa [hl] using this
      obtain ⟨p, s, hps⟩ := ih hot
      exact ⟨c :: p, s, by rw [splitFirst, if_neg hl, hps]; rfl⟩

theorem replaceFirst_of_not_occurs {n h : Text} (r : Text) (ho : occursB n h = false) :
    replaceFirst n r h = h := by
  rw [replaceFirst]
  cases hsp : splitFirst n h with
  | none => rfl
  | some q =>
    obtain ⟨p, s⟩ := q
    have := splitFirst_spec hsp
    rw [this, occursB_parts] at ho
    exact absurd ho (by simp)

theorem occursB_nil {d : Char} {n : Text} : occursB (d :: n) [] = false := rfl

end CCPatch
namespace CCPatch

theorem leadsWith_head_ne {d c : Char} {n t : Text} (h : d ≠ c) :
    leadsWith (d :: n) (c :: t) = false := by
  simp [leadsWith, h]

theorem occursB_cons_ne {d c : Char} {n : Text} (t : Text) (h : d ≠ c) :
    occursB (d :: n) (c :: t) = occursB (d :: n) t := by
  rw [occursB, leadsWith_head_ne h, Bool.false_or]

theorem occursB_replicate {d c : Char} {n : Text} (k : Nat) (t : Text) (h : d ≠ c) :
    occursB (d :: n) (List.replicate k c ++ t) = occursB (d :: n) t := by
  induction k with
  | zero => rfl
  | succ k ih => rw [List.replicate_succ, List.cons_append, occursB_cons_ne _ h, ih]

theorem findSub_cons_ne {d c : Char} {n : Text} (t : Text) (h : d ≠ c) :
    findSub (d :: n) (c :: t) = (findSub (d :: n) t).map (· + 1) := by
  rw [findSub, if_neg (by rw [leadsWith_head_ne h]; exact Bool.false_ne_true)]

theorem findSub_replicate {d c : Char} {n : Text} (k : Nat) (t : Text) (h : d ≠ c) :
    findSub (d :: n) (List.replicate k c ++ t) = (findSub (d :: n) t).map (· + k) := by
  induction k with
  | zero => simp
  | succ k ih =>
    rw [List.replicate_succ, List.cons_append, findSub_cons_ne _ h, ih]
    cases findSub (d :: n) t with
    | none => rfl
    | some j => simp [Nat.add_assoc]

theorem scanSplit_cons_none {α : Type} {m : Text → Option α} {c : Char} {t : Text}
    (h : m (c :: t) = none) :
    scanSplit m (c :: t) = (scanSplit m t).map (fun p => (c :: p.1, p.2)) := by
  rw [scanSplit, h]

theorem scanSplit_replicate {α : Type} {m : Text → Option α} {c : Char} (k : Nat) (t : Text)
    (h : ∀ s : Text, m (c :: s) = none) :
    scanSplit m (List.replicate k c ++ t)
      = (scanSplit m t).map (fun p => (List.replicate k c ++ p.1, p.2)) := by
  induction k with
  | zero =>
    cases hs : scanSplit m t with
    | none => simp [hs]
    | some p => simp [hs]
  | succ k ih =>
    rw [List.replicate_succ, List.cons_append, scanSplit_cons_none (h _), ih]
    cases scanSplit m t with
    | none => rfl
    | some p => simp

theorem scanIterPosF_cons_none {α : Type} {m : Text → Option (Nat × α)} {c : Char} {t : Text}
    (fuel pos : Nat) (h : m (c :: t) = none) :
    scanIterPosF m (fuel + 1) pos (c :: t) = scanIterPosF m fuel (pos + 1) t := by
  rw [scanIterPosF, h]

theorem scanIterPosF_replicate {α : Type} {m : Text → Option (Nat × α)} {c : Char}
    (k fuel pos : Nat) (t : Text) (h : ∀ s : Text, m (c :: s) = none) :
    scanIterPosF m (fuel + k) pos (List.replicate k c ++ t)
      = scanIterPosF m fuel (pos + k) t := by
  induction k generalizing pos with
  | zero => simp
  | succ k ih =>
    rw [List.replicate_succ, List.cons_append]
    have : fuel + (k + 1) = (fuel + k) + 1 := by omega
    rw [this, scanIterPosF_cons_none _ _ (h _), ih]
    congr 1
    omega

theorem splitNl_replicate (k : Nat) (t : Text) :
    splitNl (List.replicate k '\n' ++ t) = List.replicate k [] ++ splitNl t := by
  induction k with
  | zero => rfl
  | succ k ih =>
    rw [List.replicate_succ, List.cons_append, splitNl, if_pos (by decide), ih,
      List.replicate_succ, List.cons_append]

theorem joinNl_replicate (k : Nat) (l : Text) (ls : List Text) :
    joinNl (List.replicate k ([] : Text) ++ (l :: ls))
      = List.replicate k '\n' ++ joinNl (l :: ls) := by
  induction k with
  | zero => rfl
  | succ k ih =>
    obtain ⟨y, ys, hy⟩ : ∃ y ys, List.replicate k ([] : Text) ++ (l :: ls) = y :: ys := by
      cases k with
      | zero => exact ⟨l, ls, rfl⟩
      | succ k2 => exact ⟨([] : Text), List.replicate k2 ([] : Text) ++ (l :: ls), rfl⟩
    have hj : joinNl (([] : Text) :: y :: ys) = [] ++ '\n' :: joinNl (y :: ys) := rfl
    rw [List.replicate_succ, List.cons_append, hy, hj, ← hy, ih,
      List.replicate_succ, List.cons_append]
    rfl

end CCPatch
namespace CCPatch

theorem occursB_append_cases {n x y : Text} (h : occursB n (x ++ y) = true) :
    occursB n x = true ∨ occursB n y = true ∨
      ∃ w z, n = w ++ z ∧ w ≠ [] ∧ z ≠ [] ∧ (∃ p, x = p ++ w) ∧ (∃ s, y = z ++ s) := by
  obtain ⟨p, s, hps⟩ := occursB_iff.mp h
  rw [List.append_assoc] at hps
  rcases List.append_eq_append_iff.mp hps.symm with ⟨w, hw1, hw2⟩ | ⟨w, hw1, hw2⟩
  · rcases List.append_eq_append_iff.mp hw2 with ⟨z, hz1, hz2⟩ | ⟨z, hz1, hz2⟩
    · exact Or.inl (occursB_iff.mpr ⟨p, z, by rw [hw1, hz1, List.append_assoc]⟩)
    · cases hznil : z with
      | nil =>
        subst hznil
        rw [List.append_nil] at hz1
        exact Or.inl (occursB_iff.mpr ⟨p, [], by rw [hw1, ← hz1, List.append_nil]⟩)
      | cons zc zt =>
        cases hwnil : w with
        | nil =>
          subst hwnil
          rw [List.nil_append] at hz1
          exact Or.inr (Or.inl (occursB_iff.mpr ⟨[], s, by rw [hz2, ← hz1, List.nil_append]⟩))
        | cons wc wt =>
          refine Or.inr (Or.inr ⟨w, z, ?_, ?_, ?_, ⟨p, ?_⟩, ⟨s, ?_⟩⟩)
          · rw [hznil, hwnil] at hz1 ⊢; exact hz1
          · rw [hwnil]; simp
          · rw [hznil]; simp
          · rw [hwnil] at hw1 ⊢; exact hw1
          · rw [hznil] at hz2 ⊢; exact hz2
  · exact Or.inr (Or.inl (occursB_iff.mpr ⟨w, s, by rw [hw2, List.append_assoc]⟩))

/-- Appending text whose head character does not occur in the needle cannot
create or destroy an occurrence across the junction. -/
theorem occursB_append_head_ne {n x : Text} {c : Char} (y : Text) (hc : c ∉ n) :
    occursB n (x ++ (c :: y)) = (occursB n x || occursB n (c :: y)) := by
  cases hocc : occursB n (x ++ (c :: y)) with
  | true =>
    rcases occursB_append_cases hocc with h | h | ⟨w, z, hn, hw, hz, _, ⟨s, hs⟩⟩
    · rw [h, Bool.true_or]
    · rw [h, Bool.or_true]
    · exfalso
      cases z with
      | nil => exact hz rfl
      | cons zc zt =>
        injection hs with h1 _
        subst h1
        exact hc (by rw [hn]; exact List.mem_append_right _ (List.mem_cons_self _ _))
  | false =>
    cases hx : occursB n x with
    | true =>
      rw [occursB_mono_left _ hx] at hocc
      exact absurd hocc (by simp)
    | false =>
      cases hy : occursB n (c :: y) with
      | true =>
        rw [occursB_mono_right _ hy] at hocc
        exact absurd hocc (by simp)
      | false => rfl

end CCPatch
namespace CCPatch

/-- A textual replacement preserves every occurrence of a pattern m that
cannot overlap the replaced pattern: m does not occur inside pat, pat does
not occur inside m, no proper nonempty suffix of m is a prefix of pat, and
no proper nonempty suffix of pat is a prefix of m. -/
theorem occursB_replaceFirst_pres {m pat : Text} (rep h : Text)
    (h1 : occursB m pat = false) (h2 : occursB pat m = false)
    (h3 : ∀ i < m.length, 0 < i → leadsWith (m.drop i) pat = false)
    (h4 : ∀ i < pat.length, 0 < i → leadsWith (pat.drop i) m = false)
    (hm : occursB m h = true) : occursB m (replaceFirst pat rep h) = true := by
  cases hop : occursB pat h with
  | false => rw [replaceFirst_of_not_occurs _ hop]; exact hm
  | true =>
    obtain ⟨P, S, hPS⟩ := splitFirst_isSome hop
    have hdecomp := splitFirst_spec hPS
    rw [replaceFirst, hPS]
    obtain ⟨u, v, huv⟩ := occursB_iff.mp hm
    have hinP : occursB m P = true → occursB m (P ++ rep ++ S) = true := fun hp =>
      occursB_mono_left _ (occursB_mono_left _ hp)
    have hinS : occursB m S = true → occursB m (P ++ rep ++ S) = true := fun hp =>
      occursB_mono_right _ hp
    have he : u ++ (m ++ v) = P ++ (pat ++ S) := by
      rw [← List.append_assoc, ← huv, hdecomp, List.append_assoc]
    rcases List.append_eq_append_iff.mp he with ⟨w, hw1, hw2⟩ | ⟨w, hw1, hw2⟩
    · -- P = u ++ w, m ++ v = w ++ (pat ++ S)
      rcases List.append_eq_append_iff.mp hw2 with ⟨z, hz1, hz2⟩ | ⟨z, hz1, hz2⟩
      · -- w = m ++ z : m inside P
        exact hinP (occursB_iff.mpr ⟨u, z, by rw [hw1, hz1, List.append_assoc]⟩)
      · -- m = w ++ z, pat ++ S = z ++ v
        cases z with
        | nil =>
          rw [List.append_nil] at hz1
          exact hinP (occursB_iff.mpr ⟨u, [], by rw [hw1, ← hz1, List.append_nil]⟩)
        | cons zc zt =>
          rcases List.append_eq_append_iff.mp hz2 with ⟨y, hy1, hy2⟩ | ⟨y, hy1, hy2⟩
          · -- z = pat ++ y : pat inside m
            rw [hy1] at hz1
            rw [hz1] at h2
            rw [← List.append_assoc, occursB_parts] at h2
            exact absurd h2 (by simp)
          · -- pat = z ++ y, v = y ++ S
            cases y with
            | nil =>
              rw [List.append_nil] at hy1
              rw [hz1, ← hy1, occursB_mono_right w (occursB_self pat)] at h2
              exact absurd h2 (by simp)
            | cons yc yt =>
              cases w with
              | nil =>
                rw [List.nil_append] at hz1
                rw [hz1] at h1
                rw [hy1, occursB_iff.mpr ⟨[], yc :: yt, by simp⟩] at h1
                exact absurd h1 (by simp)
              | cons wc wt =>
                exfalso
                have hdrop : m.drop (wc :: wt).length = zc :: zt := by
                  rw [hz1, List.drop_left]
                have hlen : (wc :: wt).length < m.length := by
                  rw [hz1]; simp
                have hlw : leadsWith (zc :: zt) pat = true := by
                  rw [hy1]; exact leadsWith_append _ _
                have hfalse := h3 _ hlen (by simp)
                rw [hdrop, hlw] at hfalse
                exact absurd hfalse (by simp)
    · -- u = P ++ w, pat ++ S = w ++ (m ++ v)
      rcases List.append_eq_append_iff.mp hw2 with ⟨z, hz1, hz2⟩ | ⟨z, hz1, hz2⟩
      · -- w = pat ++ z, S = z ++ (m ++ v)
        exact hinS (occursB_iff.mpr ⟨z, v, by rw [hz2, List.append_assoc]⟩)
      · -- pat = w ++ z, m ++ v = z ++ S
        cases z with
        | nil =>
          rw [List.nil_append] at hz2
          exact hinS (occursB_iff.mpr ⟨[], v, by rw [← hz2, List.nil_append]⟩)
        | cons zc zt =>
          rcases List.append_eq_append_iff.mp hz2 with ⟨y, hy1, hy2⟩ | ⟨y, hy1, hy2⟩
          · -- z = m ++ y : m inside pat
            rw [hy1] at hz1
            rw [hz1, ← List.append_assoc, occursB_parts] at h1
            exact absurd h1 (by simp)
          · -- m = z ++ y, S = y ++ v
            cases y with
            | nil =>
              rw [List.append_nil] at hy1
              rw [hz1, ← hy1, occursB_iff.mpr ⟨w, [], by simp⟩] at h1
              exact absurd h1 (by simp)
            | cons yc yt =>
              cases w with
              | nil =>
                rw [List.nil_append] at hz1
                rw [hy1, ← hz1, occursB_iff.mpr ⟨[], yc :: yt, by simp⟩] at h2
                exact absurd h2 (by simp)
              | cons wc wt =>
                exfalso
                have hdrop : pat.drop (wc :: wt).length = zc :: zt := by
                  rw [hz1, List.drop_left]
                have hlen : (wc :: wt).length < pat.length := by
                  rw [hz1]; simp
                have hlw : leadsWith (zc :: zt) m = true := by
                  rw [hy1]; exact leadsWith_append _ _
                have hfalse := h4 _ hlen (by simp)
                rw [hdrop, hlw] at hfalse
                exact absurd hfalse (by simp)

end CCPatch
namespace CCPatch

/-- Inserting text right after an occurrence of pat (replacing pat by
pat ++ extra) preserves every occurrence of m when pat ends in a character
that does not occur in m (no occurrence of m can cross the insertion
point). -/
theorem occursB_insertAfter_pres {m pat : Text} {ch : Char} (extra h : Text)
    (hq : ∃ q, pat = q ++ [ch]) (hc : ch ∉ m)
    (hm : occursB m h = true) : occursB m (replaceFirst pat (pat ++ extra) h) = true := by
  cases hop : occursB pat h with
  | false => rw [replaceFirst_of_not_occurs _ hop]; exact hm
  | true =>
    obtain ⟨P, S, hPS⟩ := splitFirst_isSome hop
    have hdecomp := splitFirst_spec hPS
    rw [replaceFirst, hPS]
    obtain ⟨u, v, huv⟩ := occursB_iff.mp hm
    have hinPpat : occursB m (P ++ pat) = true → occursB m (P ++ (pat ++ extra) ++ S) = true := by
      intro hp
      have : P ++ (pat ++ extra) ++ S = (P ++ pat) ++ (extra ++ S) := by simp
      rw [this]
      exact occursB_mono_left _ hp
    have hinS : occursB m S = true → occursB m (P ++ (pat ++ extra) ++ S) = true := fun hp =>
      occursB_mono_right _ hp
    have he : u ++ (m ++ v) = P ++ (pat ++ S) := by
      rw [← List.append_assoc, ← huv, hdecomp, List.append_assoc]
    rcases List.append_eq_append_iff.mp he with ⟨w, hw1, hw2⟩ | ⟨w, hw1, hw2⟩
    · -- P = u ++ w, m ++ v = w ++ (pat ++ S)
      rcases List.append_eq_append_iff.mp hw2 with ⟨z, hz1, hz2⟩ | ⟨z, hz1, hz2⟩
      · -- w = m ++ z : m inside P
        refine hinPpat (occursB_iff.mpr ⟨u, z ++ pat, ?_⟩)
        rw [hw1, hz1]
        try simp
      · -- m = w ++ z, pat ++ S = z ++ v
        cases z with
        | nil =>
          rw [List.append_nil] at hz1
          refine hinPpat (occursB_iff.mpr ⟨u, pat, ?_⟩)
          rw [hw1, ← hz1]
          try simp
        | cons zc zt =>
          rcases List.append_eq_append_iff.mp hz2 with ⟨y, hy1, hy2⟩ | ⟨y, hy1, hy2⟩
          · -- z = pat ++ y, S = y ++ v
            cases y with
            | nil =>
              rw [List.append_nil] at hy1
              refine hinPpat (occursB_iff.mpr ⟨u, [], ?_⟩)
              rw [hw1, hz1, hy1]
              try simp
            | cons yc yt =>
              exfalso
              obtain ⟨q, hpq⟩ := hq
              apply hc
              rw [hz1, hy1, hpq]
              simp
          · -- pat = z ++ y, v = y ++ S : m ends inside pat
            refine hinPpat (occursB_iff.mpr ⟨u, y, ?_⟩)
            rw [hw1, hy1, hz1]
            try simp
    · -- u = P ++ w, pat ++ S = w ++ (m ++ v)
      rcases List.append_eq_append_iff.mp hw2 with ⟨z, hz1, hz2⟩ | ⟨z, hz1, hz2⟩
      · -- w = pat ++ z, S = z ++ (m ++ v) : m inside S
        exact hinS (occursB_iff.mpr ⟨z, v, by rw [hz2, List.append_assoc]⟩)
      · -- pat = w ++ z, m ++ v = z ++ S
        cases z with
        | nil =>
          rw [List.nil_append] at hz2
          exact hinS (occursB_iff.mpr ⟨[], v, by rw [← hz2, List.nil_append]⟩)
        | cons zc zt =>
          rcases List.append_eq_append_iff.mp hz2 with ⟨y, hy1, hy2⟩ | ⟨y, hy1, hy2⟩
          · -- z = m ++ y : m inside pat
            refine hinPpat (occursB_iff.mpr ⟨P ++ w, y, ?_⟩)
            rw [hz1, hy1]
            try simp
          · -- m = z ++ y, S = y ++ v
            cases y with
            | nil =>
              rw [List.append_nil] at hy1
              refine hinPpat (occursB_iff.mpr ⟨P ++ w, [], ?_⟩)
              rw [hz1, ← hy1]
              try simp
            | cons yc yt =>
              exfalso
              obtain ⟨q, hpq⟩ := hq
              have hzch : ∃ z2, (zc :: zt : Text) = z2 ++ [ch] := by
                have : w ++ zc :: zt = q ++ [ch] := by rw [← hz1, hpq]
                rcases List.append_eq_append_iff.mp this with ⟨t, ht1, ht2⟩ | ⟨t, ht1, ht2⟩
                · exact ⟨t, ht2⟩
                · cases t with
                  | nil =>
                    exact ⟨[], by simpa using ht2.symm⟩
                  | cons a t2 =>
                    exfalso
                    have := congrArg List.length ht2
                    simp at this
              obtain ⟨z2, hz2ch⟩ := hzch
              apply hc
              rw [hy1, hz2ch]
              simp

end CCPatch
namespace CCPatch

theorem stripLit_spec {l h h1 : Text} (hs : stripLit l h = some h1) : h = l ++ h1 := by
  rw [stripLit] at hs
  by_cases hl : leadsWith l h = true
  · obtain ⟨t, ht⟩ := leadsWith_iff.mp hl
    rw [if_pos hl] at hs
    injection hs with hs
    rw [ht, List.drop_left] at hs
    rw [ht, hs]
  · rw [if_neg hl] at hs
    exact absurd hs (by simp)

theorem munch_spec (p : Char → Bool) (t : Text) : t = (munch p t).1 ++ (munch p t).2 := by
  induction t with
  | nil => rfl
  | cons c t ih =>
    by_cases hc : p c = true
    · rw [munch, if_pos hc]
      simpa using ih
    · rw [munch, if_neg hc]
      simp

theorem scanSplit_spec {α : Type} {m : Text → Option α} {t pre : Text} {a : α}
    (hs : scanSplit m t = some (pre, a)) : ∃ suf, t = pre ++ suf ∧ m suf = some a := by
  induction t generalizing pre with
  | nil =>
    rw [scanSplit] at hs
    cases hm : m [] with
    | none => rw [hm] at hs; exact absurd hs (by simp)
    | some b =>
      rw [hm] at hs
      injection hs with hs
      injection hs with h1 h2
      subst h2
      exact ⟨[], by simp [← h1], by rw [hm]⟩
  | cons c t ih =>
    rw [scanSplit] at hs
    cases hm : m (c :: t) with
    | some b =>
      rw [hm] at hs
      injection hs with hs
      injection hs with h1 h2
      subst h2
      exact ⟨c :: t, by simp [← h1], by rw [hm]⟩
    | none =>
      rw [hm] at hs
      cases hs2 : scanSplit m t with
      | none => rw [hs2] at hs; exact absurd hs (by simp)
      | some q =>
        rw [hs2] at hs
        obtain ⟨q1, q2⟩ := q
        simp only [Option.map_some'] at hs
        injection hs with hs
        injection hs with h1 h2
        subst h2
        obtain ⟨suf, hsuf, hma⟩ := ih hs2
        exact ⟨suf, by rw [← h1, List.cons_append, ← hsuf], hma⟩

/-- Minimality of splitFirst: no decomposition of the text around the
pattern has a shorter prefix, so it is the first occurrence. -/
theorem splitFirst_min {n h p s : Text} (hs : splitFirst n h = some (p, s)) :
    ∀ p2 s2, h = p2 ++ n ++ s2 → p.length ≤ p2.length := by
  induction h generalizing p s with
  | nil =>
    intro p2 s2 _
    have := splitFirst_spec hs
    cases p with
    | nil => simp
    | cons a q => exact absurd this.symm (by simp)
  | cons c t ih =>
    intro p2 s2 hdec
    by_cases hl : leadsWith n (c :: t) = true
    · rw [splitFirst, if_pos hl] at hs
      injection hs with hs
      injection hs with h1 _
      rw [← h1]
      simp
    · rw [splitFirst, if_neg hl] at hs
      cases hs2 : splitFirst n t with
      | none => rw [hs2] at hs; exact absurd hs (by simp)
      | some q =>
        rw [hs2] at hs
        obtain ⟨q1, q2⟩ := q
        simp only [Option.map_some'] at hs
        injection hs with hs
        injection hs with h1 h2
        cases p2 with
        | nil =>
          exfalso
          rw [List.nil_append] at hdec
          exact hl (by rw [hdec]; exact leadsWith_append n s2)
        | cons a p2t =>
          rw [← h1]
          simp only [List.length_cons]
          injection hdec with _ hdt
          exact Nat.add_le_add_right (ih hs2 p2t s2 hdt) 1

/-- An occurrence of a longer pattern yields an occurrence of its middle part. -/
theorem occursB_infix {x n y t : Text} (h : occursB (x ++ n ++ y) t = true) :
    occursB n t = true := by
  obtain ⟨p, s, hps⟩ := occursB_iff.mp h
  refine occursB_iff.mpr ⟨p ++ x, y ++ s, ?_⟩
  rw [hps]
  simp

/-- The number of newline-delimited lines is the newline count plus one. -/
theorem splitNl_length (t : Text) : (splitNl t).length = t.count '\n' + 1 := by
  induction t with
  | nil => simp [splitNl]
  | cons c t ih =>
    by_cases hc : (c == '\n') = true
    · rw [splitNl, if_pos hc]
      have : c = '\n' := by simpa using hc
      subst this
      simp [ih, List.count_cons]
    · rw [splitNl, if_neg hc]
      cases hs : splitNl t with
      | nil => rw [hs] at ih; simp at ih
      | cons l ls =>
        rw [hs] at ih
        simp only [List.length_cons] at ih ⊢
        rw [List.count_cons, if_neg (by simpa using hc)]
        simpa using ih

end CCPatch
namespace CCPatch

/-- C6: the format classifier is_prettified classifies a text as prettified
exactly when its number of newline-delimited lines (the newline count plus
one) exceeds the fixed threshold 5000, and a text with exactly 5000 lines
is deterministically classified minified. -/
theorem C6_format_classifier (t : Text) :
    (is_prettified t = true ↔ 5000 < t.count '\n' + 1) ∧
    (t.count '\n' + 1 = 5000 → is_prettified t = false) := by
  have hl := splitNl_length t
  constructor
  · rw [is_prettified, hl]
    exact decide_eq_true_iff
  · intro h5
    rw [is_prettified, hl, h5]
    decide

/-- Witness for C6: a text of exactly 5000 lines (4999 newlines) is
classified minified. -/
theorem C6_witness :
    is_prettified (List.replicate 4999 '\n') = false := by
  apply (C6_format_classifier (List.replicate 4999 '\n')).2
  rw [List.count_replicate]
  simp

/-- C5: the gate-removal transform replaces exactly the first occurrence of
the first listed spelling of the visibility gate that is present
(short-circuiting in the listed order), leaving every other byte of the
text unchanged by this transform, and reports skipped when no spelling is
present but the inert marker is. -/
theorem C5_er0_gate (t : Text) :
    (occursB ER0_P1 t = true → ∃ p s, splitFirst ER0_P1 t = some (p, s) ∧
      t = p ++ ER0_P1 ++ s ∧ (∀ p2 s2, t = p2 ++ ER0_P1 ++ s2 → p.length ≤ p2.length) ∧
      er0Step t = (p ++ ER0_M1 ++ s, [Msg.okEr0 0])) ∧
    (occursB ER0_P1 t = false → occursB ER0_P2 t = true →
      ∃ p s, splitFirst ER0_P2 t = some (p, s) ∧
      t = p ++ ER0_P2 ++ s ∧ (∀ p2 s2, t = p2 ++ ER0_P2 ++ s2 → p.length ≤ p2.length) ∧
      er0Step t = (p ++ ER0_M2 ++ s, [Msg.okEr0 1])) ∧
    (occursB ER0_P1 t = false → occursB ER0_P2 t = false → occursB ER0_P3 t = true →
      ∃ p s, splitFirst ER0_P3 t = some (p, s) ∧
      t = p ++ ER0_P3 ++ s ∧ (∀ p2 s2, t = p2 ++ ER0_P3 ++ s2 → p.length ≤ p2.length) ∧
      er0Step t = (p ++ ER0_M1 ++ s, [Msg.okEr0 2])) ∧
    (occursB ER0_P1 t = false → occursB ER0_P2 t = false → occursB ER0_P3 t = false →
      occursB ER0_M1 t = true → er0Step t = (t, [Msg.skipEr0])) := by
  refine ⟨fun h1 => ?_, fun h1 h2 => ?_, fun h1 h2 h3 => ?_, fun h1 h2 h3 h4 => ?_⟩
  · obtain ⟨p, s, hps⟩ := splitFirst_isSome h1
    refine ⟨p, s, hps, splitFirst_spec hps, splitFirst_min hps, ?_⟩
    rw [er0Step, if_pos h1, replaceFirst, hps]
  · obtain ⟨p, s, hps⟩ := splitFirst_isSome h2
    refine ⟨p, s, hps, splitFirst_spec hps, splitFirst_min hps, ?_⟩
    rw [er0Step, if_neg (by rw [h1]; exact Bool.false_ne_true), if_pos h2,
      replaceFirst, hps]
  · obtain ⟨p, s, hps⟩ := splitFirst_isSome h3
    refine ⟨p, s, hps, splitFirst_spec hps, splitFirst_min hps, ?_⟩
    rw [er0Step, if_neg (by rw [h1]; exact Bool.false_ne_true),
      if_neg (by rw [h2]; exact Bool.false_ne_true), if_pos h3, replaceFirst, hps]
  · rw [er0Step, if_neg (by rw [h1]; exact Bool.false_ne_true),
      if_neg (by rw [h2]; exact Bool.false_ne_true),
      if_neg (by rw [h3]; exact Bool.false_ne_true), if_pos h4]

/-- The concrete text of the C5 witness: only the third gate spelling is
present. -/
def c5text : Text := lit "abc if(U>=50)return null; def"

/-- Witness for C5: on a text containing only the third spelling, the
transform rewrites exactly that occurrence to the inert marker. -/
theorem C5_witness :
    ∃ p s, splitFirst ER0_P3 c5text = some (p, s) ∧
      c5text = p ++ ER0_P3 ++ s ∧
      (∀ p2 s2, c5text = p2 ++ ER0_P3 ++ s2 → p.length ≤ p2.length) ∧
      er0Step c5text = (p ++ ER0_M1 ++ s, [Msg.okEr0 2]) :=
  (C5_er0_gate c5text).2.2.1 (by decide) (by decide) (by decide)

end CCPatch
namespace CCPatch

/-- C8: for every stylesheet text without the selector .sessionMetrics_cc,
patch_css appends exactly the custom block containing it (and the palette
block exactly when the ST marker is absent from the text), leaving every
preceding byte unchanged; a second patch_css appends nothing, reports both
blocks skipped, and returns the text unchanged. -/
theorem C8_patch_css (t : Text) (h : occursB (lit ".sessionMetrics_cc") t = false) :
    patch_css t =
      ⟨t ++ custom_css ++ (if occursB (lit "/* ST palette */") t then [] else st_css),
       [Msg.okCssCustom] ++
         (if occursB (lit "/* ST palette */") t then [Msg.skipCssSt] else [Msg.okCssSt]) ++
         [Msg.doneCss]⟩ ∧
    patch_css ((patch_css t).text) =
      ⟨(patch_css t).text, [Msg.skipCssCustom, Msg.skipCssSt, Msg.doneCss]⟩ := by
  have hcustom : custom_css = '\n' :: custom_css.tail := by decide
  have hst : occursB (lit "/* ST palette */") (t ++ custom_css)
      = occursB (lit "/* ST palette */") t := by
    rw [hcustom, occursB_append_head_ne _ (by decide)]
    have hc2 : occursB (lit "/* ST palette */") ('\n' :: custom_css.tail) = false := by decide
    rw [hc2, Bool.or_false]
  have hfirst : patch_css t =
      ⟨t ++ custom_css ++ (if occursB (lit "/* ST palette */") t then [] else st_css),
       [Msg.okCssCustom] ++
         (if occursB (lit "/* ST palette */") t then [Msg.skipCssSt] else [Msg.okCssSt]) ++
         [Msg.doneCss]⟩ := by
    rw [patch_css]
    simp only [h, Bool.false_eq_true, if_false, hst]
    by_cases hm : occursB (lit "/* ST palette */") t = true
    · simp [hm]
    · simp only [Bool.not_eq_true] at hm
      simp [hm]
  refine ⟨hfirst, ?_⟩
  rw [hfirst]
  have hsel : occursB (lit ".sessionMetrics_cc")
      (t ++ custom_css ++ (if occursB (lit "/* ST palette */") t then [] else st_css))
      = true := by
    exact occursB_middle t _ (by decide)
  have hstm : occursB (lit "/* ST palette */")
      (t ++ custom_css ++ (if occursB (lit "/* ST palette */") t then [] else st_css))
      = true := by
    by_cases hm : occursB (lit "/* ST palette */") t = true
    · simp only [hm, if_true]
      have h1 : occursB (lit "/* ST palette */") (t ++ custom_css) = true := by
        rw [hst]; exact hm
      exact occursB_mono_left _ h1
    · simp only [hm]
      simp only [Bool.not_eq_true] at hm
      simp only [hm, Bool.false_eq_true, if_false]
      exact occursB_mono_right _ (by decide : occursB (lit "/* ST palette */") st_css = true)
  rw [patch_css]
  simp only [hsel, if_true, hstm]
  simp

end CCPatch
namespace CCPatch

/-- Witness for C8 on a concrete stylesheet without selector or marker. -/
theorem C8_witness :
    patch_css (lit "body\x7bcolor:red\x7d") =
      ⟨lit "body\x7bcolor:red\x7d" ++ custom_css ++ st_css,
       [Msg.okCssCustom, Msg.okCssSt, Msg.doneCss]⟩ := by
  rw [(C8_patch_css (lit "body\x7bcolor:red\x7d") (by decide)).1]
  have hm : occursB (lit "/* ST palette */") (lit "body\x7bcolor:red\x7d") = false := by decide
  rw [hm]
  simp

/-- usageMinAt matches exactly the minified usageData original shape with
the captured constructor identifier. -/
theorem usageMinAt_spec {h v rest : Text} (hm : usageMinAt h = some (v, rest)) :
    h = lit "usageData=" ++ v ++
      lit "(\x7btotalTokens:0,totalCost:0,contextWindow:0,maxOutputTokens:0\x7d)" ++ rest := by
  rw [usageMinAt] at hm
  split at hm
  · exact absurd hm (by simp)
  · exact absurd hm (by simp)
  · rename_i c t hs1
    split at hm
    · split at hm
      · exact absurd hm (by simp)
      · rename_i hac hs2x h2 hs2
        injection hm with hm
        injection hm with hv hrest
        have hh : h = lit "usageData=" ++ (c :: t) := stripLit_spec hs1
        have ht : t = (munch alnumChar t).1 ++ (munch alnumChar t).2 :=
          munch_spec alnumChar t
        have h22 : (munch alnumChar t).2 =
            lit "(\x7btotalTokens:0,totalCost:0,contextWindow:0,maxOutputTokens:0\x7d)"
              ++ h2 := stripLit_spec hs2
        subst hrest
        rw [hh, ← hv]
        conv_lhs => rw [ht, h22]
        simp
    · exact absurd hm (by simp)

end CCPatch
namespace CCPatch

/-- C4 (amended): on a text free of the inputTokens markers and of the
prettified usageData original, with a leftmost minified usageData match,
the usageData transform rewrites exactly that occurrence, preserving the
dynamically-named constructor identifier, and reports patched (minified);
running the transform again on the output leaves it unchanged and reports
SKIP: already patched. -/
theorem C4_usage_min (t : Text)
    (h0 : occursB (lit "inputTokens:0") t = false)
    (h1 : occursB (lit "inputTokens: 0,") t = false)
    (h2 : occursB USAGE_DATA_ORIGINAL t = false)
    (pre v rest : Text)
    (h3 : scanSplit usageMinAt t = some (pre, (v, rest))) :
    t = pre ++ (lit "usageData=" ++ v ++
      lit "(\x7btotalTokens:0,totalCost:0,contextWindow:0,maxOutputTokens:0\x7d)" ++ rest) ∧
    usageStep t = (pre ++ usageMinPatched v ++ rest, [Msg.okUsageMin]) ∧
    usageStep (pre ++ usageMinPatched v ++ rest)
      = (pre ++ usageMinPatched v ++ rest, [Msg.skipUsage]) := by
  obtain ⟨suf, hsuf, hma⟩ := scanSplit_spec h3
  have hdec := usageMinAt_spec hma
  refine ⟨by rw [hsuf, hdec], ?_, ?_⟩
  · rw [usageStep, if_pos (by rw [h0, h1]; rfl), if_neg (by rw [h2]; exact Bool.false_ne_true), h3]
  · have hocc : occursB (lit "inputTokens:0") (pre ++ usageMinPatched v ++ rest) = true := by
      refine occursB_middle pre rest ?_
      rw [usageMinPatched]
      exact occursB_mono_right _ (by decide : occursB (lit "inputTokens:0")
        (lit "(\x7btotalTokens:0,totalCost:0,contextWindow:0,maxOutputTokens:0,inputTokens:0,outputTokens:0,cacheCreation:0,cacheRead:0\x7d)") = true)
    rw [usageStep, if_neg (by rw [hocc]; simp)]

end CCPatch
namespace CCPatch

/-- The counterexample text for C4: a few-line (hence minified-classified)
text containing both the prettified usageData original and the minified
p7 occurrence. -/
def c4cex : Text := USAGE_DATA_ORIGINAL ++ lit "\n" ++
  lit "usageData=p7(\x7btotalTokens:0,totalCost:0,contextWindow:0,maxOutputTokens:0\x7d)"

/-- Counterexample for C4 as stated: this minified-classified text contains
the p7 minified original and no inputTokens marker, yet the usageData
transform reports patched (prettified), not (minified), and leaves the p7
occurrence unrewritten. -/
theorem C4_counterexample :
    is_prettified c4cex = false ∧
    occursB (lit "usageData=p7(\x7btotalTokens:0,totalCost:0,contextWindow:0,maxOutputTokens:0\x7d)")
      c4cex = true ∧
    occursB (lit "inputTokens:0") c4cex = false ∧
    occursB (lit "inputTokens: 0,") c4cex = false ∧
    (usageStep c4cex).2 = [Msg.okUsagePretty] ∧
    occursB (usageMinPatched (lit "p7")) (usageStep c4cex).1 = false := by
  refine ⟨by decide, by decide, by decide, by decide, by decide, by decide⟩

/-- The witness text for C4. -/
def c4wit : Text :=
  lit "xx usageData=p7(\x7btotalTokens:0,totalCost:0,contextWindow:0,maxOutputTokens:0\x7d) yy"

/-- Witness for C4: the amended theorem applied at a concrete minified
text with constructor name p7. -/
theorem C4_witness :
    c4wit = lit "xx " ++ (lit "usageData=" ++ lit "p7" ++
      lit "(\x7btotalTokens:0,totalCost:0,contextWindow:0,maxOutputTokens:0\x7d)" ++ lit " yy") ∧
    usageStep c4wit = (lit "xx " ++ usageMinPatched (lit "p7") ++ lit " yy", [Msg.okUsageMin]) ∧
    usageStep (lit "xx " ++ usageMinPatched (lit "p7") ++ lit " yy")
      = (lit "xx " ++ usageMinPatched (lit "p7") ++ lit " yy", [Msg.skipUsage]) :=
  C4_usage_min c4wit (by decide) (by decide) (by decide)
    (lit "xx ") (lit "p7") (lit " yy") (by decide)

end CCPatch
namespace CCPatch

/-- The counterexample text for C7: the first child after the inputFooter
container is the injected call, and no further structural component
follows. -/
def c7cex : Text := lit "className:WJ.inputFooter\x7d,n4.default.createElement(CC_MetricsBar,"

/-- Counterexample for C7 as stated: the resolver returns the injected
name CC_MetricsBar itself when the skip-forward pattern finds no next
component. -/
theorem C7_counterexample :
    detect_footer_component c7cex (lit "WJ") = lit "CC_MetricsBar" := by decide

/-- C7 (amended): whenever the primary footer-component match names
CC_MetricsBar, the resolver returns the skip-forward pattern's component
when that pattern matches, and only falls back to returning CC_MetricsBar
itself when it does not. -/
theorem C7_skip_forward (t cv pre g1 : Text)
    (h1 : scanSplit (footerCompAt cv) t = some (pre, (g1, lit "CC_MetricsBar"))) :
    (∀ pre2 c2, scanSplit footerCompSkipAt t = some (pre2, c2) →
      detect_footer_component t cv = c2) ∧
    (scanSplit footerCompSkipAt t = none →
      detect_footer_component t cv = lit "CC_MetricsBar") := by
  constructor
  · intro pre2 c2 h2
    simp [detect_footer_component, h1, h2]
  · intro h2
    simp [detect_footer_component, h1, h2]

/-- The witness text for C7: an already-patched footer with a structural
component dP1 after the injected call. -/
def c7wit : Text :=
  lit "className:WJ.inputFooter\x7d,n4.default.createElement(CC_MetricsBar,\x7bsession:$\x7d),n4.default.createElement(dP1"

/-- Witness for C7: on the already-patched footer the resolver skips the
injected component and returns dP1. -/
theorem C7_witness : detect_footer_component c7wit (lit "WJ") = lit "dP1" :=
  (C7_skip_forward c7wit (lit "WJ") [] (lit "n4") (by decide)).1
    (lit "className:WJ.inputFooter\x7d,n4.default.") (lit "dP1") (by decide)

end CCPatch
namespace CCPatch

/-- When the definition marker is absent, the enclosing-function detector
fails, and (in the prettified branch) no line matches the Zi0 fallback,
the definition-injection transform fails. -/
theorem defStep_fail (pretty : Bool) (cv rv sh c : Text)
    (hdef : occursB (lit "function CC_MetricsBar") c = false)
    (hfn : detect_footer_function c cv = none)
    (hzi : pretty = true →
      findLineIdx (fun l => occursB (lit "function Zi0(\x7b") l || occursB (lit "function Zi0(") l)
        (splitNl c) = none) :
    defStep pretty cv rv sh c
      = .fail (if pretty then [Msg.errDefPretty] else [Msg.errDefDetect]) := by
  rw [defStep, if_neg (by rw [hdef]; exact Bool.false_ne_true)]
  cases pretty with
  | true => simp [hfn, hzi rfl]
  | false => simp [hfn]

/-- C3 (amended): on every run in which the definition marker is absent
from the substituted content, the enclosing-function anchor cannot be
resolved there, and the prettified Zi0 fallback line search also fails,
patch_js reports an explicit error and returns failure before writing
anything (the in-memory substitutions are discarded), and the apply mode
exits non-zero. -/
theorem C3_anchor_failure (t : Text)
    (hdef : occursB (lit "function CC_MetricsBar") (stage0 t) = false)
    (hfn : detect_footer_function (stage0 t) (detect_css_module_var t) = none)
    (hzi : is_prettified t = true →
      findLineIdx (fun l => occursB (lit "function Zi0(\x7b") l || occursB (lit "function Zi0(") l)
        (splitNl (stage0 t)) = none) :
    (patch_js t).written = none ∧ (patch_js t).ok = false ∧
    (Msg.errDefPretty ∈ (patch_js t).msgs ∨ Msg.errDefDetect ∈ (patch_js t).msgs) ∧
    (∀ css, applyExit t css = 1) := by
  have hds := defStep_fail (is_prettified t) (detect_css_module_var t)
    (detect_react_var t (detect_css_module_var t)) (detect_signal_hook t (detect_css_module_var t))
    (stage0 t) hdef hfn hzi
  rw [stage0] at hds
  by_cases hp : is_prettified t = true
  · rw [if_pos hp] at hds
    refine ⟨?_, ?_, Or.inl ?_, ?_⟩
    · simp only [patch_js, hds]
    · simp only [patch_js, hds]
    · simp only [patch_js, hds]
      simp
    · intro css
      rw [applyExit]
      simp only [patch_js, hds]
      simp
  · rw [if_neg hp] at hds
    refine ⟨?_, ?_, Or.inr ?_, ?_⟩
    · simp only [patch_js, hds]
    · simp only [patch_js, hds]
    · simp only [patch_js, hds]
      simp
    · intro css
      rw [applyExit]
      simp only [patch_js, hds]
      simp

/-- Witness for C3 at the one-character text "x". -/
theorem C3_witness :
    (patch_js (lit "x")).written = none ∧ (patch_js (lit "x")).ok = false ∧
    (∀ css, applyExit (lit "x") css = 1) :=
  have h := C3_anchor_failure (lit "x") (by decide) (by decide) (by decide)
  ⟨h.1, h.2.1, h.2.2.2⟩

/-- The counterexample text for C3: both injection markers are present, so
both injection transforms are skipped. -/
def c3cex : Text := lit "function CC_MetricsBar createElement(CC_MetricsBar"

/-- Counterexample for C3 as stated: a text on which the enclosing footer
function cannot be located, yet patch_js succeeds and writes (the markers
make both injection transforms skip, so the anchor is never needed). -/
theorem C3_counterexample :
    detect_footer_function c3cex (detect_css_module_var c3cex) = none ∧
    is_prettified c3cex = false ∧
    (patch_js c3cex).ok = true ∧ (patch_js c3cex).written = some c3cex := by
  refine ⟨by decide, by decide, by decide, by decide⟩

end CCPatch
namespace CCPatch

/-- usageStep skips when an inputTokens marker is present. -/
theorem usageStep_skip {t : Text}
    (h : (!(occursB (lit "inputTokens:0") t) && !(occursB (lit "inputTokens: 0,") t)) = false) :
    usageStep t = (t, [Msg.skipUsage]) := by
  rw [usageStep, if_neg (by rw [h]; exact Bool.false_ne_true)]

/-- updateStep skips when its marker is present. -/
theorem updateStep_skip {t : Text}
    (h : (!(occursB (lit "inputTokens:$.input_tokens") t) &&
          !(occursB (lit "inputTokens: $.input_tokens") t)) = false) :
    updateStep t = (t, [Msg.skipUpdate]) := by
  rw [updateStep, if_neg (by rw [h]; exact Bool.false_ne_true)]

/-- resultStep skips when its marker is present. -/
theorem resultStep_skip {t : Text}
    (h : (!(occursB (lit "inputTokens:J.inputTokens") t) &&
          !(occursB (lit "inputTokens: J.inputTokens") t)) = false) :
    resultStep t = (t, [Msg.skipResult]) := by
  rw [resultStep, if_neg (by rw [h]; exact Bool.false_ne_true)]

/-- compactStep skips when neither original is present but a patched shape is. -/
theorem compactStep_skip {t : Text}
    (h1 : occursB COMPACT_ORIGINAL t = false) (h2 : occursB COMPACT_MIN_ORIGINAL t = false)
    (h3 : (occursB COMPACT_PATCHED t || occursB COMPACT_MIN_PATCHED t) = true) :
    compactStep t = (t, [Msg.skipCompact]) := by
  rw [compactStep, if_neg (by rw [h1]; exact Bool.false_ne_true),
    if_neg (by rw [h2]; exact Bool.false_ne_true), if_pos h3]

/-- defStep skips when the definition marker is present. -/
theorem defStep_skip (pretty : Bool) (cv rv sh : Text) {c : Text}
    (h : occursB (lit "function CC_MetricsBar") c = true) :
    defStep pretty cv rv sh c = .ok c [Msg.skipDef] := by
  rw [defStep, if_pos h]

/-- callStep skips when the call marker is present. -/
theorem callStep_skip (pretty : Bool) (cv rv fc : Text) {c : Text}
    (h : occursB (lit "createElement(CC_MetricsBar") c = true) :
    callStep pretty cv rv fc c = .ok c [Msg.skipCall] := by
  rw [callStep, if_neg (by rw [h]; simp), if_pos h]

/-- er0Step skips when no spelling is present but the marker is. -/
theorem er0Step_skip {t : Text}
    (h1 : occursB ER0_P1 t = false) (h2 : occursB ER0_P2 t = false)
    (h3 : occursB ER0_P3 t = false) (h4 : occursB ER0_M1 t = true) :
    er0Step t = (t, [Msg.skipEr0]) := by
  rw [er0Step, if_neg (by rw [h1]; exact Bool.false_ne_true),
    if_neg (by rw [h2]; exact Bool.false_ne_true),
    if_neg (by rw [h3]; exact Bool.false_ne_true), if_pos h4]

/-- C1 (amended): on any text satisfying every transform's already-applied
predicate, a patch_js run writes the text back unchanged and reports every
transform skipped; the counterexample exhibits a successful first run whose
output fails the compaction predicate, so its second run patches again
instead of skipping. -/
theorem C1_second_run_noop (t : Text)
    (h0 : (!(occursB (lit "inputTokens:0") t) && !(occursB (lit "inputTokens: 0,") t)) = false)
    (h1 : (!(occursB (lit "inputTokens:$.input_tokens") t) &&
           !(occursB (lit "inputTokens: $.input_tokens") t)) = false)
    (h2 : (!(occursB (lit "inputTokens:J.inputTokens") t) &&
           !(occursB (lit "inputTokens: J.inputTokens") t)) = false)
    (h3 : occursB COMPACT_ORIGINAL t = false) (h4 : occursB COMPACT_MIN_ORIGINAL t = false)
    (h5 : (occursB COMPACT_PATCHED t || occursB COMPACT_MIN_PATCHED t) = true)
    (h6 : occursB (lit "function CC_MetricsBar") t = true)
    (h7 : occursB (lit "createElement(CC_MetricsBar") t = true)
    (h8 : occursB ER0_P1 t = false) (h9 : occursB ER0_P2 t = false)
    (h10 : occursB ER0_P3 t = false) (h11 : occursB ER0_M1 t = true) :
    patch_js t = ⟨some t, true, false,
      [Msg.format (is_prettified t),
       Msg.detected (detect_css_module_var t)
         (detect_react_var t (detect_css_module_var t))
         (detect_footer_component t (detect_css_module_var t))
         (detect_signal_hook t (detect_css_module_var t)),
       Msg.skipUsage, Msg.skipUpdate, Msg.skipResult, Msg.skipCompact,
       Msg.skipDef, Msg.skipCall, Msg.skipEr0, Msg.doneJs]⟩ := by
  simp only [patch_js, usageStep_skip h0]
  simp only [updateStep_skip h1, resultStep_skip h2, compactStep_skip h3 h4 h5]
  simp only [defStep_skip _ _ _ _ h6, callStep_skip _ _ _ _ h7, er0Step_skip h8 h9 h10 h11]
  simp

end CCPatch
namespace CCPatch

/-- The witness text for C1: every already-applied predicate holds. -/
def c1wit : Text :=
  lit "function CC_MetricsBar createElement(CC_MetricsBar inputTokens:$.input_tokens inputTokens:J.inputTokens \x7b...this.usageData.value,totalTokens:0,inputTokens:0,outputTokens:0,cacheCreation:0,cacheRead:0\x7d /* patched: always show */"

/-- Witness for C1: on the all-predicates-satisfied text the run is a
written no-op. -/
theorem C1_witness :
    (patch_js c1wit).written = some c1wit ∧ (patch_js c1wit).ok = true := by
  rw [C1_second_run_noop c1wit (by decide) (by decide) (by decide) (by decide) (by decide)
    (by decide) (by decide) (by decide) (by decide) (by decide) (by decide) (by decide)]
  exact ⟨rfl, rfl⟩

/-- The counterexample text for C1: the compact-boundary original occurs
twice, and the injection markers make the injection transforms skip. -/
def c1cex : Text :=
  lit "function CC_MetricsBar createElement(CC_MetricsBar \x7b...this.usageData.value,totalTokens:0\x7d\x7b...this.usageData.value,totalTokens:0\x7d"

/-- The first run's output on c1cex. -/
def c1cexOut1 : Text :=
  lit "function CC_MetricsBar createElement(CC_MetricsBar \x7b...this.usageData.value,totalTokens:0,inputTokens:0,outputTokens:0,cacheCreation:0,cacheRead:0\x7d\x7b...this.usageData.value,totalTokens:0\x7d"

/-- The second run's output on c1cexOut1. -/
def c1cexOut2 : Text :=
  lit "function CC_MetricsBar createElement(CC_MetricsBar \x7b...this.usageData.value,totalTokens:0,inputTokens:0,outputTokens:0,cacheCreation:0,cacheRead:0\x7d\x7b...this.usageData.value,totalTokens:0,inputTokens:0,outputTokens:0,cacheCreation:0,cacheRead:0\x7d"

/-- Counterexample for C1 as stated: both runs of patch_js succeed, the
second run patches again (reporting the compact transform applied, not
skipped), and its output differs from the first run's output. -/
theorem C1_counterexample :
    (patch_js c1cex).written = some c1cexOut1 ∧
    (patch_js c1cexOut1).written = some c1cexOut2 ∧
    c1cexOut2 ≠ c1cexOut1 ∧
    Msg.okCompactMin ∈ (patch_js c1cexOut1).msgs := by
  refine ⟨by decide, by decide, by decide, by decide⟩

end CCPatch
namespace CCPatch

/-- The known-original minified artifact of the C2 round trip: one
occurrence of each minified token-field original, the braced gate
spelling, and both injection markers already present. -/
def rt2 : Text := lit "function CC_MetricsBar2()\x7b\x7d\nx.default.createElement(CC_MetricsBar2,\x7b\x7d),\nusageData=p7(\x7btotalTokens:0,totalCost:0,contextWindow:0,maxOutputTokens:0\x7d)\nusageData.value=\x7btotalTokens:J,totalCost:Z.totalCost,contextWindow:Z.contextWindow,maxOutputTokens:Z.maxOutputTokens\x7d\nusageData.value=\x7btotalTokens:J.totalTokens,totalCost:$.total_cost_usd,contextWindow:X,maxOutputTokens:Q\x7d\n\x7b...this.usageData.value,totalTokens:0\x7d\nif(U>=50)return null\x7d\n"

/-- The text patch_js writes on rt2. -/
def rt2patched : Text := lit "function CC_MetricsBar2()\x7b\x7d\nx.default.createElement(CC_MetricsBar2,\x7b\x7d),\nusageData=p7(\x7btotalTokens:0,totalCost:0,contextWindow:0,maxOutputTokens:0,inputTokens:0,outputTokens:0,cacheCreation:0,cacheRead:0\x7d)\nusageData.value=\x7btotalTokens:J,totalCost:Z.totalCost,contextWindow:Z.contextWindow,maxOutputTokens:Z.maxOutputTokens,inputTokens:$.input_tokens||0,outputTokens:(Z.outputTokens||0)+($.output_tokens||0),cacheCreation:$.cache_creation_input_tokens||0,cacheRead:$.cache_read_input_tokens||0\x7d\nusageData.value=\x7btotalTokens:J.totalTokens,totalCost:$.total_cost_usd,contextWindow:X,maxOutputTokens:Q,inputTokens:J.inputTokens||0,outputTokens:J.outputTokens||0,cacheCreation:J.cacheCreation||0,cacheRead:J.cacheRead||0\x7d\n\x7b...this.usageData.value,totalTokens:0,inputTokens:0,outputTokens:0,cacheCreation:0,cacheRead:0\x7d\n/*er0*/\x7d\n"

/-- The original artifact of the C2 counterexample, with the third
(semicolon) gate spelling. -/
def rt3 : Text := lit "function CC_MetricsBar2()\x7b\x7d\nx.default.createElement(CC_MetricsBar2,\x7b\x7d),\nif(U>=50)return null;\n"

/-- The text patch_js writes on rt3. -/
def rt3patched : Text := lit "function CC_MetricsBar2()\x7b\x7d\nx.default.createElement(CC_MetricsBar2,\x7b\x7d),\n/* patched: always show */\n"

/-- What clean recovers from rt3patched: the first, spaced spelling. -/
def rt3cleaned : Text := lit "function CC_MetricsBar2()\x7b\x7d\nx.default.createElement(CC_MetricsBar2,\x7b\x7d),\nif (U >= 50) return null;\n"

/-- The stylesheet original of the C2 round trip. -/
def css0 : Text := lit "body\x7bcolor:red\x7d"

/-- Counterexample for C2 as stated: on an original with the third gate
spelling, apply rewrites it to the shared marker and clean restores the
first, spaced spelling, so the round trip does not reproduce the
original. -/
theorem C2_counterexample :
    (patch_js rt3).written = some rt3patched ∧
    clean_js rt3patched = rt3cleaned ∧
    rt3cleaned ≠ rt3 ∧
    Msg.okEr0 2 ∈ (patch_js rt3).msgs := by
  refine ⟨by decide, by decide, by decide, by decide⟩

end CCPatch
namespace CCPatch

/-- findSub shifts by one past a non-matching head position. -/
theorem findSub_cons_shift {n : Text} {c : Char} {t : Text}
    (h : leadsWith n (c :: t) = false) :
    findSub n (c :: t) = (findSub n t).map (· + 1) := by
  rw [findSub, if_neg (by rw [h]; exact Bool.false_ne_true)]

/-- leadsWith only reads the first pattern-length characters of the text. -/
theorem leadsWith_eq_of_take_eq {n h1 h2 : Text}
    (he : h1.take n.length = h2.take n.length) :
    leadsWith n h1 = leadsWith n h2 := by
  induction n generalizing h1 h2 with
  | nil => rfl
  | cons a n ih =>
    cases h1 with
    | nil =>
      cases h2 with
      | nil => rfl
      | cons b2 t2 => simp [List.take] at he
    | cons b1 t1 =>
      cases h2 with
      | nil => simp [List.take] at he
      | cons b2 t2 =>
        simp only [List.length_cons, List.take_succ_cons, List.cons.injEq] at he
        rw [leadsWith, leadsWith, he.1, ih he.2]

/-- Inside a long uniform run, a window of pattern length looks the same
whatever follows the run. -/
theorem take_concat_window {a : Text} {k : Nat} {c : Char} (s : Text) (j : Nat)
    (hj : j ≤ k) :
    (a ++ (List.replicate k c ++ s)).take j = (a ++ List.replicate j c).take j := by
  by_cases hja : j ≤ a.length
  · rw [List.take_append_of_le_length hja, List.take_append_of_le_length hja]
  · push_neg at hja
    obtain ⟨m, rfl⟩ : ∃ m, j = a.length + m := ⟨j - a.length, by omega⟩
    rw [List.take_append, List.take_append]
    congr 1
    rw [List.take_append_of_le_length (by simp; omega), List.take_replicate,
      List.take_replicate]
    congr 1
    omega

/-- findSub across a concrete prefix followed by a long uniform run: when
the pattern matches nowhere in the prefix window and cannot start inside
the run, the first occurrence lies past both. -/
theorem findSub_concat (n a : Text) (c : Char) (k : Nat) (s : Text)
    (hlen : n.length ≤ k)
    (hd : ∃ d n2, n = d :: n2 ∧ d ≠ c)
    (hwin : ∀ i, i < a.length →
      leadsWith n ((a ++ List.replicate n.length c).drop i) = false) :
    findSub n (a ++ (List.replicate k c ++ s))
      = (findSub n s).map (· + (a.length + k)) := by
  induction a with
  | nil =>
    obtain ⟨d, n2, rfl, hdc⟩ := hd
    rw [List.nil_append, findSub_replicate k s hdc]
    simp
  | cons b a ih =>
    have hlw : leadsWith n (b :: (a ++ (List.replicate k c ++ s))) = false := by
      have h0 := hwin 0 (by simp)
      rw [List.drop_zero] at h0
      have htk := take_concat_window (a := b :: a) (k := k) (c := c) s n.length hlen
      rw [← List.cons_append, leadsWith_eq_of_take_eq htk]
      exact h0
    rw [List.cons_append, findSub_cons_shift hlw, ih ?_]
    · cases findSub n s with
      | none => rfl
      | some j =>
        simp only [Option.map_some', List.length_cons]
        congr 1
        omega
    · intro i hi
      have h1 := hwin (i + 1) (by simp; omega)
      rw [List.cons_append] at h1
      exact h1

/-- stripLit fails when the head characters differ. -/
theorem stripLit_head_ne {l : Text} {d : Char} {lt : Text} (hl : l = d :: lt)
    {c : Char} (hc : d ≠ c) (s : Text) : stripLit l (c :: s) = none := by
  rw [stripLit, hl, if_neg]
  rw [leadsWith_head_ne hc]
  exact Bool.false_ne_true

/-- funcDefAt fails at positions not starting with the letter f. -/
theorem funcDefAt_head_ne {c : Char} (hc : 'f' ≠ c) (s : Text) :
    funcDefAt (c :: s) = none := by
  rw [funcDefAt,
    stripLit_head_ne (show lit "function " = 'f' :: lit "unction " from rfl) hc]
  rfl

/-- hookPat1At fails at positions not starting with the letter f. -/
theorem hookPat1At_head_ne {c : Char} (hc : 'f' ≠ c) (s : Text) :
    hookPat1At (c :: s) = none := by
  rw [hookPat1At,
    stripLit_head_ne (show lit "function " = 'f' :: lit "unction " from rfl) hc]
  rfl

/-- hookPat2At fails at positions not starting with the letter f. -/
theorem hookPat2At_head_ne {c : Char} (hc : 'f' ≠ c) (s : Text) :
    hookPat2At (c :: s) = none := by
  rw [hookPat2At,
    stripLit_head_ne (show lit "function " = 'f' :: lit "unction " from rfl) hc]
  rfl

/-- scanIterPosF finds nothing in an empty text when the matcher rejects
the empty suffix. -/
theorem scanIterPosF_nil {α : Type} {m : Text → Option (Nat × α)} (fuel pos : Nat)
    (h0 : m [] = none) : scanIterPosF m (fuel + 1) pos [] = [] := by
  rw [scanIterPosF, h0]

/-- scanIterPos finds nothing in the 5000-character window consisting of an
opening parenthesis followed by 4999 filler characters, for any matcher that
rejects every position of it. -/
theorem scanIterPos_chunk_none {α : Type} (m : Text → Option (Nat × α))
    (h0 : m [] = none) (hp : ∀ s : Text, m ('(' :: s) = none)
    (hx : ∀ s : Text, m ('x' :: s) = none) :
    scanIterPos m ('(' :: List.replicate 4999 'x') = [] := by
  rw [scanIterPos, show ('(' :: List.replicate 4999 'x' : Text).length = 5000 from by
    rw [List.length_cons, List.length_replicate],
    scanIterPosF_cons_none 5000 0 (hp _)]
  have h2 := scanIterPosF_replicate (m := m) 4999 1 (0 + 1) ([] : Text) hx
  rw [List.append_nil] at h2
  rw [show (5000 : Nat) = 1 + 4999 from by omega, h2]
  exact scanIterPosF_nil 0 _ h0

end CCPatch

namespace CCPatch

/-- leadsWith ignores a suffix beyond the pattern length. -/
theorem leadsWith_append_of_le {n X : Text} (S : Text) (h : n.length ≤ X.length) :
    leadsWith n (X ++ S) = leadsWith n X := by
  apply leadsWith_eq_of_take_eq
  rw [List.take_append_of_le_length h]

/-- A pattern absent from a prefix and from the border windows into the rest
matches at no position inside the prefix. -/
theorem no_match_in_front {o P rest : Text}
    (hP : occursB o P = false)
    (hstr : ∀ i, 0 < i → i < o.length → leadsWith (o.drop i) rest = false) :
    ∀ j, j < P.length → leadsWith o ((P ++ rest).drop j) = false := by
  intro j hj
  cases hlw : leadsWith o ((P ++ rest).drop j) with
  | false => rfl
  | true =>
    exfalso
    rw [List.drop_append_of_le_length (le_of_lt hj)] at hlw
    obtain ⟨u, hu⟩ := leadsWith_iff.mp hlw
    rcases List.append_eq_append_iff.mp hu with ⟨k, hk1, hk2⟩ | ⟨k, hk1, hk2⟩
    · cases k with
      | nil =>
        rw [List.append_nil] at hk1
        have hocc : occursB o P = true := occursB_iff.mpr ⟨P.take j, [], by
          rw [List.append_nil, hk1, List.take_append_drop]⟩
        rw [hP] at hocc
        exact absurd hocc (by simp)
      | cons kc kt =>
        have hi1 : 0 < (P.drop j).length := by
          rw [List.length_drop]; omega
        have hi2 : (P.drop j).length < o.length := by
          rw [hk1, List.length_append, List.length_cons]; omega
        have hdrop : o.drop (P.drop j).length = kc :: kt := by
          rw [hk1, List.drop_left]
        have h2 := hstr (P.drop j).length hi1 hi2
        rw [hdrop, hk2, leadsWith_append] at h2
        exact absurd h2 (by simp)
    · have hocc : occursB o P = true := occursB_iff.mpr ⟨P.take j, k, by
        conv_lhs => rw [← List.take_append_drop j P]
        rw [hk1, ← List.append_assoc]⟩
      rw [hP] at hocc
      exact absurd hocc (by simp)

/-- A pattern opening with a character foreign to the prefix matches at no
position inside the prefix. -/
theorem no_match_head {o : Text} {c : Char} {P : Text} (rest : Text)
    (ho : ∃ o2, o = c :: o2) (hcP : c ∉ P) :
    ∀ j, j < P.length → leadsWith o ((P ++ rest).drop j) = false := by
  obtain ⟨o2, rfl⟩ := ho
  intro j hj
  rw [List.drop_append_of_le_length (le_of_lt hj)]
  obtain ⟨a, ha, hmem⟩ : ∃ a, P.drop j = a :: P.drop (j + 1) ∧ a ∈ P :=
    ⟨P[j], List.drop_eq_getElem_cons hj, List.getElem_mem hj⟩
  rw [ha, List.cons_append]
  exact leadsWith_head_ne (fun hca => hcP (hca ▸ hmem))

/-- Border windows relative to a concatenation reduce to a long enough
concrete window. -/
theorem hstr_of_window {o X T : Text} (S : Text) (hT : T = X ++ S)
    (hlen : o.length ≤ X.length + 1)
    (hX : ∀ i, i < o.length → 0 < i → leadsWith (o.drop i) X = false) :
    ∀ i, 0 < i → i < o.length → leadsWith (o.drop i) T = false := by
  intro i h1 h2
  rw [hT, leadsWith_append_of_le S (by rw [List.length_drop]; omega)]
  exact hX i h2 h1

/-- Absence of matches inside two stacked prefixes combines. -/
theorem no_match_two_zone {o P X rest : Text}
    (h1 : ∀ j, j < P.length → leadsWith o ((P ++ (X ++ rest)).drop j) = false)
    (h2 : ∀ j, j < X.length → leadsWith o ((X ++ rest).drop j) = false) :
    ∀ j, j < (P ++ X).length → leadsWith o (((P ++ X) ++ rest).drop j) = false := by
  intro j hj
  rw [List.append_assoc]
  by_cases hjP : j < P.length
  · exact h1 j hjP
  · push_neg at hjP
    obtain ⟨i, rfl⟩ : ∃ i, j = P.length + i := ⟨j - P.length, by omega⟩
    rw [List.drop_append]
    exact h2 i (by rw [List.length_append] at hj; omega)

/-- splitFirst walks past a match-free prefix. -/
theorem splitFirst_skip (o : Text) : ∀ (X rest : Text),
    (∀ j, j < X.length → leadsWith o ((X ++ rest).drop j) = false) →
    splitFirst o (X ++ rest) = (splitFirst o rest).map (fun q => (X ++ q.1, q.2))
  | [], rest, _ => by
    cases h : splitFirst o rest with
    | none => simp [h]
    | some q => simp [h]
  | x :: X', rest, hnm => by
    have h0 := hnm 0 (by simp)
    rw [List.drop_zero, List.cons_append] at h0
    rw [List.cons_append, splitFirst, if_neg (by rw [h0]; exact Bool.false_ne_true),
      splitFirst_skip o X' rest (fun j hj => by
        have h1 := hnm (j + 1) (by rw [List.length_cons]; omega)
        rw [List.cons_append] at h1
        exact h1)]
    cases splitFirst o rest with
    | none => rfl
    | some q => simp

/-- splitFirst at an immediate occurrence of the pattern. -/
theorem splitFirst_head {o : Text} (S : Text) (ho : o ≠ []) :
    splitFirst o (o ++ S) = some ([], S) := by
  obtain ⟨c, o', rfl⟩ : ∃ c o', o = c :: o' := by
    cases o with
    | nil => exact absurd rfl ho
    | cons c o' => exact ⟨c, o', rfl⟩
  rw [List.cons_append, splitFirst,
    if_pos (by rw [← List.cons_append]; exact leadsWith_append _ _)]
  have hdr : (c :: (o' ++ S)).drop (c :: o').length = S := by
    rw [← List.cons_append, List.drop_left]
  rw [hdr]

/-- replaceFirst rewrites exactly the leftmost occurrence. -/
theorem replaceFirst_at {o : Text} (p P S : Text) (ho : o ≠ [])
    (hnm : ∀ j, j < P.length → leadsWith o ((P ++ (o ++ S)).drop j) = false) :
    replaceFirst o p (P ++ (o ++ S)) = P ++ (p ++ S) := by
  rw [replaceFirst, splitFirst_skip o P (o ++ S) hnm, splitFirst_head S ho]
  simp

/-- The fuelled replaceAll worker walks past a match-free prefix. -/
theorem replaceAllF_skip (n r : Text) : ∀ (X rest : Text) (fuel : Nat),
    X.length ≤ fuel →
    (∀ j, j < X.length → leadsWith n ((X ++ rest).drop j) = false) →
    replaceAllF n r fuel (X ++ rest) = X ++ replaceAllF n r (fuel - X.length) rest
  | [], rest, fuel, _, _ => by simp
  | x :: X', rest, fuel, hf, hnm => by
    obtain ⟨f, rfl⟩ : ∃ f, fuel = f + 1 :=
      ⟨fuel - 1, by rw [List.length_cons] at hf; omega⟩
    have h0 := hnm 0 (by simp)
    rw [List.drop_zero, List.cons_append] at h0
    rw [List.cons_append, replaceAllF, if_neg (by rw [h0]; exact Bool.false_ne_true),
      replaceAllF_skip n r X' rest f (by rw [List.length_cons] at hf; omega)
        (fun j hj => by
          have h1 := hnm (j + 1) (by rw [List.length_cons]; omega)
          rw [List.cons_append] at h1
          exact h1),
      List.cons_append,
      show (f + 1) - (x :: X').length = f - X'.length from by
        rw [List.length_cons]; omega]

/-- The fuelled replaceAll worker at an immediate occurrence of the pattern. -/
theorem replaceAllF_head_match (n r rest : Text) (fuel : Nat) (hn : n ≠ []) :
    replaceAllF n r (fuel + 1) (n ++ rest) = r ++ replaceAllF n r fuel rest := by
  obtain ⟨c, n', rfl⟩ : ∃ c n', n = c :: n' := by
    cases n with
    | nil => exact absurd rfl hn
    | cons c n' => exact ⟨c, n', rfl⟩
  rw [List.cons_append, replaceAllF,
    if_pos (by rw [← List.cons_append]; exact leadsWith_append _ _),
    show (c :: (n' ++ rest)).drop (c :: n').length = rest from by
      rw [← List.cons_append]; exact List.drop_left _ _]

/-- The fuelled replaceAll worker fixes any text free of the pattern. -/
theorem replaceAllF_no_match (n r : Text) : ∀ (fuel : Nat) (t : Text),
    occursB n t = false → replaceAllF n r fuel t = t := by
  intro fuel
  induction fuel with
  | zero =>
    intro t _
    rw [replaceAllF]
  | succ fuel ih =>
    intro t hocc
    cases t with
    | nil => rw [replaceAllF]
    | cons c t' =>
      rw [occursB, Bool.or_eq_false_iff] at hocc
      rw [replaceAllF, if_neg (by rw [hocc.1]; exact Bool.false_ne_true), ih t' hocc.2]

/-- replaceAll on a text holding exactly one occurrence of the pattern
rewrites it and nothing else. -/
theorem replaceAll_single {n : Text} (r P S : Text) (hn : n ≠ [])
    (hnm : ∀ j, j < P.length → leadsWith n ((P ++ (n ++ S)).drop j) = false)
    (hS : occursB n S = false) :
    replaceAll n r (P ++ (n ++ S)) = P ++ (r ++ S) := by
  have hnl : 0 < n.length := List.length_pos.mpr hn
  rw [replaceAll,
    replaceAllF_skip n r P (n ++ S) _ (by rw [List.length_append]; omega) hnm]
  congr 1
  rw [show (P ++ (n ++ S)).length - P.length = (n.length - 1 + S.length) + 1 from by
      rw [List.length_append, List.length_append]; omega,
    replaceAllF_head_match n r S _ hn,
    replaceAllF_no_match n r _ S hS]

/-- findSub walks past a match-free prefix. -/
theorem findSub_skip (n : Text) : ∀ (X rest : Text),
    (∀ j, j < X.length → leadsWith n ((X ++ rest).drop j) = false) →
    findSub n (X ++ rest) = (findSub n rest).map (· + X.length)
  | [], rest, _ => by
    cases h : findSub n rest with
    | none => simp [h]
    | some k => simp [h]
  | x :: X', rest, hnm => by
    have h0 := hnm 0 (by simp)
    rw [List.drop_zero, List.cons_append] at h0
    rw [List.cons_append, findSub_cons_shift h0,
      findSub_skip n X' rest (fun j hj => by
        have h1 := hnm (j + 1) (by rw [List.length_cons]; omega)
        rw [List.cons_append] at h1
        exact h1)]
    cases findSub n rest with
    | none => rfl
    | some k =>
      simp only [Option.map_some', List.length_cons]
      exact congrArg some (by omega)

/-- findSub at an immediate occurrence of the pattern. -/
theorem findSub_head {n h : Text} (hl : leadsWith n h = true) :
    findSub n h = some 0 := by
  cases h with
  | nil => rw [findSub, if_pos hl]
  | cons c t => rw [findSub, if_pos hl]

/-- findSub fails on a text free of the pattern. -/
theorem findSub_none_of_not_occurs {n : Text} : ∀ {t : Text},
    occursB n t = false → findSub n t = none := by
  intro t
  induction t with
  | nil =>
    intro h
    have h' : leadsWith n ([] : Text) = false := h
    rw [findSub, if_neg (by rw [h']; exact Bool.false_ne_true)]
  | cons c t ih =>
    intro h
    rw [occursB, Bool.or_eq_false_iff] at h
    rw [findSub, if_neg (by rw [h.1]; exact Bool.false_ne_true), ih h.2]
    rfl

/-- scanSplit walks past a prefix on which the matcher fails. -/
theorem scanSplit_skip {α : Type} (m : Text → Option α) : ∀ (X rest : Text),
    (∀ j, j < X.length → m ((X ++ rest).drop j) = none) →
    scanSplit m (X ++ rest) = (scanSplit m rest).map (fun q => (X ++ q.1, q.2))
  | [], rest, _ => by
    cases h : scanSplit m rest with
    | none => simp [h]
    | some q => simp [h]
  | x :: X', rest, hnm => by
    have h0 := hnm 0 (by simp)
    rw [List.drop_zero, List.cons_append] at h0
    rw [List.cons_append, scanSplit, h0,
      scanSplit_skip m X' rest (fun j hj => by
        have h1 := hnm (j + 1) (by rw [List.length_cons]; omega)
        rw [List.cons_append] at h1
        exact h1)]
    cases scanSplit m rest with
    | none => rfl
    | some q => simp

/-- scanSplit at an immediate matcher success. -/
theorem scanSplit_head {α : Type} {m : Text → Option α} {h : Text} {a : α}
    (hm : m h = some a) : scanSplit m h = some ([], a) := by
  cases h with
  | nil => rw [scanSplit, hm]; rfl
  | cons c t => rw [scanSplit, hm]

/-- stripLit strips exactly its literal prefix. -/
theorem stripLit_append (l t : Text) : stripLit l (l ++ t) = some t := by
  rw [stripLit, if_pos (leadsWith_append l t), List.drop_left]

/-- truncAtMarker cuts exactly before the leftmost marker occurrence. -/
theorem truncAtMarker_at {marker : Text} (P rest : Text)
    (hnm : ∀ j, j < P.length → leadsWith marker ((P ++ rest).drop j) = false)
    (hr : leadsWith marker rest = true) :
    truncAtMarker marker (P ++ rest) = P := by
  rw [truncAtMarker, findSub_skip marker P rest hnm, findSub_head hr]
  simp only [Option.map_some', Nat.zero_add]
  rw [List.take_left]

/-- truncAtMarker fixes a text free of the marker. -/
theorem truncAtMarker_no {marker t : Text} (h : occursB marker t = false) :
    truncAtMarker marker t = t := by
  rw [truncAtMarker, findSub_none_of_not_occurs h]

/-- The minified usageData matcher fails where its leading literal is absent. -/
theorem usageMinAt_none_of_not_lead {h : Text}
    (hnl : leadsWith (lit "usageData=") h = false) : usageMinAt h = none := by
  rw [usageMinAt, stripLit, if_neg (by rw [hnl]; exact Bool.false_ne_true)]

end CCPatch

namespace CCPatch

/-- Universal round trip of the minified updateUsage transform: in any
context free of interfering occurrences, updateStep rewrites exactly the
embedded minified original, and the matching clean rule restores it. -/
theorem rtUpdateMin (P S : Text)
    (hm1 : occursB (lit "inputTokens:$.input_tokens")
      (P ++ (UPDATE_USAGE_MIN_ORIGINAL ++ S)) = false)
    (hm2 : occursB (lit "inputTokens: $.input_tokens")
      (P ++ (UPDATE_USAGE_MIN_ORIGINAL ++ S)) = false)
    (hpre : occursB UPDATE_USAGE_ORIGINAL (P ++ (UPDATE_USAGE_MIN_ORIGINAL ++ S)) = false)
    (hoP : occursB UPDATE_USAGE_MIN_ORIGINAL P = false)
    (hpP : occursB UPDATE_USAGE_MIN_PATCHED P = false)
    (hpS : occursB UPDATE_USAGE_MIN_PATCHED S = false) :
    updateStep (P ++ (UPDATE_USAGE_MIN_ORIGINAL ++ S))
        = (P ++ (UPDATE_USAGE_MIN_PATCHED ++ S), [Msg.okUpdateMin]) ∧
      replaceAll UPDATE_USAGE_MIN_PATCHED UPDATE_USAGE_MIN_ORIGINAL
          (P ++ (UPDATE_USAGE_MIN_PATCHED ++ S))
        = P ++ (UPDATE_USAGE_MIN_ORIGINAL ++ S) := by
  constructor
  · rw [updateStep, if_pos (by rw [hm1, hm2]; rfl),
      if_neg (by rw [hpre]; exact Bool.false_ne_true),
      if_pos (occursB_iff.mpr ⟨P, S, by simp⟩),
      replaceFirst_at UPDATE_USAGE_MIN_PATCHED P S (by decide)
        (no_match_in_front hoP (hstr_of_window S rfl (by decide) (by decide)))]
  · exact replaceAll_single UPDATE_USAGE_MIN_ORIGINAL P S (by decide)
      (no_match_in_front hpP (hstr_of_window S rfl (by decide) (by decide))) hpS

/-- Universal round trip of the prettified updateUsage transform. -/
theorem rtUpdatePretty (P S : Text)
    (hm1 : occursB (lit "inputTokens:$.input_tokens")
      (P ++ (UPDATE_USAGE_ORIGINAL ++ S)) = false)
    (hm2 : occursB (lit "inputTokens: $.input_tokens")
      (P ++ (UPDATE_USAGE_ORIGINAL ++ S)) = false)
    (hoP : occursB UPDATE_USAGE_ORIGINAL P = false)
    (hpP : occursB UPDATE_USAGE_PATCHED P = false)
    (hpS : occursB UPDATE_USAGE_PATCHED S = false) :
    updateStep (P ++ (UPDATE_USAGE_ORIGINAL ++ S))
        = (P ++ (UPDATE_USAGE_PATCHED ++ S), [Msg.okUpdatePretty]) ∧
      replaceAll UPDATE_USAGE_PATCHED UPDATE_USAGE_ORIGINAL
          (P ++ (UPDATE_USAGE_PATCHED ++ S))
        = P ++ (UPDATE_USAGE_ORIGINAL ++ S) := by
  constructor
  · rw [updateStep, if_pos (by rw [hm1, hm2]; rfl),
      if_pos (occursB_iff.mpr ⟨P, S, by simp⟩),
      replaceFirst_at UPDATE_USAGE_PATCHED P S (by decide)
        (no_match_in_front hoP (hstr_of_window S rfl (by decide) (by decide)))]
  · exact replaceAll_single UPDATE_USAGE_ORIGINAL P S (by decide)
      (no_match_in_front hpP (hstr_of_window S rfl (by decide) (by decide))) hpS

/-- Universal round trip of the minified result-handler transform. -/
theorem rtResultMin (P S : Text)
    (hm1 : occursB (lit "inputTokens:J.inputTokens")
      (P ++ (RESULT_HANDLER_MIN_ORIGINAL ++ S)) = false)
    (hm2 : occursB (lit "inputTokens: J.inputTokens")
      (P ++ (RESULT_HANDLER_MIN_ORIGINAL ++ S)) = false)
    (hpre : occursB RESULT_HANDLER_ORIGINAL
      (P ++ (RESULT_HANDLER_MIN_ORIGINAL ++ S)) = false)
    (hoP : occursB RESULT_HANDLER_MIN_ORIGINAL P = false)
    (hpP : occursB RESULT_HANDLER_MIN_PATCHED P = false)
    (hpS : occursB RESULT_HANDLER_MIN_PATCHED S = false) :
    resultStep (P ++ (RESULT_HANDLER_MIN_ORIGINAL ++ S))
        = (P ++ (RESULT_HANDLER_MIN_PATCHED ++ S), [Msg.okResultMin]) ∧
      replaceAll RESULT_HANDLER_MIN_PATCHED RESULT_HANDLER_MIN_ORIGINAL
          (P ++ (RESULT_HANDLER_MIN_PATCHED ++ S))
        = P ++ (RESULT_HANDLER_MIN_ORIGINAL ++ S) := by
  constructor
  · rw [resultStep, if_pos (by rw [hm1, hm2]; rfl),
      if_neg (by rw [hpre]; exact Bool.false_ne_true),
      if_pos (occursB_iff.mpr ⟨P, S, by simp⟩),
      replaceFirst_at RESULT_HANDLER_MIN_PATCHED P S (by decide)
        (no_match_in_front hoP (hstr_of_window S rfl (by decide) (by decide)))]
  · exact replaceAll_single RESULT_HANDLER_MIN_ORIGINAL P S (by decide)
      (no_match_in_front hpP (hstr_of_window S rfl (by decide) (by decide))) hpS

/-- Universal round trip of the prettified result-handler transform. -/
theorem rtResultPretty (P S : Text)
    (hm1 : occursB (lit "inputTokens:J.inputTokens")
      (P ++ (RESULT_HANDLER_ORIGINAL ++ S)) = false)
    (hm2 : occursB (lit "inputTokens: J.inputTokens")
      (P ++ (RESULT_HANDLER_ORIGINAL ++ S)) = false)
    (hoP : occursB RESULT_HANDLER_ORIGINAL P = false)
    (hpP : occursB RESULT_HANDLER_PATCHED P = false)
    (hpS : occursB RESULT_HANDLER_PATCHED S = false) :
    resultStep (P ++ (RESULT_HANDLER_ORIGINAL ++ S))
        = (P ++ (RESULT_HANDLER_PATCHED ++ S), [Msg.okResultPretty]) ∧
      replaceAll RESULT_HANDLER_PATCHED RESULT_HANDLER_ORIGINAL
          (P ++ (RESULT_HANDLER_PATCHED ++ S))
        = P ++ (RESULT_HANDLER_ORIGINAL ++ S) := by
  constructor
  · rw [resultStep, if_pos (by rw [hm1, hm2]; rfl),
      if_pos (occursB_iff.mpr ⟨P, S, by simp⟩),
      replaceFirst_at RESULT_HANDLER_PATCHED P S (by decide)
        (no_match_in_front hoP (hstr_of_window S rfl (by decide) (by decide)))]
  · exact replaceAll_single RESULT_HANDLER_ORIGINAL P S (by decide)
      (no_match_in_front hpP (hstr_of_window S rfl (by decide) (by decide))) hpS

/-- Universal round trip of the prettified compact-boundary transform. -/
theorem rtCompactPretty (P S : Text)
    (hoP : occursB COMPACT_ORIGINAL P = false)
    (hpP : occursB COMPACT_PATCHED P = false)
    (hpS : occursB COMPACT_PATCHED S = false) :
    compactStep (P ++ (COMPACT_ORIGINAL ++ S))
        = (P ++ (COMPACT_PATCHED ++ S), [Msg.okCompactPretty]) ∧
      replaceAll COMPACT_PATCHED COMPACT_ORIGINAL (P ++ (COMPACT_PATCHED ++ S))
        = P ++ (COMPACT_ORIGINAL ++ S) := by
  constructor
  · rw [compactStep, if_pos (occursB_iff.mpr ⟨P, S, by simp⟩),
      replaceFirst_at COMPACT_PATCHED P S (by decide)
        (no_match_in_front hoP (hstr_of_window S rfl (by decide) (by decide)))]
  · exact replaceAll_single COMPACT_ORIGINAL P S (by decide)
      (no_match_in_front hpP (hstr_of_window S rfl (by decide) (by decide))) hpS

/-- Universal round trip of the prettified usageData-signal transform. -/
theorem rtUsagePretty (P S : Text)
    (hm1 : occursB (lit "inputTokens:0") (P ++ (USAGE_DATA_ORIGINAL ++ S)) = false)
    (hm2 : occursB (lit "inputTokens: 0,") (P ++ (USAGE_DATA_ORIGINAL ++ S)) = false)
    (hoP : occursB USAGE_DATA_ORIGINAL P = false)
    (hpP : occursB USAGE_DATA_PATCHED P = false)
    (hpS : occursB USAGE_DATA_PATCHED S = false) :
    usageStep (P ++ (USAGE_DATA_ORIGINAL ++ S))
        = (P ++ (USAGE_DATA_PATCHED ++ S), [Msg.okUsagePretty]) ∧
      replaceAll USAGE_DATA_PATCHED USAGE_DATA_ORIGINAL (P ++ (USAGE_DATA_PATCHED ++ S))
        = P ++ (USAGE_DATA_ORIGINAL ++ S) := by
  constructor
  · rw [usageStep, if_pos (by rw [hm1, hm2]; rfl),
      if_pos (occursB_iff.mpr ⟨P, S, by simp⟩),
      replaceFirst_at USAGE_DATA_PATCHED P S (by decide)
        (no_match_in_front hoP (hstr_of_window S rfl (by decide) (by decide)))]
  · exact replaceAll_single USAGE_DATA_ORIGINAL P S (by decide)
      (no_match_in_front hpP (hstr_of_window S rfl (by decide) (by decide))) hpS

end CCPatch

namespace CCPatch

/-- The minified usageData matcher at its canonical shape with constructor p7. -/
theorem usageMinAt_at_p7 (S : Text) :
    usageMinAt (lit "usageData=p7(\x7btotalTokens:0,totalCost:0,contextWindow:0,maxOutputTokens:0\x7d)" ++ S)
      = some (lit "p7", S) := rfl

/-- Universal round trip of the minified compact-boundary transform: the
clean token-fields rule undoes it. -/
theorem rtCompactMin (P S : Text)
    (hpre : occursB COMPACT_ORIGINAL (P ++ (COMPACT_MIN_ORIGINAL ++ S)) = false)
    (hoP : occursB COMPACT_MIN_ORIGINAL P = false)
    (hcP : occursB (lit ",inputTokens:0,outputTokens:0,cacheCreation:0,cacheRead:0\x7d") P = false)
    (hcS : occursB (lit ",inputTokens:0,outputTokens:0,cacheCreation:0,cacheRead:0\x7d") S = false) :
    compactStep (P ++ (COMPACT_MIN_ORIGINAL ++ S))
        = (P ++ (COMPACT_MIN_PATCHED ++ S), [Msg.okCompactMin]) ∧
      replaceAll (lit ",inputTokens:0,outputTokens:0,cacheCreation:0,cacheRead:0\x7d")
          (lit "\x7d") (P ++ (COMPACT_MIN_PATCHED ++ S))
        = P ++ (COMPACT_MIN_ORIGINAL ++ S) := by
  constructor
  · rw [compactStep, if_neg (by rw [hpre]; exact Bool.false_ne_true),
      if_pos (occursB_iff.mpr ⟨P, S, by simp⟩),
      replaceFirst_at COMPACT_MIN_PATCHED P S (by decide)
        (no_match_in_front hoP (hstr_of_window S rfl (by decide) (by decide)))]
  · rw [show P ++ (COMPACT_MIN_PATCHED ++ S)
        = (P ++ lit "\x7b...this.usageData.value,totalTokens:0")
          ++ (lit ",inputTokens:0,outputTokens:0,cacheCreation:0,cacheRead:0\x7d" ++ S) from by
      rw [show COMPACT_MIN_PATCHED
          = lit "\x7b...this.usageData.value,totalTokens:0"
            ++ lit ",inputTokens:0,outputTokens:0,cacheCreation:0,cacheRead:0\x7d" from by decide]
      simp only [List.append_assoc]]
    rw [replaceAll_single (lit "\x7d")
        (P ++ lit "\x7b...this.usageData.value,totalTokens:0") S (by decide)
        (no_match_two_zone
          (no_match_in_front hcP
            (hstr_of_window
              (X := lit "\x7b...this.usageData.value,totalTokens:0"
                ++ lit ",inputTokens:0,outputTokens:0,cacheCreation:0,cacheRead:0\x7d")
              S (by simp only [List.append_assoc]) (by decide) (by decide)))
          (no_match_in_front (by decide)
            (hstr_of_window S rfl (by decide) (by decide))))
        hcS]
    rw [show COMPACT_MIN_ORIGINAL
        = lit "\x7b...this.usageData.value,totalTokens:0" ++ lit "\x7d" from by decide]
    simp only [List.append_assoc]

/-- Universal round trip of the minified usageData transform at the
canonical captured constructor p7: the clean token-fields rule undoes it. -/
theorem rtUsageMin (P S : Text)
    (hm1 : occursB (lit "inputTokens:0")
      (P ++ (lit "usageData=p7(\x7btotalTokens:0,totalCost:0,contextWindow:0,maxOutputTokens:0\x7d)" ++ S)) = false)
    (hm2 : occursB (lit "inputTokens: 0,")
      (P ++ (lit "usageData=p7(\x7btotalTokens:0,totalCost:0,contextWindow:0,maxOutputTokens:0\x7d)" ++ S)) = false)
    (hup : occursB USAGE_DATA_ORIGINAL
      (P ++ (lit "usageData=p7(\x7btotalTokens:0,totalCost:0,contextWindow:0,maxOutputTokens:0\x7d)" ++ S)) = false)
    (huP : occursB (lit "usageData=") P = false)
    (hcP : occursB (lit ",inputTokens:0,outputTokens:0,cacheCreation:0,cacheRead:0\x7d") P = false)
    (hcS : occursB (lit ",inputTokens:0,outputTokens:0,cacheCreation:0,cacheRead:0\x7d") S = false) :
    usageStep (P ++ (lit "usageData=p7(\x7btotalTokens:0,totalCost:0,contextWindow:0,maxOutputTokens:0\x7d)" ++ S))
        = (P ++ (usageMinPatched (lit "p7") ++ S), [Msg.okUsageMin]) ∧
      replaceAll (lit ",inputTokens:0,outputTokens:0,cacheCreation:0,cacheRead:0\x7d")
          (lit "\x7d") (P ++ (usageMinPatched (lit "p7") ++ S))
        = P ++ (lit "usageData=p7(\x7btotalTokens:0,totalCost:0,contextWindow:0,maxOutputTokens:0\x7d)" ++ S) := by
  constructor
  · rw [usageStep, if_pos (by rw [hm1, hm2]; rfl),
      if_neg (by rw [hup]; exact Bool.false_ne_true),
      scanSplit_skip usageMinAt P
        (lit "usageData=p7(\x7btotalTokens:0,totalCost:0,contextWindow:0,maxOutputTokens:0\x7d)" ++ S)
        (fun j hj => usageMinAt_none_of_not_lead
          (no_match_in_front huP (hstr_of_window S rfl (by decide) (by decide)) j hj)),
      scanSplit_head (usageMinAt_at_p7 S)]
    simp only [Option.map_some', List.append_nil, List.append_assoc]
  · have hS' : occursB (lit ",inputTokens:0,outputTokens:0,cacheCreation:0,cacheRead:0\x7d")
        (lit ")" ++ S) = false := by
      rw [show (lit ",inputTokens:0,outputTokens:0,cacheCreation:0,cacheRead:0\x7d" : Text)
          = ',' :: lit "inputTokens:0,outputTokens:0,cacheCreation:0,cacheRead:0\x7d" from by decide,
        show (lit ")" ++ S : Text) = ')' :: S from rfl,
        occursB_cons_ne S (by decide)]
      exact hcS
    rw [show P ++ (usageMinPatched (lit "p7") ++ S)
        = (P ++ lit "usageData=p7(\x7btotalTokens:0,totalCost:0,contextWindow:0,maxOutputTokens:0")
          ++ (lit ",inputTokens:0,outputTokens:0,cacheCreation:0,cacheRead:0\x7d" ++ (lit ")" ++ S)) from by
      rw [show usageMinPatched (lit "p7")
          = lit "usageData=p7(\x7btotalTokens:0,totalCost:0,contextWindow:0,maxOutputTokens:0"
            ++ (lit ",inputTokens:0,outputTokens:0,cacheCreation:0,cacheRead:0\x7d" ++ lit ")") from by decide]
      simp only [List.append_assoc]]
    rw [replaceAll_single (lit "\x7d")
        (P ++ lit "usageData=p7(\x7btotalTokens:0,totalCost:0,contextWindow:0,maxOutputTokens:0")
        (lit ")" ++ S) (by decide)
        (no_match_two_zone
          (no_match_in_front hcP
            (hstr_of_window
              (lit ",inputTokens:0,outputTokens:0,cacheCreation:0,cacheRead:0\x7d" ++ (lit ")" ++ S))
              rfl (by decide) (by decide)))
          (no_match_in_front (by decide)
            (hstr_of_window (lit ")" ++ S) rfl (by decide) (by decide))))
        hS']
    rw [show (lit "usageData=p7(\x7btotalTokens:0,totalCost:0,contextWindow:0,maxOutputTokens:0\x7d)" : Text)
        = lit "usageData=p7(\x7btotalTokens:0,totalCost:0,contextWindow:0,maxOutputTokens:0"
          ++ (lit "\x7d" ++ lit ")") from by decide]
    simp only [List.append_assoc]

/-- Universal round trip of the gate removal at the first, spaced spelling. -/
theorem rtEr0Spaced (P S : Text)
    (h1P : occursB ER0_P1 P = false)
    (hsl : '/' ∉ P)
    (hmS : occursB ER0_M1 S = false) :
    er0Step (P ++ (ER0_P1 ++ S)) = (P ++ (ER0_M1 ++ S), [Msg.okEr0 0]) ∧
      replaceAll ER0_M1 ER0_P1 (P ++ (ER0_M1 ++ S)) = P ++ (ER0_P1 ++ S) := by
  constructor
  · rw [er0Step, if_pos (occursB_iff.mpr ⟨P, S, by simp⟩),
      replaceFirst_at ER0_M1 P S (by decide)
        (no_match_in_front h1P (hstr_of_window S rfl (by decide) (by decide)))]
  · exact replaceAll_single ER0_P1 P S (by decide)
      (no_match_head (ER0_M1 ++ S)
        (show ∃ o2, ER0_M1 = '/' :: o2 from ⟨lit "* patched: always show */", by decide⟩) hsl)
      hmS

/-- Universal round trip of the gate removal at the braced minified spelling. -/
theorem rtEr0Braced (P S : Text)
    (h1 : occursB ER0_P1 (P ++ (ER0_P2 ++ S)) = false)
    (h2P : occursB ER0_P2 P = false)
    (hmP : occursB ER0_M2 P = false)
    (hmS : occursB ER0_M2 S = false) :
    er0Step (P ++ (ER0_P2 ++ S)) = (P ++ (ER0_M2 ++ S), [Msg.okEr0 1]) ∧
      replaceAll ER0_M2 ER0_P2 (P ++ (ER0_M2 ++ S)) = P ++ (ER0_P2 ++ S) := by
  constructor
  · rw [er0Step, if_neg (by rw [h1]; exact Bool.false_ne_true),
      if_pos (occursB_iff.mpr ⟨P, S, by simp⟩),
      replaceFirst_at ER0_M2 P S (by decide)
        (no_match_in_front h2P (hstr_of_window S rfl (by decide) (by decide)))]
  · exact replaceAll_single ER0_P2 P S (by decide)
      (no_match_in_front hmP (hstr_of_window S rfl (by decide) (by decide))) hmS

/-- Universal round trip of the stylesheet appends: patch_css appends the
two blocks and clean_css truncates exactly them away. -/
theorem rtCss (css : Text)
    (h1 : occursB (lit ".sessionMetrics_cc") css = false)
    (h2 : occursB (lit "/* ST palette */") css = false)
    (h3 : occursB (lit "\n/* Custom Session Metrics Bar") css = false) :
    (patch_css css).text = css ++ (custom_css ++ st_css) ∧
      clean_css (css ++ (custom_css ++ st_css)) = css := by
  have hpal : occursB (lit "/* ST palette */") (css ++ custom_css) = false := by
    rw [show custom_css = '\n' :: custom_css.tail from by decide,
      occursB_append_head_ne _ (by decide), h2,
      show occursB (lit "/* ST palette */") ('\n' :: custom_css.tail) = false from by decide]
    rfl
  constructor
  · rw [patch_css]
    simp only [h1, Bool.false_eq_true, if_false, hpal]
    simp only [List.append_assoc]
  · have h2' : occursB (lit "\n/* ST palette */") css = false := by
      cases hh : occursB (lit "\n/* ST palette */") css with
      | false => rfl
      | true =>
        have hh2 : occursB (lit "\n" ++ lit "/* ST palette */" ++ ([] : Text)) css = true := by
          rw [show lit "\n" ++ lit "/* ST palette */" ++ ([] : Text)
              = lit "\n/* ST palette */" from by decide]
          exact hh
        have hinf := occursB_infix hh2
        rw [h2] at hinf
        exact absurd hinf (by simp)
    rw [clean_css,
      truncAtMarker_at css (custom_css ++ st_css)
        (no_match_in_front h3
          (hstr_of_window (X := custom_css ++ st_css) ([] : Text)
            (List.append_nil _).symm (by decide) (by decide)))
        (by decide),
      truncAtMarker_no h2']

end CCPatch

namespace CCPatch

/-- C2 (amended): each substitution stage round-trips byte-for-byte with
its clean reverse rule, universally in the surrounding context: for the
four token-field transforms in both the prettified and the minified
spelling, for the visibility gate in the spaced and in the braced
spelling, and for the stylesheet appends; additionally the full pipeline
round-trips on a canonical minified artifact.  The third gate spelling is
not restored (see the counterexample). -/
theorem C2_round_trip :
    (∀ P S : Text,
      occursB (lit "inputTokens:0") (P ++ (USAGE_DATA_ORIGINAL ++ S)) = false →
      occursB (lit "inputTokens: 0,") (P ++ (USAGE_DATA_ORIGINAL ++ S)) = false →
      occursB USAGE_DATA_ORIGINAL P = false →
      occursB USAGE_DATA_PATCHED P = false →
      occursB USAGE_DATA_PATCHED S = false →
      usageStep (P ++ (USAGE_DATA_ORIGINAL ++ S))
          = (P ++ (USAGE_DATA_PATCHED ++ S), [Msg.okUsagePretty]) ∧
        replaceAll USAGE_DATA_PATCHED USAGE_DATA_ORIGINAL (P ++ (USAGE_DATA_PATCHED ++ S))
          = P ++ (USAGE_DATA_ORIGINAL ++ S)) ∧
    (∀ P S : Text,
      occursB (lit "inputTokens:0")
        (P ++ (lit "usageData=p7(\x7btotalTokens:0,totalCost:0,contextWindow:0,maxOutputTokens:0\x7d)" ++ S)) = false →
      occursB (lit "inputTokens: 0,")
        (P ++ (lit "usageData=p7(\x7btotalTokens:0,totalCost:0,contextWindow:0,maxOutputTokens:0\x7d)" ++ S)) = false →
      occursB USAGE_DATA_ORIGINAL
        (P ++ (lit "usageData=p7(\x7btotalTokens:0,totalCost:0,contextWindow:0,maxOutputTokens:0\x7d)" ++ S)) = false →
      occursB (lit "usageData=") P = false →
      occursB (lit ",inputTokens:0,outputTokens:0,cacheCreation:0,cacheRead:0\x7d") P = false →
      occursB (lit ",inputTokens:0,outputTokens:0,cacheCreation:0,cacheRead:0\x7d") S = false →
      usageStep (P ++ (lit "usageData=p7(\x7btotalTokens:0,totalCost:0,contextWindow:0,maxOutputTokens:0\x7d)" ++ S))
          = (P ++ (usageMinPatched (lit "p7") ++ S), [Msg.okUsageMin]) ∧
        replaceAll (lit ",inputTokens:0,outputTokens:0,cacheCreation:0,cacheRead:0\x7d")
            (lit "\x7d") (P ++ (usageMinPatched (lit "p7") ++ S))
          = P ++ (lit "usageData=p7(\x7btotalTokens:0,totalCost:0,contextWindow:0,maxOutputTokens:0\x7d)" ++ S)) ∧
    (∀ P S : Text,
      occursB (lit "inputTokens:$.input_tokens") (P ++ (UPDATE_USAGE_ORIGINAL ++ S)) = false →
      occursB (lit "inputTokens: $.input_tokens") (P ++ (UPDATE_USAGE_ORIGINAL ++ S)) = false →
      occursB UPDATE_USAGE_ORIGINAL P = false →
      occursB UPDATE_USAGE_PATCHED P = false →
      occursB UPDATE_USAGE_PATCHED S = false →
      updateStep (P ++ (UPDATE_USAGE_ORIGINAL ++ S))
          = (P ++ (UPDATE_USAGE_PATCHED ++ S), [Msg.okUpdatePretty]) ∧
        replaceAll UPDATE_USAGE_PATCHED UPDATE_USAGE_ORIGINAL
            (P ++ (UPDATE_USAGE_PATCHED ++ S))
          = P ++ (UPDATE_USAGE_ORIGINAL ++ S)) ∧
    (∀ P S : Text,
      occursB (lit "inputTokens:$.input_tokens")
        (P ++ (UPDATE_USAGE_MIN_ORIGINAL ++ S)) = false →
      occursB (lit "inputTokens: $.input_tokens")
        (P ++ (UPDATE_USAGE_MIN_ORIGINAL ++ S)) = false →
      occursB UPDATE_USAGE_ORIGINAL (P ++ (UPDATE_USAGE_MIN_ORIGINAL ++ S)) = false →
      occursB UPDATE_USAGE_MIN_ORIGINAL P = false →
      occursB UPDATE_USAGE_MIN_PATCHED P = false →
      occursB UPDATE_USAGE_MIN_PATCHED S = false →
      updateStep (P ++ (UPDATE_USAGE_MIN_ORIGINAL ++ S))
          = (P ++ (UPDATE_USAGE_MIN_PATCHED ++ S), [Msg.okUpdateMin]) ∧
        replaceAll UPDATE_USAGE_MIN_PATCHED UPDATE_USAGE_MIN_ORIGINAL
            (P ++ (UPDATE_USAGE_MIN_PATCHED ++ S))
          = P ++ (UPDATE_USAGE_MIN_ORIGINAL ++ S)) ∧
    (∀ P S : Text,
      occursB (lit "inputTokens:J.inputTokens")
        (P ++ (RESULT_HANDLER_ORIGINAL ++ S)) = false →
      occursB (lit "inputTokens: J.inputTokens")
        (P ++ (RESULT_HANDLER_ORIGINAL ++ S)) = false →
      occursB RESULT_HANDLER_ORIGINAL P = false →
      occursB RESULT_HANDLER_PATCHED P = false →
      occursB RESULT_HANDLER_PATCHED S = false →
      resultStep (P ++ (RESULT_HANDLER_ORIGINAL ++ S))
          = (P ++ (RESULT_HANDLER_PATCHED ++ S), [Msg.okResultPretty]) ∧
        replaceAll RESULT_HANDLER_PATCHED RESULT_HANDLER_ORIGINAL
            (P ++ (RESULT_HANDLER_PATCHED ++ S))
          = P ++ (RESULT_HANDLER_ORIGINAL ++ S)) ∧
    (∀ P S : Text,
      occursB (lit "inputTokens:J.inputTokens")
        (P ++ (RESULT_HANDLER_MIN_ORIGINAL ++ S)) = false →
      occursB (lit "inputTokens: J.inputTokens")
        (P ++ (RESULT_HANDLER_MIN_ORIGINAL ++ S)) = false →
      occursB RESULT_HANDLER_ORIGINAL
        (P ++ (RESULT_HANDLER_MIN_ORIGINAL ++ S)) = false →
      occursB RESULT_HANDLER_MIN_ORIGINAL P = false →
      occursB RESULT_HANDLER_MIN_PATCHED P = false →
      occursB RESULT_HANDLER_MIN_PATCHED S = false →
      resultStep (P ++ (RESULT_HANDLER_MIN_ORIGINAL ++ S))
          = (P ++ (RESULT_HANDLER_MIN_PATCHED ++ S), [Msg.okResultMin]) ∧
        replaceAll RESULT_HANDLER_MIN_PATCHED RESULT_HANDLER_MIN_ORIGINAL
            (P ++ (RESULT_HANDLER_MIN_PATCHED ++ S))
          = P ++ (RESULT_HANDLER_MIN_ORIGINAL ++ S)) ∧
    (∀ P S : Text,
      occursB COMPACT_ORIGINAL P = false →
      occursB COMPACT_PATCHED P = false →
      occursB COMPACT_PATCHED S = false →
      compactStep (P ++ (COMPACT_ORIGINAL ++ S))
          = (P ++ (COMPACT_PATCHED ++ S), [Msg.okCompactPretty]) ∧
        replaceAll COMPACT_PATCHED COMPACT_ORIGINAL (P ++ (COMPACT_PATCHED ++ S))
          = P ++ (COMPACT_ORIGINAL ++ S)) ∧
    (∀ P S : Text,
      occursB COMPACT_ORIGINAL (P ++ (COMPACT_MIN_ORIGINAL ++ S)) = false →
      occursB COMPACT_MIN_ORIGINAL P = false →
      occursB (lit ",inputTokens:0,outputTokens:0,cacheCreation:0,cacheRead:0\x7d") P = false →
      occursB (lit ",inputTokens:0,outputTokens:0,cacheCreation:0,cacheRead:0\x7d") S = false →
      compactStep (P ++ (COMPACT_MIN_ORIGINAL ++ S))
          = (P ++ (COMPACT_MIN_PATCHED ++ S), [Msg.okCompactMin]) ∧
        replaceAll (lit ",inputTokens:0,outputTokens:0,cacheCreation:0,cacheRead:0\x7d")
            (lit "\x7d") (P ++ (COMPACT_MIN_PATCHED ++ S))
          = P ++ (COMPACT_MIN_ORIGINAL ++ S)) ∧
    (∀ P S : Text,
      occursB ER0_P1 P = false →
      '/' ∉ P →
      occursB ER0_M1 S = false →
      er0Step (P ++ (ER0_P1 ++ S)) = (P ++ (ER0_M1 ++ S), [Msg.okEr0 0]) ∧
        replaceAll ER0_M1 ER0_P1 (P ++ (ER0_M1 ++ S)) = P ++ (ER0_P1 ++ S)) ∧
    (∀ P S : Text,
      occursB ER0_P1 (P ++ (ER0_P2 ++ S)) = false →
      occursB ER0_P2 P = false →
      occursB ER0_M2 P = false →
      occursB ER0_M2 S = false →
      er0Step (P ++ (ER0_P2 ++ S)) = (P ++ (ER0_M2 ++ S), [Msg.okEr0 1]) ∧
        replaceAll ER0_M2 ER0_P2 (P ++ (ER0_M2 ++ S)) = P ++ (ER0_P2 ++ S)) ∧
    (∀ css : Text,
      occursB (lit ".sessionMetrics_cc") css = false →
      occursB (lit "/* ST palette */") css = false →
      occursB (lit "\n/* Custom Session Metrics Bar") css = false →
      (patch_css css).text = css ++ (custom_css ++ st_css) ∧
        clean_css (css ++ (custom_css ++ st_css)) = css) ∧
    (patch_js rt2).written = some rt2patched ∧
    clean_js rt2patched = rt2 ∧
    (patch_js rt2).msgs =
      [Msg.format false,
       Msg.detected (lit "WJ") (lit "n4") (lit "dP1") (lit "_Z"),
       Msg.okUsageMin, Msg.okUpdateMin, Msg.okResultMin, Msg.okCompactMin,
       Msg.skipDef, Msg.skipCall, Msg.okEr0 1, Msg.doneJs] ∧
    (patch_css css0).text = css0 ++ custom_css ++ st_css ∧
    clean_css (patch_css css0).text = css0 :=
  ⟨rtUsagePretty, rtUsageMin, rtUpdatePretty, rtUpdateMin, rtResultPretty, rtResultMin,
   rtCompactPretty, rtCompactMin, rtEr0Spaced, rtEr0Braced, rtCss,
   by decide, by decide, by decide, by decide, by decide⟩

/-- Witness for C2 at the spaced gate spelling in a concrete context. -/
theorem C2_witness :
    er0Step (lit "x=1;\n" ++ (ER0_P1 ++ lit "\nreturn q;"))
        = (lit "x=1;\n" ++ (ER0_M1 ++ lit "\nreturn q;"), [Msg.okEr0 0]) ∧
      replaceAll ER0_M1 ER0_P1 (lit "x=1;\n" ++ (ER0_M1 ++ lit "\nreturn q;"))
        = lit "x=1;\n" ++ (ER0_P1 ++ lit "\nreturn q;") :=
  C2_round_trip.2.2.2.2.2.2.2.2.1 (lit "x=1;\n") (lit "\nreturn q;")
    (by decide) (by decide) (by decide)

end CCPatch

namespace CCPatch

/-- C9: the enclosing-function and signal-hook resolvers only scan the 5000
characters immediately before the first inputFooter marker occurrence: on
every text whose marker sits at position p > 5000, with no function
definition and no hook pattern match inside that window, detect_footer_function
returns none and detect_signal_hook returns the fallback "_Z", even when a
`function ` occurrence exists in the text before the window. -/
theorem C9_window_limit (t cv : Text) (p : Nat)
    (hfp : findSub (lit "className:" ++ cv ++ lit ".inputFooter") t = some p)
    (hgt : 5000 < p)
    (hfun : scanIterPos funcDefAt (pySlice (p - 5000) p t) = [])
    (hh1 : scanIterPos hookPat1At (pySlice (p - 5000) p t) = [])
    (hh2 : scanIterPos hookPat2At (pySlice (p - 5000) p t) = [])
    (hexists : occursB (lit "function ") (t.take (p - 5000)) = true) :
    detect_footer_function t cv = none ∧ detect_signal_hook t cv = lit "_Z" := by
  have hip : inputFooterPos t cv = some p := by rw [inputFooterPos, hfp]
  constructor
  · simp [detect_footer_function, hip, hfun]
  · simp [detect_signal_hook, hip, hh1, hh2]

/-- The C9 witness text: an enclosing function definition, 4999 filler
characters, then the inputFooter marker at position 5010. -/
def c9wit : Text :=
  lit "function q(" ++ (List.replicate 4999 'x' ++ lit "className:WJ.inputFooter")

/-- Witness for C9: on the concrete text whose enclosing function starts
more than 5000 characters before the inputFooter marker, both resolvers
fall back although a function definition exists. -/
theorem C9_witness :
    detect_footer_function c9wit (lit "WJ") = none ∧
      detect_signal_hook c9wit (lit "WJ") = lit "_Z" := by
  have hfp : findSub (lit "className:" ++ lit "WJ" ++ lit ".inputFooter") c9wit
      = some 5010 := by
    rw [c9wit, findSub_concat _ _ _ _ _ (by decide)
      ⟨'c', lit "lassName:WJ.inputFooter", by decide, by decide⟩ (by decide)]
    decide
  have hin : (List.replicate 4999 'x' ++ lit "className:WJ.inputFooter").take
      (5010 - (lit "function q(").length) = List.replicate 4999 'x' := by
    rw [show 5010 - (lit "function q(").length = 4999 from by decide,
      List.take_append_of_le_length (le_of_eq (List.length_replicate 4999 'x').symm),
      List.take_replicate, Nat.min_self]
  have htake : c9wit.take 5010 = lit "function q(" ++ List.replicate 4999 'x' := by
    rw [c9wit, List.take_append_eq_append_take,
      List.take_of_length_le (show (lit "function q(").length ≤ 5010 from by decide), hin]
  have hchunk : pySlice 10 5010 c9wit = '(' :: List.replicate 4999 'x' := by
    rw [pySlice, htake, List.drop_append_of_le_length (by decide),
      show (lit "function q(").drop 10 = ['('] from by decide]
    rfl
  have hex : occursB (lit "function ") (c9wit.take 10) = true := by
    rw [c9wit, List.take_append_of_le_length (by decide)]
    decide
  refine C9_window_limit c9wit (lit "WJ") 5010 hfp (by decide) ?_ ?_ ?_ hex
  · rw [show (5010 : Nat) - 5000 = 10 from rfl, hchunk]
    exact scanIterPos_chunk_none _ rfl (funcDefAt_head_ne (by decide))
      (funcDefAt_head_ne (by decide))
  · rw [show (5010 : Nat) - 5000 = 10 from rfl, hchunk]
    exact scanIterPos_chunk_none _ rfl (hookPat1At_head_ne (by decide))
      (hookPat1At_head_ne (by decide))
  · rw [show (5010 : Nat) - 5000 = 10 from rfl, hchunk]
    exact scanIterPos_chunk_none _ rfl (hookPat2At_head_ne (by decide))
      (hookPat2At_head_ne (by decide))

end CCPatch
namespace CCPatch

/-- occursB ignores a leading uniform run whose character differs from the
pattern head (stated for a pattern given with its head split off). -/
theorem occursB_replicate_lit {n : Text} {d : Char} {n2 : Text} (hl : n = d :: n2)
    {c : Char} (k : Nat) (t : Text) (h : d ≠ c) :
    occursB n (List.replicate k c ++ t) = occursB n t := by
  rw [hl, occursB_replicate k t h]

/-- stripId fails at a non-identifier head character. -/
theorem stripId_not_start {c : Char} (hc : jsIdStart c = false) (s : Text) :
    stripId (c :: s) = none := by
  rw [stripId, if_neg (by rw [hc]; exact Bool.false_ne_true)]

/-- The css-module-variable regex fails at newline positions. -/
theorem idDotInputFooterAt_nl (s : Text) : idDotInputFooterAt ('\n' :: s) = none := by
  rw [idDotInputFooterAt, stripId_not_start (by decide)]
  rfl

/-- The strict react-variable regex fails at newline positions. -/
theorem reactVarAt_nl (cv : Text) (s : Text) : reactVarAt cv ('\n' :: s) = none := by
  rw [reactVarAt,
    stripLit_head_ne (show lit "return " = 'r' :: lit "eturn " from rfl) (by decide)]
  rfl

/-- The footer-component regex for the detected variable WJ fails at
newline positions. -/
theorem footerCompAt_WJ_nl (s : Text) : footerCompAt (lit "WJ") ('\n' :: s) = none := by
  rw [footerCompAt, stripLit_head_ne (show lit "className:" ++ lit "WJ" ++
    lit ".inputFooter\x7d," = 'c' :: (lit "lassName:" ++ lit "WJ" ++
    lit ".inputFooter\x7d,") from rfl) (by decide)]
  rfl

/-- The minified usageData regex fails at newline positions. -/
theorem usageMinAt_nl (s : Text) : usageMinAt ('\n' :: s) = none := by
  rw [usageMinAt, stripLit_head_ne (show lit "usageData=" = 'u' :: lit "sageData=" from rfl)
    (by decide)]

/-- One step of the prettified call-injection loop over an empty line. -/
theorem callLoopGo_empty_step (cv rv fc call : Text) (L : List Text) (fuel j : Nat)
    (hj : L[j]? = some ([] : Text)) :
    callLoopGo cv rv fc call L (fuel + 1) j = callLoopGo cv rv fc call L fuel (j + 1) := by
  rw [callLoopGo, hj]
  rfl

/-- The prettified call-injection loop skips a block of empty lines. -/
theorem callLoopGo_skip_range (cv rv fc call : Text) (L : List Text) :
    ∀ (m fuel j : Nat), (∀ i, i < m → L[j + i]? = some ([] : Text)) →
      callLoopGo cv rv fc call L (fuel + m) j = callLoopGo cv rv fc call L fuel (j + m)
  | 0, _, _, _ => rfl
  | m + 1, fuel, j, h => by
    have h0 : L[j]? = some ([] : Text) := by
      have h00 := h 0 (by omega)
      rwa [Nat.add_zero] at h00
    rw [show fuel + (m + 1) = (fuel + m) + 1 from by omega,
      callLoopGo_empty_step cv rv fc call L (fuel + m) j h0,
      callLoopGo_skip_range cv rv fc call L m fuel (j + 1) (fun i hi => by
        rw [show j + 1 + i = j + (i + 1) from by omega]
        exact h (i + 1) (by omega)),
      show j + 1 + m = j + (m + 1) from by omega]

/-- spliceLine at index k acts past a block of k untouched lines. -/
theorem spliceLine_append_replicate (k ci : Nat) (call : Text) (rest : List Text) :
    spliceLine k ci call (List.replicate k ([] : Text) ++ rest)
      = List.replicate k ([] : Text) ++ spliceLine 0 ci call rest := by
  induction k with
  | zero => rfl
  | succ k ih =>
    rw [List.replicate_succ, List.cons_append, spliceLine]
    show ([] : Text) :: spliceLine k ci call (List.replicate k ([] : Text) ++ rest)
      = ([] : Text) :: (List.replicate k ([] : Text) ++ spliceLine 0 ci call rest)
    rw [ih]

/-- callStep on prettified content whose loop finds a same-line split. -/
theorem callStep_pretty_done (cv rv fc content : Text) (ls : List Text) (m : Msg)
    (h1 : occursB (lit "CC_MetricsBar") content = true)
    (h2 : occursB (lit "createElement(CC_MetricsBar") content = false)
    (hl : callLoopGo cv rv fc (metricsBarCall rv) (splitNl content)
      (splitNl content).length 0 = .done ls m) :
    callStep true cv rv fc content = .ok (joinNl ls) [m] := by
  simp only [callStep, h1, h2, hl]
  simp

/-- patch_js writes er0Step of the callStep output whenever both injection
transforms return ok. -/
theorem patch_js_written_eq {t c4 c5 : Text} {ms ms2 : List Msg}
    (hds : defStep (is_prettified t) (detect_css_module_var t)
      (detect_react_var t (detect_css_module_var t))
      (detect_signal_hook t (detect_css_module_var t))
      ((compactStep (resultStep (updateStep (usageStep t).1).1).1).1) = .ok c4 ms)
    (hcs : callStep (is_prettified t) (detect_css_module_var t)
      (detect_react_var t (detect_css_module_var t))
      (detect_footer_component t (detect_css_module_var t)) c4 = .ok c5 ms2) :
    (patch_js t).written = some (er0Step c5).1 := by
  simp only [patch_js, hds, hcs]

end CCPatch
namespace CCPatch

/-- The single long line of the C10 counterexample input. -/
def c10line : Text :=
  lit "return r4.default.createElement(\"div\",\x7bclassName:WJ.inputFooter\x7d,zzz function CC_MetricsBar4.default.createElement(dP1,null))"

/-- The C10 counterexample input: 5000 newlines, then the long line, so the
artifact is classified prettified and the call-injection loop reaches the
long line at index 5000. -/
def c10input : Text := List.replicate 5000 '\n' ++ c10line

/-- First split part: the long line up to the injection column, rstripped;
the cut lands inside the only occurrence of the definition marker. -/
def c10l1 : Text :=
  lit "return r4.default.createElement(\"div\",\x7bclassName:WJ.inputFooter\x7d,zzz function CC_MetricsBa"

/-- The injected call line. -/
def c10l2 : Text := lit "    r4.default.createElement(CC_MetricsBar, \x7b session: $ \x7d),"

/-- The remainder of the long line after the injection column. -/
def c10l3 : Text := lit "    r4.default.createElement(dP1,null))"

/-- The text patch_js writes on the C10 counterexample input. -/
def c10out : Text :=
  List.replicate 5000 '\n' ++ (c10l1 ++ '\n' :: (c10l2 ++ '\n' :: c10l3))

/-- Counterexample for C10 as stated: patch_js succeeds and writes a text
containing the call marker createElement(CC_MetricsBar but not the
definition marker function CC_MetricsBar: the definition transform is
skipped because the marker occurs in the input, and the prettified
same-line split then cuts the long line inside that only occurrence. -/
theorem C10_counterexample :
    (patch_js c10input).written = some c10out ∧
      occursB (lit "createElement(CC_MetricsBar") c10out = true ∧
      occursB (lit "function CC_MetricsBar") c10out = false := by
  have hs0 : (usageStep c10input).1 = c10input := by
    rw [usageStep, c10input,
      occursB_replicate_lit (show lit "inputTokens:0" = 'i' :: lit "nputTokens:0" from rfl)
        5000 c10line (by decide),
      occursB_replicate_lit (show lit "inputTokens: 0," = 'i' :: lit "nputTokens: 0," from rfl)
        5000 c10line (by decide),
      if_pos (by decide),
      occursB_replicate_lit (show USAGE_DATA_ORIGINAL = ' ' :: (USAGE_DATA_ORIGINAL.drop 1)
        from by decide) 5000 c10line (by decide),
      if_neg (by decide),
      scanSplit_replicate 5000 c10line usageMinAt_nl,
      show scanSplit usageMinAt c10line = none from by decide]
    rfl
  have hs1 : (updateStep c10input).1 = c10input := by
    rw [updateStep, c10input,
      occursB_replicate_lit (show lit "inputTokens:$.input_tokens"
        = 'i' :: lit "nputTokens:$.input_tokens" from rfl) 5000 c10line (by decide),
      occursB_replicate_lit (show lit "inputTokens: $.input_tokens"
        = 'i' :: lit "nputTokens: $.input_tokens" from rfl) 5000 c10line (by decide),
      if_pos (by decide),
      occursB_replicate_lit (show UPDATE_USAGE_ORIGINAL = ' ' :: (UPDATE_USAGE_ORIGINAL.drop 1)
        from by decide) 5000 c10line (by decide),
      if_neg (by decide),
      occursB_replicate_lit (show UPDATE_USAGE_MIN_ORIGINAL
        = 'u' :: (UPDATE_USAGE_MIN_ORIGINAL.drop 1) from by decide) 5000 c10line (by decide),
      if_neg (by decide)]
  have hs2 : (resultStep c10input).1 = c10input := by
    rw [resultStep, c10input,
      occursB_replicate_lit (show lit "inputTokens:J.inputTokens"
        = 'i' :: lit "nputTokens:J.inputTokens" from rfl) 5000 c10line (by decide),
      occursB_replicate_lit (show lit "inputTokens: J.inputTokens"
        = 'i' :: lit "nputTokens: J.inputTokens" from rfl) 5000 c10line (by decide),
      if_pos (by decide),
      occursB_replicate_lit (show RESULT_HANDLER_ORIGINAL
        = ' ' :: (RESULT_HANDLER_ORIGINAL.drop 1) from by decide) 5000 c10line (by decide),
      if_neg (by decide),
      occursB_replicate_lit (show RESULT_HANDLER_MIN_ORIGINAL
        = 'u' :: (RESULT_HANDLER_MIN_ORIGINAL.drop 1) from by decide) 5000 c10line (by decide),
      if_neg (by decide)]
  have hs3 : (compactStep c10input).1 = c10input := by
    rw [compactStep, c10input,
      occursB_replicate_lit (show COMPACT_ORIGINAL = '\x7b' :: (COMPACT_ORIGINAL.drop 1)
        from by decide) 5000 c10line (by decide),
      if_neg (by decide),
      occursB_replicate_lit (show COMPACT_MIN_ORIGINAL = '\x7b' :: (COMPACT_MIN_ORIGINAL.drop 1)
        from by decide) 5000 c10line (by decide),
      if_neg (by decide),
      occursB_replicate_lit (show COMPACT_PATCHED = '\x7b' :: (COMPACT_PATCHED.drop 1)
        from by decide) 5000 c10line (by decide),
      occursB_replicate_lit (show COMPACT_MIN_PATCHED = '\x7b' :: (COMPACT_MIN_PATCHED.drop 1)
        from by decide) 5000 c10line (by decide),
      if_neg (by decide)]
  have hdm : occursB (lit "function CC_MetricsBar") c10input = true := by
    rw [c10input, occursB_replicate_lit
      (show lit "function CC_MetricsBar" = 'f' :: lit "unction CC_MetricsBar" from rfl)
      5000 c10line (by decide)]
    decide
  have hcm : occursB (lit "CC_MetricsBar") c10input = true := by
    rw [c10input, occursB_replicate_lit
      (show lit "CC_MetricsBar" = 'C' :: lit "C_MetricsBar" from rfl) 5000 c10line (by decide)]
    decide
  have hcem : occursB (lit "createElement(CC_MetricsBar") c10input = false := by
    rw [c10input, occursB_replicate_lit
      (show lit "createElement(CC_MetricsBar" = 'c' :: lit "reateElement(CC_MetricsBar" from rfl)
      5000 c10line (by decide)]
    decide
  have hpre : is_prettified c10input = true := by
    rw [is_prettified, c10input, splitNl_replicate,
      show splitNl c10line = [c10line] from by decide,
      List.length_append, List.length_replicate]
    decide
  have hcv : detect_css_module_var c10input = lit "WJ" := by
    rw [detect_css_module_var, c10input,
      scanSplit_replicate 5000 c10line idDotInputFooterAt_nl,
      show scanSplit idDotInputFooterAt c10line
        = some (lit "return r4.default.createElement(\"div\",\x7bclassName:", lit "WJ")
        from by decide]
    rfl
  have hrv : detect_react_var c10input (lit "WJ") = lit "r4" := by
    rw [detect_react_var, c10input,
      scanSplit_replicate 5000 c10line (reactVarAt_nl (lit "WJ")),
      show scanSplit (reactVarAt (lit "WJ")) c10line = some ([], lit "r4") from by decide]
    rfl
  have hfc : detect_footer_component c10input (lit "WJ") = lit "dP1" := by
    rw [detect_footer_component, c10input,
      scanSplit_replicate 5000 c10line footerCompAt_WJ_nl,
      show scanSplit (footerCompAt (lit "WJ")) c10line = none from by decide]
    rfl
  have hget0 : ∀ i, i < 5000 →
      (List.replicate 5000 ([] : Text) ++ [c10line])[0 + i]? = some ([] : Text) := by
    intro i hi
    rw [Nat.zero_add, List.getElem?_append, if_pos (by rw [List.length_replicate]; exact hi),
      List.getElem?_replicate, if_pos hi]
  have hget5000 : (List.replicate 5000 ([] : Text) ++ [c10line])[5000]? = some c10line := by
    rw [List.getElem?_append, if_neg (by rw [List.length_replicate]; omega),
      List.length_replicate]
    rfl
  have hloop1 : callLoopGo (lit "WJ") (lit "r4") (lit "dP1") (metricsBarCall (lit "r4"))
      (List.replicate 5000 ([] : Text) ++ [c10line]) 1 5000
      = .done (List.replicate 5000 ([] : Text) ++ [c10l1, c10l2, c10l3])
          (Msg.okCallSplit 5001) := by
    rw [show (1 : Nat) = 0 + 1 from rfl, callLoopGo, hget5000]
    show CallLoopRes.done (spliceLine 5000 90 (metricsBarCall (lit "r4"))
        (List.replicate 5000 ([] : Text) ++ [c10line])) (Msg.okCallSplit 5001)
      = _
    rw [spliceLine_append_replicate,
      show spliceLine 0 90 (metricsBarCall (lit "r4")) [c10line] = [c10l1, c10l2, c10l3]
        from by decide]
  have hlines : splitNl c10input = List.replicate 5000 ([] : Text) ++ [c10line] := by
    rw [c10input, splitNl_replicate, show splitNl c10line = [c10line] from by decide]
  have hlen : (List.replicate 5000 ([] : Text) ++ [c10line]).length = 5001 := by
    rw [List.length_append, List.length_replicate]
    rfl
  have hloopFull : callLoopGo (lit "WJ") (lit "r4") (lit "dP1") (metricsBarCall (lit "r4"))
      (List.replicate 5000 ([] : Text) ++ [c10line]) 5001 0
      = .done (List.replicate 5000 ([] : Text) ++ [c10l1, c10l2, c10l3])
          (Msg.okCallSplit 5001) := by
    have e1 := callLoopGo_skip_range (lit "WJ") (lit "r4") (lit "dP1")
      (metricsBarCall (lit "r4")) (List.replicate 5000 ([] : Text) ++ [c10line]) 5000 1 0 hget0
    rw [show (1 : Nat) + 5000 = 5001 from by omega,
      show (0 : Nat) + 5000 = 5000 from by omega] at e1
    rw [e1, hloop1]
  have hl : callLoopGo (lit "WJ") (lit "r4") (lit "dP1") (metricsBarCall (lit "r4"))
      (splitNl c10input) (splitNl c10input).length 0
      = .done (List.replicate 5000 ([] : Text) ++ [c10l1, c10l2, c10l3])
          (Msg.okCallSplit 5001) := by
    rw [hlines, hlen]
    exact hloopFull
  have hcs0 : callStep true (lit "WJ") (lit "r4") (lit "dP1") c10input
      = .ok (joinNl (List.replicate 5000 ([] : Text) ++ [c10l1, c10l2, c10l3]))
          [Msg.okCallSplit 5001] :=
    callStep_pretty_done _ _ _ _ _ _ hcm hcem hl
  have hjoin : joinNl (List.replicate 5000 ([] : Text) ++ [c10l1, c10l2, c10l3]) = c10out := by
    rw [joinNl_replicate, c10out]
    rfl
  have hds : defStep (is_prettified c10input) (detect_css_module_var c10input)
      (detect_react_var c10input (detect_css_module_var c10input))
      (detect_signal_hook c10input (detect_css_module_var c10input))
      ((compactStep (resultStep (updateStep (usageStep c10input).1).1).1).1)
      = .ok c10input [Msg.skipDef] := by
    rw [hs0, hs1, hs2, hs3]
    exact defStep_skip _ _ _ _ hdm
  have hcs : callStep (is_prettified c10input) (detect_css_module_var c10input)
      (detect_react_var c10input (detect_css_module_var c10input))
      (detect_footer_component c10input (detect_css_module_var c10input)) c10input
      = .ok c10out [Msg.okCallSplit 5001] := by
    rw [hpre, hcv, hrv, hfc, hcs0, hjoin]
  have hw := patch_js_written_eq hds hcs
  have her0 : (er0Step c10out).1 = c10out := by
    rw [er0Step, c10out,
      occursB_replicate_lit (show ER0_P1 = 'i' :: (ER0_P1.drop 1) from by decide)
        5000 _ (by decide),
      if_neg (by decide),
      occursB_replicate_lit (show ER0_P2 = 'i' :: (ER0_P2.drop 1) from by decide)
        5000 _ (by decide),
      if_neg (by decide),
      occursB_replicate_lit (show ER0_P3 = 'i' :: (ER0_P3.drop 1) from by decide)
        5000 _ (by decide),
      if_neg (by decide),
      occursB_replicate_lit (show ER0_M1 = '/' :: (ER0_M1.drop 1) from by decide)
        5000 _ (by decide),
      if_neg (by decide)]
  refine ⟨?_, ?_, ?_⟩
  · rw [hw, her0]
  · rw [c10out, occursB_replicate_lit (show lit "createElement(CC_MetricsBar"
      = 'c' :: lit "reateElement(CC_MetricsBar" from rfl) 5000 _ (by decide)]
    decide
  · rw [c10out, occursB_replicate_lit (show lit "function CC_MetricsBar"
      = 'f' :: lit "unction CC_MetricsBar" from rfl) 5000 _ (by decide)]
    decide

end CCPatch
namespace CCPatch

/-- er0Step preserves the definition marker: the gate spellings cannot
overlap an occurrence of function CC_MetricsBar. -/
theorem er0Step_pres_marker {c : Text}
    (h : occursB (lit "function CC_MetricsBar") c = true) :
    occursB (lit "function CC_MetricsBar") (er0Step c).1 = true := by
  rw [er0Step]
  by_cases h1 : occursB ER0_P1 c = true
  · rw [if_pos h1]
    exact occursB_replaceFirst_pres _ _ (by decide) (by decide) (by decide) (by decide) h
  · rw [if_neg h1]
    by_cases h2 : occursB ER0_P2 c = true
    · rw [if_pos h2]
      exact occursB_replaceFirst_pres _ _ (by decide) (by decide) (by decide) (by decide) h
    · rw [if_neg h2]
      by_cases h3 : occursB ER0_P3 c = true
      · rw [if_pos h3]
        exact occursB_replaceFirst_pres _ _ (by decide) (by decide) (by decide) (by decide) h
      · rw [if_neg h3]
        by_cases h4 : occursB ER0_M1 c = true
        · rw [if_pos h4]
          exact h
        · rw [if_neg h4]
          exact h

/-- The minified call-injection transform preserves the definition marker:
the injected call is inserted after a pattern ending in a comma, a
character that does not occur in the marker. -/
theorem callStep_min_pres {cv rv fc c c5 : Text} {ms : List Msg}
    (hm : occursB (lit "function CC_MetricsBar") c = true)
    (hcall : callStep false cv rv fc c = .ok c5 ms) :
    occursB (lit "function CC_MetricsBar") c5 = true := by
  simp only [callStep] at hcall
  split at hcall
  · rw [if_neg (by simp)] at hcall
    split at hcall
    · simp at hcall
    · cases hcall
      refine occursB_insertAfter_pres _ _
        ⟨lit "return " ++ rv ++ lit ".default.createElement(\"div\",\x7bclassName:" ++ cv ++
          lit ".inputFooter\x7d", ?_⟩
        (show ',' ∉ lit "function CC_MetricsBar" from by decide) hm
      rw [show lit ".inputFooter\x7d," = lit ".inputFooter\x7d" ++ [','] from by decide]
      simp [List.append_assoc]
  · split at hcall
    · cases hcall
      exact hm
    · cases hcall
      exact hm

/-- occursB with an empty pattern always holds. -/
theorem occursB_nil_left (h : Text) : occursB ([] : Text) h = true := by
  cases h with
  | nil => rfl
  | cons c t => rfl

/-- replaceAllF keeps a prefix of the text intact when the replaced pattern
matches nowhere strictly inside that prefix. -/
theorem replaceAllF_keeps_lead {pat rep : Text} {w : Text} :
    ∀ {t : Text} (fuel : Nat), leadsWith w t = true →
      (∀ j, j < w.length → leadsWith pat (t.drop j) = false) →
      leadsWith w (replaceAllF pat rep fuel t) = true := by
  induction w with
  | nil =>
    intro t fuel _ _
    rfl
  | cons a w' ih =>
    intro t fuel hw hnp
    cases t with
    | nil => simp [leadsWith] at hw
    | cons b t' =>
      rw [leadsWith, Bool.and_eq_true] at hw
      obtain ⟨hab, hw'⟩ := hw
      cases fuel with
      | zero =>
        rw [replaceAllF, leadsWith, hab, hw']
        rfl
      | succ fuel =>
        have h0 := hnp 0 (by simp)
        rw [List.drop_zero] at h0
        rw [replaceAllF, if_neg (by rw [h0]; exact Bool.false_ne_true),
          leadsWith, hab, Bool.true_and]
        refine ih fuel hw' (fun j hj => ?_)
        have hs := hnp (j + 1) (by rw [List.length_cons]; omega)
        exact hs

/-- Inside a text that continues an occurrence of the marker a :: mt, the
pattern pat cannot match strictly before the end of the marker when pat is
not inside the marker and no nonempty proper suffix of the marker is a
prefix of pat. -/
theorem no_pat_in_prefix_of_marker {pat : Text} {a : Char} {mt t : Text}
    (h2 : occursB pat (a :: mt) = false)
    (h3 : ∀ i < (a :: mt).length, 0 < i → leadsWith ((a :: mt).drop i) pat = false)
    (hmt : leadsWith mt t = true) :
    ∀ j, j < mt.length → leadsWith pat (t.drop j) = false := by
  intro j hj
  obtain ⟨rest2, hrest2⟩ := leadsWith_iff.mp hmt
  by_contra hcon
  rw [Bool.not_eq_false] at hcon
  obtain ⟨u, hu⟩ := leadsWith_iff.mp hcon
  rw [hrest2, List.drop_append_of_le_length (le_of_lt hj)] at hu
  rcases List.append_eq_append_iff.mp hu with ⟨k, hk1, hk2⟩ | ⟨k, hk1, hk2⟩
  · -- pat = mt.drop j ++ k : a suffix of the marker leads pat
    have h3' := h3 (j + 1) (by rw [List.length_cons]; omega) (by omega)
    have hdj : (a :: mt).drop (j + 1) = mt.drop j := rfl
    rw [hdj, hk1, leadsWith_append] at h3'
    exact absurd h3' (by simp)
  · -- mt.drop j = pat ++ k : pat sits inside the marker
    have hocc : occursB pat (a :: mt) = true := by
      apply occursB_iff.mpr
      refine ⟨a :: mt.take j, k, ?_⟩
      rw [show a :: mt = a :: (mt.take j ++ mt.drop j) from by rw [List.take_append_drop],
        hk1]
      simp
    rw [hocc] at h2
    exact absurd h2 (by simp)

/-- replaceAllF preserves every occurrence of a pattern m that cannot
overlap the replaced pattern. -/
theorem occursB_replaceAllF_pres {m pat : Text} (rep : Text)
    (h1 : occursB m pat = false) (h2 : occursB pat m = false)
    (h3 : ∀ i < m.length, 0 < i → leadsWith (m.drop i) pat = false)
    (h4 : ∀ i < pat.length, 0 < i → leadsWith (pat.drop i) m = false) :
    ∀ (fuel : Nat) (h : Text), occursB m h = true →
      occursB m (replaceAllF pat rep fuel h) = true := by
  intro fuel
  induction fuel with
  | zero =>
    intro h hm
    rw [replaceAllF]
    exact hm
  | succ fuel ih =>
    intro h hm
    cases h with
    | nil =>
      rw [replaceAllF]
      exact hm
    | cons c t =>
      by_cases hlp : leadsWith pat (c :: t) = true
      · rw [replaceAllF, if_pos hlp]
        obtain ⟨rest, hrest⟩ := leadsWith_iff.mp hlp
        have hdrop : (c :: t).drop pat.length = rest := by rw [hrest, List.drop_left]
        rw [hdrop]
        rw [hrest] at hm
        rcases occursB_append_cases hm with hA | hA |
          ⟨w, z, hmwz, hwne, hzne, ⟨p, hp⟩, ⟨s, hs⟩⟩
        · rw [hA] at h1
          exact absurd h1 (by simp)
        · exact occursB_mono_right _ (ih rest hA)
        · exfalso
          cases hpc : p with
          | nil =>
            rw [hpc, List.nil_append] at hp
            rw [hmwz, ← hp] at h2
            rw [occursB_iff.mpr ⟨[], z, by simp⟩] at h2
            exact absurd h2 (by simp)
          | cons pa pt =>
            rw [hpc] at hp
            have hlen : (pa :: pt).length < pat.length := by
              rw [hp, List.length_append]
              exact Nat.lt_add_of_pos_right (List.length_pos.mpr hwne)
            have h4' := h4 _ hlen (by simp)
            rw [hp, List.drop_left] at h4'
            rw [hmwz, leadsWith_append] at h4'
            exact absurd h4' (by simp)
      · rw [replaceAllF, if_neg hlp]
        rw [occursB] at hm
        cases hlm : leadsWith m (c :: t) with
        | false =>
          rw [hlm, Bool.false_or] at hm
          rw [occursB, ih t hm, Bool.or_true]
        | true =>
          cases hmc : m with
          | nil =>
            exact occursB_nil_left _
          | cons a mt =>
            rw [hmc] at hlm h2 h3
            rw [leadsWith, Bool.and_eq_true] at hlm
            obtain ⟨hac, hmt⟩ := hlm
            have hnp := no_pat_in_prefix_of_marker h2 h3 hmt
            have hpre := @replaceAllF_keeps_lead pat rep _ _ fuel hmt hnp
            rw [occursB, leadsWith, hac, Bool.true_and, hpre, Bool.true_or]

/-- replaceAll preserves every occurrence of a pattern m that cannot
overlap the replaced pattern. -/
theorem occursB_replaceAll_pres {m pat : Text} (rep h : Text)
    (h1 : occursB m pat = false) (h2 : occursB pat m = false)
    (h3 : ∀ i < m.length, 0 < i → leadsWith (m.drop i) pat = false)
    (h4 : ∀ i < pat.length, 0 < i → leadsWith (pat.drop i) m = false)
    (hm : occursB m h = true) : occursB m (replaceAll pat rep h) = true := by
  rw [replaceAll]
  exact occursB_replaceAllF_pres rep h1 h2 h3 h4 _ _ hm

/-- The template contains the component definition marker. -/
theorem metrics_template_marker :
    occursB (lit "function CC_MetricsBar") METRICS_TEMPLATE = true := by
  rw [METRICS_TEMPLATE]
  apply occursB_mono_right
  apply occursB_mono_right
  apply occursB_mono_left
  decide

/-- The instantiated component definition always contains the definition
marker, whatever the detected react variable and signal hook are. -/
theorem metricsDef_marker (rv sh : Text) :
    occursB (lit "function CC_MetricsBar") (metricsDef rv sh) = true := by
  rw [metricsDef]
  apply occursB_replaceAll_pres _ _ (by decide) (by decide) (by decide) (by decide)
  apply occursB_replaceAll_pres _ _ (by decide) (by decide) (by decide) (by decide)
  rw [METRICS_COMPONENT_DEF]
  apply occursB_replaceAll_pres _ _ (by decide) (by decide) (by decide) (by decide)
  exact metrics_template_marker

/-- replaceFirst makes its replacement text appear whenever the pattern
occurs. -/
theorem occursB_replaceFirst_of_rep {n pat : Text} (rep h : Text)
    (ho : occursB pat h = true) (hn : occursB n rep = true) :
    occursB n (replaceFirst pat rep h) = true := by
  obtain ⟨P, S, hPS⟩ := splitFirst_isSome ho
  rw [replaceFirst, hPS]
  exact occursB_middle P S hn

/-- Every ok outcome of the minified definition transform contains the
definition marker: either the marker was already present, or the injected
component definition brings it in. -/
theorem defStep_min_marker {cv rv sh c c4 : Text} {ms : List Msg}
    (hds : defStep false cv rv sh c = .ok c4 ms) :
    occursB (lit "function CC_MetricsBar") c4 = true := by
  simp only [defStep] at hds
  split at hds
  · next hpres =>
    cases hds
    exact hpres
  · next habs =>
    rw [if_neg (by simp)] at hds
    split at hds
    · simp at hds
    · next fn hfn =>
      split at hds
      · simp at hds
      · next hanc =>
        cases hds
        apply occursB_replaceFirst_of_rep
        · simp only [Bool.not_eq_true'] at hanc
          rw [Bool.not_eq_false] at hanc
          exact hanc
        · exact occursB_mono_left _ (occursB_mono_left _ (metricsDef_marker rv sh))

/-- C10 (amended): on every minified-classified input, every text patch_js
successfully writes satisfies the invariant: if the call marker
createElement(CC_MetricsBar is present then the definition marker
function CC_MetricsBar is present as well — the definition transform
either skips because the marker is already there or injects a component
definition that contains it, and the later minified transforms cannot
destroy it. On prettified runs the invariant fails (see the
counterexample): the same-line split can cut the only marker occurrence. -/
theorem C10_call_implies_def (t out : Text)
    (hmin : is_prettified t = false)
    (hw : (patch_js t).written = some out)
    (hcall : occursB (lit "createElement(CC_MetricsBar") out = true) :
    occursB (lit "function CC_MetricsBar") out = true := by
  simp only [patch_js] at hw
  rw [hmin] at hw
  cases hds : defStep false (detect_css_module_var t)
      (detect_react_var t (detect_css_module_var t))
      (detect_signal_hook t (detect_css_module_var t))
      ((compactStep (resultStep (updateStep (usageStep t).1).1).1).1) with
  | fail ms =>
    simp only [hds] at hw
    simp at hw
  | crash ms =>
    simp only [hds] at hw
    simp at hw
  | ok c4 ms =>
    simp only [hds] at hw
    have hm4 : occursB (lit "function CC_MetricsBar") c4 = true := defStep_min_marker hds
    cases hcs : callStep false (detect_css_module_var t)
        (detect_react_var t (detect_css_module_var t))
        (detect_footer_component t (detect_css_module_var t)) c4 with
    | fail ms2 =>
      simp only [hcs] at hw
      simp at hw
    | crash ms2 =>
      simp only [hcs] at hw
      simp at hw
    | ok c5 ms2 =>
      simp only [hcs] at hw
      simp at hw
      subst hw
      exact er0Step_pres_marker (callStep_min_pres hm4 hcs)

/-- The witness text for C10: a minified already-patched artifact carrying
both markers. -/
def c10wit : Text :=
  lit "function CC_MetricsBar()\x7b\x7d\nq7.default.createElement(CC_MetricsBar,\x7b\x7d),\n"

/-- Witness for C10: on a concrete minified artifact carrying both markers
the run succeeds and writes a text satisfying the invariant. -/
theorem C10_witness :
    (patch_js c10wit).written = some c10wit ∧
      occursB (lit "createElement(CC_MetricsBar") c10wit = true ∧
      occursB (lit "function CC_MetricsBar") c10wit = true :=
  ⟨by decide, by decide,
    C10_call_implies_def c10wit c10wit (by decide) (by decide) (by decide)⟩

end CCPatch
